import Mathlib

/-!
Verification development for the auth0-mcp-server repository.

The sources embedded here are, on one side, the token service
(dist/token-service.js: getToken, cacheToken, extractTokenFromConfig) and, on
the other side, the tool layer (src/tools.ts and the five per-family tool
files: tools-applications, tools-resource-servers, tools-actions, tools-logs,
tools-forms, together with the shared helpers of tools-common and the
tools/call request handler of server.ts).

Conventions of the embedding:
- JSON values are the inductive type Json below; JavaScript field access
  obj.f is Json.getField (undefined becomes none), JavaScript truthiness of a
  possibly-undefined value is jsTruthy, and template interpolation of a value
  into a string is jsInterp.
- Handlers are asynchronous in the source; here a handler is a function into
  HandlerStep, a tree in which every outbound fetch appears as an explicit
  fetch node whose continuation receives either an HttpReply or a network
  error (the rejection caught by the per-handler catch block).  A handler
  that returns without a fetch node issues no HTTP request.
- URL query strings are kept as association lists instead of the
  percent-encoded string URLSearchParams produces, and request bodies are
  kept as Json values instead of the JSON.stringify wire text; no claim
  inspects either encoding.
- Numeric JSON fields are modelled as integers.  The out-of-range behaviours
  of JavaScript arithmetic on non-numeric values (NaN, Infinity) are outside
  the modelled shapes; theorems restrict their hypotheses accordingly.
-/

/-- JSON value as parsed by response.json in the handlers; object fields keep
insertion order. -/
inductive Json where
  | null : Json
  | bool (b : Bool) : Json
  | num (n : Int) : Json
  | str (s : String) : Json
  | arr (elems : List Json) : Json
  | obj (fields : List (String × Json)) : Json

/-- JavaScript property access v.key on a parsed JSON value: none models
undefined (missing field or access on a non-object). -/
def Json.getField : Json → String → Option Json
  | .obj fields, key => fields.lookup key
  | _, _ => none

/-- JavaScript truthiness of a possibly-undefined value. -/
def jsTruthy : Option Json → Bool
  | none => false
  | some .null => false
  | some (.bool b) => b
  | some (.num n) => n != 0
  | some (.str s) => s != ""
  | some (.arr _) => true
  | some (.obj _) => true

mutual

/-- JavaScript string conversion of a JSON value, as performed by template
interpolation and by toString: arrays render as their comma-joined elements,
objects as the [object Object] marker. -/
def Json.render : Json → String
  | .null => "null"
  | .bool true => "true"
  | .bool false => "false"
  | .num n => n.repr
  | .str s => s
  | .arr es => Json.renderList es
  | .obj _ => "[object Object]"

/-- Array.prototype.join with separator comma: null elements render empty. -/
def Json.renderList : List Json → String
  | [] => ""
  | [.null] => ""
  | [e] => Json.render e
  | .null :: rest => "," ++ Json.renderList rest
  | e :: rest => Json.render e ++ "," ++ Json.renderList rest

end

/-- Template interpolation of a possibly-undefined value. -/
def jsInterp : Option Json → String
  | none => "undefined"
  | some j => j.render

/-- JavaScript x || y for a possibly-undefined numeric field with a numeric
default: falsy (absent, null, or zero) selects the default.  Non-numeric
truthy values are outside the modelled shapes and also select the default. -/
def jsOrNum (v : Option Json) (dflt : Int) : Int :=
  match v with
  | some (.num n) => if n = 0 then dflt else n
  | _ => dflt

/-- JavaScript x !== undefined ? x : 0 for a numeric field (the page
extraction of the applications list handler).  Non-numeric defined values are
outside the modelled shapes. -/
def jsNumOrZero (v : Option Json) : Int :=
  match v with
  | some (.num n) => n
  | _ => 0

/-- Math.ceil (t / p) for the nonnegative operands produced by the modelled
response shapes; division by zero (Infinity/NaN in JavaScript) is outside
the modelled shapes. -/
def jsCeilDiv (t p : Int) : Int :=
  if p = 0 then 0 else (t + p - 1) / p

/-- JavaScript truthiness of a string | undefined value such as
config.domain. -/
def jsTruthyStr : Option String → Bool
  | none => false
  | some s => s != ""

/-- Character-list prefix test used by the substring facilities below. -/
def beginsWith : List Char → List Char → Bool
  | [], _ => true
  | _ :: _, [] => false
  | a :: as, b :: bs => a == b && beginsWith as bs

/-- Character-list substring test. -/
def containsSeg : List Char → List Char → Bool
  | pat, [] => pat.isEmpty
  | pat, c :: rest => beginsWith pat (c :: rest) || containsSeg pat rest

/-- String.prototype.includes: substring containment. -/
def jsIncludes (s pat : String) : Bool := containsSeg pat.data s.data

/-- Substring containment oriented for response texts. -/
def textHas (s pat : String) : Bool := containsSeg pat.data s.data

/-- String.prototype.split on a one-character separator. -/
def splitChar (sep : Char) : List Char → List (List Char)
  | [] => [[]]
  | a :: rest =>
    match splitChar sep rest with
    | [] => [[a]]
    | h :: t => if a = sep then [] :: h :: t else (a :: h) :: t

/-- s.split(sep) for the single-character separators used by the handlers. -/
def jsSplit (s : String) (sep : Char) : List String :=
  (splitChar sep s.data).map List.asString

/-- Counter for lines that begin with a pipe character: the markdown table
rows of a response text.  The Boolean state records whether the scan is at
the start of a line. -/
def cpl : Bool → List Char → Nat
  | _, [] => 0
  | atStart, c :: rest =>
    (if atStart && c == '|' then 1 else 0) + cpl (c == '\n') rest

/-- Whether a scan of cs that entered with line-start state b exits at the
start of a line (i.e. cs is empty and b holds, or cs ends with a newline). -/
def endsNl : Bool → List Char → Bool
  | b, [] => b
  | _, c :: rest => endsNl (c == '\n') rest

/-- Number of markdown table lines (header, separator and data rows) in a
response text. -/
def textPipeLines (s : String) : Nat := cpl true s.data

/-! ## tools-common.ts -/

/-- Content element of a tool result; every handler emits type text. -/
structure ContentItem where
  type : String
  text : String
deriving DecidableEq

/-- ToolResult of tools-common.ts. -/
structure ToolResult where
  content : List ContentItem
  isError : Bool
deriving DecidableEq

/-- HandlerResponse of tools-common.ts. -/
structure HandlerResponse where
  toolResult : ToolResult
deriving DecidableEq

/-- formatDomain of tools-common.ts: a domain containing a dot is returned
unchanged, otherwise the default tenant suffix is appended. -/
def formatDomain (domain : String) : String :=
  if jsIncludes domain "." then domain else domain ++ ".us.auth0.com"

/-- createErrorResponse of tools-common.ts. -/
def createErrorResponse (message : String) : HandlerResponse :=
  { toolResult := { content := [{ type := "text", text := message }], isError := true } }

/-- The literal success object every handler returns: a single text content
element and isError false.  Abbreviates the object literal repeated at each
success return site of the source. -/
def successResponse (text : String) : HandlerResponse :=
  { toolResult := { content := [{ type := "text", text := text }], isError := false } }

/-- The duck-typed error value inspected by handleNetworkError: name, an
optional code property, and the message rendering. -/
structure NetErr where
  name : String
  code : Option String
  message : String

/-- handleNetworkError of tools-common.ts. -/
def handleNetworkError (e : NetErr) : String :=
  if e.name = "AbortError" then
    "Request timed out. The Auth0 API did not respond in time."
  else if e.code = some "ENOTFOUND" || e.code = some "ECONNREFUSED" then
    "Connection failed: Unable to reach the Auth0 API (" ++ e.code.getD "" ++
      "). Check your network connection."
  else if e.code = some "ECONNRESET" then
    "Connection was reset by the server. Try again later."
  else
    "Network error: " ++ e.message

/-! ## The handler execution model -/

/-- An HTTP response as the handlers observe it: status, statusText, the
parsed JSON body read by response.json on success paths, and the raw text
read by response.text on error paths.  Responses whose body fails to parse
as JSON are outside the modelled shapes (response.json would reject and the
catch block would produce a network-error response). -/
structure HttpReply where
  status : Nat
  statusText : String
  body : Json
  bodyText : String

/-- response.ok of the fetch API: status in the 200 range. -/
def HttpReply.ok (r : HttpReply) : Bool := 200 ≤ r.status && r.status < 300

/-- Outcome of one awaited fetch: a reply, or a rejection (network failure or
abort) that the per-handler catch block converts through
handleNetworkError. -/
inductive FetchOutcome where
  | reply (r : HttpReply) : FetchOutcome
  | netError (e : NetErr) : FetchOutcome

/-- One outbound HTTP request: the url as the source assembles it (without
the query string), the method, the query parameters in append order, and the
JSON body when one is sent. -/
structure FetchRequest where
  url : String
  method : String
  query : List (String × String)
  body : Option Json

/-- Execution tree of one handler invocation: either a response, or one
fetch followed by a continuation on its outcome.  A handler invocation that
is a respond node issues no HTTP request. -/
inductive HandlerStep where
  | respond (r : HandlerResponse) : HandlerStep
  | fetch (fr : FetchRequest) (k : FetchOutcome → HandlerStep) : HandlerStep

/-- HandlerRequest of tools-common.ts: the bearer token and the tool call
parameters object. -/
structure HandlerRequest where
  token : String
  parameters : Json

/-- HandlerConfig of tools-common.ts: domain is string | undefined. -/
structure HandlerConfig where
  domain : Option String

/-- The type of one registered handler function. -/
def Handler := HandlerRequest → HandlerConfig → HandlerStep

/-! ## dist/token-service.js -/

/-- Default timeout for token retrieval, kept for reference; in this model a
timed-out or failed subprocess is an execToken result of none. -/
def DEFAULT_TIMEOUT_MS : Nat := 10000

/-- Cache TTL: 55 minutes in milliseconds. -/
def CACHE_TTL_MS : Nat := 55 * 60 * 1000

/-- The module-level tokenCache entry. -/
structure TokenCacheEntry where
  token : String
  expiresAt : Nat
deriving DecidableEq

/-- The environment one getToken call runs in: the two environment
variables, the file-existence test, the result of running a token command
with timeout (none covers a non-zero exit, an empty stdout, a spawn error
and a timeout kill), the contents of the two candidate config files (none
when the file is absent or its JSON fails to parse), and the clock. -/
structure TokenWorld where
  envToken : Option String
  envCliPath : Option String
  cliExists : String → Bool
  execToken : String → Option String
  configFile1 : Option Json
  configFile2 : Option Json
  now : Nat

/-- Result of one getToken call: the returned token or the thrown message,
the tokenCache after the call, and the subprocess commands executed. -/
structure GetTokenResult where
  result : Except String String
  cache : Option TokenCacheEntry
  execs : List String

/-- cacheToken of token-service.js: the fresh cache entry written after a
successful non-environment retrieval. -/
def cacheToken (w : TokenWorld) (token : String) : TokenCacheEntry :=
  { token := token, expiresAt := w.now + CACHE_TTL_MS }

/-- The second probe of extractTokenFromConfig on one parsed config file:
the access_token of the tenant named by default_tenant. -/
def configDefaultTenant (file : Json) : Option String :=
  match file.getField "default_tenant" with
  | some (.str dt) =>
    if dt != "" then
      match file.getField "tenants" with
      | some tenants =>
        match tenants.getField dt with
        | some tenant =>
          match tenant.getField "access_token" with
          | some (.str s) => if s != "" then some s else none
          | _ => none
        | none => none
      | none => none
    else none
  | _ => none

/-- Extraction of a token from one parsed config file: a truthy top-level
access_token, else the access_token of the default tenant.  Tokens are
strings in the modelled config shapes. -/
def configFileToken (file : Json) : Option String :=
  match file.getField "access_token" with
  | some (.str s) => if s != "" then some s else configDefaultTenant file
  | _ => configDefaultTenant file

/-- extractTokenFromConfig of token-service.js: the first candidate config
file that yields a token wins. -/
def extractTokenFromConfig (w : TokenWorld) : Option String :=
  match w.configFile1 with
  | some file =>
    match configFileToken file with
    | some t => some t
    | none =>
      match w.configFile2 with
      | some file2 => configFileToken file2
      | none => none
  | none =>
    match w.configFile2 with
    | some file2 => configFileToken file2
    | none => none

/-- Method 1 of the try block of getToken: the AUTH0_CLI_PATH subprocess,
attempted only when the variable is truthy and the path exists.  Returns the
token outcome and the commands executed. -/
def cliPathAttempt (w : TokenWorld) : Option String × List String :=
  match w.envCliPath with
  | some cliPath =>
    if cliPath != "" && w.cliExists cliPath then
      let cmd := "\"" ++ cliPath ++ "\" api get-token"
      (w.execToken cmd, [cmd])
    else (none, [])
  | none => (none, [])

/-- The body of the try block of getToken: the three fallback methods
attempted once the environment token and the cache have been ruled out.
Every success writes a fresh cache entry through cacheToken; exhaustion
throws, leaving the cache untouched. -/
def retrieveFreshToken (w : TokenWorld) (tokenCache : Option TokenCacheEntry) :
    GetTokenResult :=
  match cliPathAttempt w with
  | (some token, execs) =>
    { result := .ok token, cache := some (cacheToken w token), execs := execs }
  | (none, execs1) =>
    let cmd2 := "auth0 api get-token"
    match w.execToken cmd2 with
    | some token =>
      { result := .ok token, cache := some (cacheToken w token), execs := execs1 ++ [cmd2] }
    | none =>
      match extractTokenFromConfig w with
      | some token =>
        { result := .ok token, cache := some (cacheToken w token), execs := execs1 ++ [cmd2] }
      | none =>
        { result := .error
            "Token retrieval failed: Failed to retrieve Auth0 token using all available methods",
          cache := tokenCache, execs := execs1 ++ [cmd2] }

/-- Validity test of the cache entry as getToken performs it:
tokenCache && tokenCache.expiresAt > Date.now (). -/
def cacheValid (tokenCache : Option TokenCacheEntry) (now : Nat) : Bool :=
  match tokenCache with
  | some entry => decide (entry.expiresAt > now)
  | none => false

/-- getToken of token-service.js.  The call happens at one instant w.now;
the small drift between the two Date.now () reads of the source is not
modelled. -/
def getToken (w : TokenWorld) (tokenCache : Option TokenCacheEntry)
    (forceRefresh : Bool) : GetTokenResult :=
  if jsTruthyStr w.envToken && !forceRefresh then
    { result := .ok (w.envToken.getD ""), cache := tokenCache, execs := [] }
  else if !forceRefresh && cacheValid tokenCache w.now then
    { result := .ok ((tokenCache.map TokenCacheEntry.token).getD ""),
      cache := tokenCache, execs := [] }
  else
    retrieveFreshToken w tokenCache

/-! ## tools-applications.ts -/

/-- Guard of the pattern x && x.length over a field expected to hold an
array: the element list when the field is a non-empty array.  Fields of
other types on which the source would then call array methods (and throw
into its catch-all) are outside the modelled shapes. -/
def jsArrayNonempty (v : Option Json) : Option (List Json) :=
  match v with
  | some (.arr (c :: cs)) => some (c :: cs)
  | _ => none

/-- Field list of an object literal built from possibly-undefined values:
undefined members are dropped, as JSON.stringify does. -/
def jsObjOfPresent (fields : List (String × Option Json)) : Json :=
  .obj (fields.filterMap (fun kv => kv.2.map (fun j => (kv.1, j))))

/-- Name cell of one row of the applications table. -/
def appNameCell (app : Json) : String := jsInterp (app.getField "name")

/-- Type cell: app.app_type || the Unknown marker. -/
def appTypeCell (app : Json) : String :=
  if jsTruthy (app.getField "app_type") then jsInterp (app.getField "app_type")
  else "Unknown"

/-- Description cell: app.description || the dash placeholder (applied in
the mapping step and again in the row template; the two defaults
collapse). -/
def appDescriptionCell (app : Json) : String :=
  if jsTruthy (app.getField "description") then jsInterp (app.getField "description")
  else "-"

/-- Domain cell: the third slash-separated component of the first callback
URL, or the dash placeholder.  A non-string first callback makes the source
throw into its catch-all and is outside the modelled items. -/
def appDomainCell (app : Json) : String :=
  match app.getField "callbacks" with
  | some (.arr (c0 :: _)) =>
    match c0 with
    | .str s =>
      match (jsSplit s '/').get? 2 with
      | some d => if d != "" then d else "-"
      | none => "-"
    | _ => "-"
  | _ => "-"

/-- Client id cell of the trailing reference list. -/
def appIdCell (app : Json) : String := jsInterp (app.getField "client_id")

/-- One data row of the applications table. -/
def appRowText (app : Json) : String :=
  "| " ++ appNameCell app ++ " | " ++ appTypeCell app ++ " | " ++
    appDescriptionCell app ++ " | " ++ appDomainCell app ++ " |\n"

/-- One line of the Client IDs for Reference list. -/
def appIdLine (app : Json) : String :=
  "- **" ++ appNameCell app ++ "**: `" ++ appIdCell app ++ "`\n"

/-- Status-code classification of a failed applications list request. -/
def auth0_list_applications_errorMessage (response : HttpReply) : String :=
  let errorMessage := "Failed to list applications: " ++ response.status.repr ++
    " " ++ response.statusText
  if response.status = 401 then
    errorMessage ++ "\nError: Unauthorized. Your token might be expired or invalid. Try running \"auth0 login\" to refresh your token."
  else if response.status = 403 then
    errorMessage ++ "\nError: Forbidden. Your token might not have the required scopes (read:clients). Try running \"auth0 login --scopes read:clients\" to get the proper permissions."
  else if response.status = 429 then
    errorMessage ++ "\nError: Rate limited. You have made too many requests to the Auth0 API. Please try again later."
  else if response.status ≥ 500 then
    errorMessage ++ "\nError: Auth0 server error. The Auth0 API might be experiencing issues. Please try again later."
  else errorMessage

/-- Markdown text of a successful applications list response. -/
def auth0_list_applications_formatText (clients : List Json) (body : Json) : String :=
  let applicationsLen : Int := Int.ofNat clients.length
  let total := jsOrNum (body.getField "total") applicationsLen
  let page := jsNumOrZero (body.getField "page")
  let perPage := jsOrNum (body.getField "per_page") applicationsLen
  let totalPages := jsCeilDiv total perPage
  let resultText :=
    "### Auth0 Applications (" ++ Nat.repr clients.length ++ "/" ++ total.repr ++ ")\n\n" ++
    "| Name | Type | Description | Domain |\n" ++
    "|------|------|-------------|--------|\n" ++
    String.join (clients.map appRowText)
  let resultText :=
    if totalPages > 1 then
      resultText ++ "\n*Page " ++ (page + 1).repr ++ " of " ++ totalPages.repr ++
        " (" ++ perPage.repr ++ " items per page)*" ++
        "\n\nTo see more results, use: `auth0_list_applications(page=$\x7bnextPage\x7d)`"
    else resultText
  if clients.length > 0 then
    resultText ++ "\n### Client IDs for Reference\n\n" ++
      String.join (clients.map appIdLine)
  else resultText

/-- Continuation of auth0_list_applications on its one fetch. -/
def auth0_list_applications_onResponse : FetchOutcome → HandlerStep
  | .netError e => .respond (createErrorResponse (handleNetworkError e))
  | .reply response =>
    if !response.ok then
      .respond (createErrorResponse (auth0_list_applications_errorMessage response))
    else
      match response.body.getField "clients" with
      | some (.arr clients) =>
        .respond (successResponse (auth0_list_applications_formatText clients response.body))
      | _ =>
        .respond (createErrorResponse
          "Error: Received invalid response format from Auth0 API. The \"clients\" array is missing or invalid.")

/-- Handler auth0_list_applications. -/
def auth0_list_applications : Handler := fun request config =>
  if !jsTruthyStr config.domain then
    .respond (createErrorResponse "Error: AUTH0_DOMAIN environment variable is not set")
  else
    let domain := formatDomain (config.domain.getD "")
    let params : List (String × String) :=
      (match request.parameters.getField "page" with
       | some v => [("page", jsInterp (some v))]
       | none => []) ++
      (match request.parameters.getField "per_page" with
       | some v => [("per_page", jsInterp (some v))]
       | none => [("per_page", "5")]) ++
      (match request.parameters.getField "include_totals" with
       | some v => [("include_totals", jsInterp (some v))]
       | none => [("include_totals", "true")])
    .fetch { url := "https://" ++ domain ++ "/api/v2/clients", method := "GET",
             query := params, body := none }
      auth0_list_applications_onResponse

/-- Status-code classification of a failed application get. -/
def auth0_get_application_errorMessage (clientId : Option Json) (response : HttpReply) : String :=
  let errorMessage := "Failed to get application: " ++ response.status.repr ++
    " " ++ response.statusText
  if response.status = 404 then
    "Application with client_id \x27" ++ jsInterp clientId ++ "\x27 not found."
  else if response.status = 401 then
    errorMessage ++ "\nError: Unauthorized. Your token might be expired or invalid or missing read:clients scope."
  else errorMessage

/-- Markdown text of a successful application get. -/
def auth0_get_application_formatText (application : Json) : String :=
  let resultText := "### Application: " ++ jsInterp (application.getField "name") ++ "\n\n" ++
    "- **Client ID**: " ++ jsInterp (application.getField "client_id") ++ "\n" ++
    "- **Type**: " ++ (if jsTruthy (application.getField "app_type") then
      jsInterp (application.getField "app_type") else "Not specified") ++ "\n" ++
    "- **Description**: " ++ (if jsTruthy (application.getField "description") then
      jsInterp (application.getField "description") else "No description") ++ "\n\n"
  let resultText :=
    if jsTruthy (application.getField "client_secret") then
      resultText ++ "- **Client Secret**: `" ++
        jsInterp (application.getField "client_secret") ++ "`\n\n"
    else resultText
  let resultText :=
    match jsArrayNonempty (application.getField "callbacks") with
    | some urls =>
      resultText ++ "#### Callback URLs\n\n" ++
        String.join (urls.map (fun url => "- " ++ jsInterp (some url) ++ "\n")) ++ "\n"
    | none => resultText
  match jsArrayNonempty (application.getField "allowed_origins") with
  | some urls =>
    resultText ++ "#### Allowed Origins\n\n" ++
      String.join (urls.map (fun url => "- " ++ jsInterp (some url) ++ "\n")) ++ "\n"
  | none => resultText

/-- Continuation of auth0_get_application on its one fetch. -/
def auth0_get_application_onResponse (clientId : Option Json) : FetchOutcome → HandlerStep
  | .netError e => .respond (createErrorResponse (handleNetworkError e))
  | .reply response =>
    if !response.ok then
      .respond (createErrorResponse (auth0_get_application_errorMessage clientId response))
    else
      .respond (successResponse (auth0_get_application_formatText response.body))

/-- Handler auth0_get_application. -/
def auth0_get_application : Handler := fun request config =>
  if !jsTruthyStr config.domain then
    .respond (createErrorResponse "Error: AUTH0_DOMAIN environment variable is not set")
  else
    let clientId := request.parameters.getField "client_id"
    if !jsTruthy clientId then
      .respond (createErrorResponse "Error: client_id is required")
    else
      let domain := formatDomain (config.domain.getD "")
      .fetch { url := "https://" ++ domain ++ "/api/v2/clients/" ++ jsInterp clientId,
               method := "GET", query := [], body := none }
        (auth0_get_application_onResponse clientId)

/-- Status-code classification of a failed application create. -/
def auth0_create_application_errorMessage (response : HttpReply) : String :=
  let errorMessage := "Failed to create application: " ++ response.status.repr ++
    " " ++ response.statusText
  if response.status = 401 then
    errorMessage ++ "\nError: Unauthorized. Your token might be expired or invalid or missing create:clients scope."
  else if response.status = 422 then
    errorMessage ++ "\nError: Validation errors in your request. Check that your parameters are valid."
  else errorMessage

/-- Markdown text of a successful application create. -/
def auth0_create_application_formatText (newApplication : Json) : String :=
  let resultText := "### Application Created Successfully\n\n" ++
    "- **Name**: " ++ jsInterp (newApplication.getField "name") ++ "\n" ++
    "- **Client ID**: " ++ jsInterp (newApplication.getField "client_id") ++ "\n" ++
    "- **Type**: " ++ (if jsTruthy (newApplication.getField "app_type") then
      jsInterp (newApplication.getField "app_type") else "Not specified") ++ "\n" ++
    "- **Description**: " ++ (if jsTruthy (newApplication.getField "description") then
      jsInterp (newApplication.getField "description") else "No description") ++ "\n\n"
  let resultText :=
    if jsTruthy (newApplication.getField "client_secret") then
      resultText ++ "- **Client Secret**: `" ++
        jsInterp (newApplication.getField "client_secret") ++ "`\n\n" ++
        "⚠️ **Important**: Save the client secret as it won\x27t be accessible again.\n\n"
    else resultText
  match jsArrayNonempty (newApplication.getField "callbacks") with
  | some urls =>
    resultText ++ "#### Callback URLs\n\n" ++
      String.join (urls.map (fun url => "- " ++ jsInterp (some url) ++ "\n")) ++ "\n"
  | none => resultText

/-- Continuation of auth0_create_application on its one fetch. -/
def auth0_create_application_onResponse : FetchOutcome → HandlerStep
  | .netError e => .respond (createErrorResponse (handleNetworkError e))
  | .reply response =>
    if !response.ok then
      .respond (createErrorResponse (auth0_create_application_errorMessage response))
    else
      .respond (successResponse (auth0_create_application_formatText response.body))

/-- Handler auth0_create_application. -/
def auth0_create_application : Handler := fun request config =>
  if !jsTruthyStr config.domain then
    .respond (createErrorResponse "Error: AUTH0_DOMAIN environment variable is not set")
  else
    let p := request.parameters
    if !jsTruthy (p.getField "name") then
      .respond (createErrorResponse "Error: name is required")
    else if !jsTruthy (p.getField "app_type") then
      .respond (createErrorResponse "Error: app_type is required")
    else
      let domain := formatDomain (config.domain.getD "")
      let requestBody := jsObjOfPresent
        [("name", p.getField "name"), ("app_type", p.getField "app_type"),
         ("description", p.getField "description"), ("callbacks", p.getField "callbacks"),
         ("allowed_origins", p.getField "allowed_origins")]
      .fetch { url := "https://" ++ domain ++ "/api/v2/clients", method := "POST",
               query := [], body := some requestBody }
        auth0_create_application_onResponse

/-- Status-code classification of a failed application update. -/
def auth0_update_application_errorMessage (clientId : Option Json) (response : HttpReply) : String :=
  let errorMessage := "Failed to update application: " ++ response.status.repr ++
    " " ++ response.statusText
  if response.status = 404 then
    "Application with client_id \x27" ++ jsInterp clientId ++ "\x27 not found."
  else if response.status = 401 then
    errorMessage ++ "\nError: Unauthorized. Your token might be expired or invalid or missing update:clients scope."
  else errorMessage

/-- Markdown text of a successful application update. -/
def auth0_update_application_formatText (updatedApplication : Json) : String :=
  let resultText := "### Application Updated Successfully\n\n" ++
    "- **Name**: " ++ jsInterp (updatedApplication.getField "name") ++ "\n" ++
    "- **Client ID**: " ++ jsInterp (updatedApplication.getField "client_id") ++ "\n" ++
    "- **Type**: " ++ (if jsTruthy (updatedApplication.getField "app_type") then
      jsInterp (updatedApplication.getField "app_type") else "Not specified") ++ "\n" ++
    "- **Description**: " ++ (if jsTruthy (updatedApplication.getField "description") then
      jsInterp (updatedApplication.getField "description") else "No description") ++ "\n\n"
  match jsArrayNonempty (updatedApplication.getField "callbacks") with
  | some urls =>
    resultText ++ "#### Callback URLs\n\n" ++
      String.join (urls.map (fun url => "- " ++ jsInterp (some url) ++ "\n")) ++ "\n"
  | none => resultText

/-- Continuation of auth0_update_application on its one fetch. -/
def auth0_update_application_onResponse (clientId : Option Json) : FetchOutcome → HandlerStep
  | .netError e => .respond (createErrorResponse (handleNetworkError e))
  | .reply response =>
    if !response.ok then
      .respond (createErrorResponse (auth0_update_application_errorMessage clientId response))
    else
      .respond (successResponse (auth0_update_application_formatText response.body))

/-- Handler auth0_update_application. -/
def auth0_update_application : Handler := fun request config =>
  if !jsTruthyStr config.domain then
    .respond (createErrorResponse "Error: AUTH0_DOMAIN environment variable is not set")
  else
    let p := request.parameters
    let clientId := p.getField "client_id"
    if !jsTruthy clientId then
      .respond (createErrorResponse "Error: client_id is required")
    else
      let updateBody := jsObjOfPresent
        [("name", p.getField "name"), ("description", p.getField "description"),
         ("callbacks", p.getField "callbacks"), ("allowed_origins", p.getField "allowed_origins")]
      let domain := formatDomain (config.domain.getD "")
      .fetch { url := "https://" ++ domain ++ "/api/v2/clients/" ++ jsInterp clientId,
               method := "PATCH", query := [], body := some updateBody }
        (auth0_update_application_onResponse clientId)

/-- Status-code classification of a failed application delete. -/
def auth0_delete_application_errorMessage (clientId : Option Json) (response : HttpReply) : String :=
  let errorMessage := "Failed to delete application: " ++ response.status.repr ++
    " " ++ response.statusText
  if response.status = 404 then
    "Application with client_id \x27" ++ jsInterp clientId ++ "\x27 not found."
  else if response.status = 401 then
    errorMessage ++ "\nError: Unauthorized. Your token might be expired or invalid or missing delete:clients scope."
  else errorMessage

/-- Continuation of auth0_delete_application on its one fetch. -/
def auth0_delete_application_onResponse (clientId : Option Json) : FetchOutcome → HandlerStep
  | .netError e => .respond (createErrorResponse (handleNetworkError e))
  | .reply response =>
    if !response.ok then
      .respond (createErrorResponse (auth0_delete_application_errorMessage clientId response))
    else
      .respond (successResponse ("### Application Deleted Successfully\n\n" ++
        "Application with client_id \x27" ++ jsInterp clientId ++ "\x27 has been deleted."))

/-- Handler auth0_delete_application. -/
def auth0_delete_application : Handler := fun request config =>
  if !jsTruthyStr config.domain then
    .respond (createErrorResponse "Error: AUTH0_DOMAIN environment variable is not set")
  else
    let clientId := request.parameters.getField "client_id"
    if !jsTruthy clientId then
      .respond (createErrorResponse "Error: client_id is required")
    else
      let domain := formatDomain (config.domain.getD "")
      .fetch { url := "https://" ++ domain ++ "/api/v2/clients/" ++ jsInterp clientId,
               method := "DELETE", query := [], body := none }
        (auth0_delete_application_onResponse clientId)

/-- Escaping of double quotes in the search term: replace(/"/g, backslash-quote). -/
def escapeQuotes (s : String) : String :=
  ((s.data.map (fun c => if c = '"' then ['\\', '"'] else [c])).flatten).asString

/-- The Lucene-style q parameter of the applications search: quoted exact
match when the term has a space or a character outside a-zA-Z0-9, prefix
search otherwise. -/
def searchQueryParam (searchName : String) : String :=
  if jsIncludes searchName " " || searchName.data.any (fun c => !c.isAlphanum) then
    "name:\"" ++ escapeQuotes searchName ++ "\""
  else
    "name:" ++ searchName ++ "*"

/-- One data row of the applications search table. -/
def searchAppRowText (app : Json) : String :=
  let name := if jsTruthy (app.getField "name") then jsInterp (app.getField "name")
    else "Unnamed Application"
  let clientId := if jsTruthy (app.getField "client_id") then jsInterp (app.getField "client_id")
    else "-"
  let appType := if jsTruthy (app.getField "app_type") then jsInterp (app.getField "app_type")
    else "-"
  let description := if jsTruthy (app.getField "description") then jsInterp (app.getField "description")
    else "-"
  "| " ++ name ++ " | " ++ clientId ++ " | " ++ appType ++ " | " ++ description ++ " |\n"

/-- One line of the reference list of the applications search. -/
def searchAppIdLine (app : Json) : String :=
  let name := if jsTruthy (app.getField "name") then jsInterp (app.getField "name")
    else "Unnamed Application"
  "- **" ++ name ++ "**: `" ++ jsInterp (app.getField "client_id") ++ "`\n"

/-- Status-code classification of a failed applications search. -/
def auth0_search_applications_errorMessage (response : HttpReply) : String :=
  let errorMessage := "Failed to search applications: " ++ response.status.repr ++
    " " ++ response.statusText
  if response.status = 401 then
    errorMessage ++ "\nError: Unauthorized. Your token might be expired or invalid or missing read:clients scope."
  else errorMessage

/-- Markdown text of a successful applications search with at least one
result. -/
def auth0_search_applications_formatText (searchName : String) (applications : List Json)
    (total page perPage : Int) : String :=
  let applicationsLen : Int := Int.ofNat applications.length
  let resultText := "### Auth0 Applications Matching \"" ++ searchName ++ "\" (" ++
    Nat.repr applications.length ++
    (if total > applicationsLen then " of " ++ total.repr else "") ++ ")\n\n" ++
    "| Name | Client ID | Type | Description |\n" ++
    "|------|-----------|------|-------------|\n" ++
    String.join (applications.map searchAppRowText)
  let resultText :=
    if applicationsLen < total then
      let totalPages := jsCeilDiv total perPage
      let nextPage := if page + 1 < totalPages then page + 1 else 0
      let resultText := resultText ++ "\n*Page " ++ (page + 1).repr ++ " of " ++
        totalPages.repr ++ " (" ++ perPage.repr ++ " items per page, " ++
        total.repr ++ " total)*\n"
      if nextPage > 0 then
        resultText ++ "\nTo see more results, use: `auth0_search_applications(name=\"" ++
          searchName ++ "\", page=" ++ nextPage.repr ++ ")`\n"
      else resultText
    else resultText
  let resultText :=
    if applications.length > 0 then
      resultText ++ "\nTo view details of a specific application, use: `auth0_get_application(client_id=\"client_id\")`\n"
    else resultText
  if applications.length > 0 then
    resultText ++ "\n### Client IDs for Reference\n\n" ++
      String.join (applications.map searchAppIdLine)
  else resultText

/-- Shape dispatch of the applications search response: a bare array keeps
the initial page 0 and perPage 10, an object must carry a clients array;
any other shape is unsupported. -/
def searchAppsExtract (body : Json) : Option (List Json × Int × Int × Int) :=
  match body with
  | .arr applications => some (applications, Int.ofNat applications.length, 0, 10)
  | .obj fields =>
    match Json.getField (.obj fields) "clients" with
    | some (.arr applications) =>
      some (applications,
        jsOrNum (Json.getField (.obj fields) "total") (Int.ofNat applications.length),
        jsOrNum (Json.getField (.obj fields) "page") 0,
        jsOrNum (Json.getField (.obj fields) "per_page") (Int.ofNat applications.length))
    | _ => none
  | _ => none

/-- Continuation of auth0_search_applications on its one fetch. -/
def auth0_search_applications_onResponse (searchName : String) : FetchOutcome → HandlerStep
  | .netError e => .respond (createErrorResponse (handleNetworkError e))
  | .reply response =>
    if !response.ok then
      .respond (createErrorResponse (auth0_search_applications_errorMessage response))
    else
      match searchAppsExtract response.body with
      | none =>
        .respond (createErrorResponse "Error: Received invalid response format from Auth0 API.")
      | some (applications, total, page, perPage) =>
        if applications.length = 0 then
          .respond (successResponse ("No applications found matching the name \"" ++
            searchName ++ "\"."))
        else
          .respond (successResponse (auth0_search_applications_formatText searchName
            applications total page perPage))

/-- Handler auth0_search_applications. -/
def auth0_search_applications : Handler := fun request config =>
  if !jsTruthyStr config.domain then
    .respond (createErrorResponse "Error: AUTH0_DOMAIN environment variable is not set")
  else
    let searchNameV := request.parameters.getField "name"
    if !jsTruthy searchNameV then
      .respond (createErrorResponse "Error: name parameter is required")
    else
      let searchName := jsInterp searchNameV
      let domain := formatDomain (config.domain.getD "")
      let params : List (String × String) :=
        [("q", searchQueryParam searchName), ("search_engine", "v3")] ++
        (match request.parameters.getField "page" with
         | some v => [("page", jsInterp (some v))]
         | none => []) ++
        (match request.parameters.getField "per_page" with
         | some v => [("per_page", jsInterp (some v))]
         | none => [("per_page", "10")]) ++
        (match request.parameters.getField "include_totals" with
         | some v => [("include_totals", jsInterp (some v))]
         | none => [("include_totals", "true")])
      .fetch { url := "https://" ++ domain ++ "/api/v2/clients", method := "GET",
               query := params, body := none }
        (auth0_search_applications_onResponse searchName)

/-! ## tools-resource-servers.ts (first document: resource servers) -/

/-- Scopes cell of one row of the resource servers table:
server.scopes?.length || 0. -/
def rsScopesCount (server : Json) : Nat :=
  match server.getField "scopes" with
  | some (.arr es) => es.length
  | _ => 0

/-- One data row of the resource servers table. -/
def rsRowText (server : Json) : String :=
  "| " ++ jsInterp (server.getField "name") ++ " | " ++
    jsInterp (server.getField "identifier") ++ " | " ++
    Nat.repr (rsScopesCount server) ++ " |\n"

/-- One line of the Resource Server IDs for Reference list. -/
def rsIdLine (server : Json) : String :=
  "- **" ++ jsInterp (server.getField "name") ++ "**: `" ++
    jsInterp (server.getField "id") ++ "`\n"

/-- Status-code classification of a failed resource servers list request. -/
def auth0_list_resource_servers_errorMessage (response : HttpReply) : String :=
  let errorMessage := "Failed to list resource servers: " ++ response.status.repr ++
    " " ++ response.statusText
  if response.status = 401 then
    errorMessage ++ "\nError: Unauthorized. Your token might be expired or invalid. Try running \"auth0 login\" to refresh your token."
  else if response.status = 403 then
    errorMessage ++ "\nError: Forbidden. Your token might not have the required scopes (read:resource_servers). Try running \"auth0 login --scopes read:resource_servers\" to get the proper permissions."
  else if response.status = 429 then
    errorMessage ++ "\nError: Rate limited. You have made too many requests to the Auth0 API. Please try again later."
  else if response.status ≥ 500 then
    errorMessage ++ "\nError: Auth0 server error. The Auth0 API might be experiencing issues. Please try again later."
  else errorMessage

/-- Markdown text of a successful resource servers list response. -/
def auth0_list_resource_servers_formatText (servers : List Json) (body : Json) : String :=
  let serversLen : Int := Int.ofNat servers.length
  let total := jsOrNum (body.getField "total") serversLen
  let page := jsNumOrZero (body.getField "page")
  let perPage := jsOrNum (body.getField "per_page") serversLen
  let totalPages := jsCeilDiv total perPage
  let resultText :=
    "### Auth0 Resource Servers (" ++ Nat.repr servers.length ++ "/" ++ total.repr ++ ")\n\n" ++
    "| Name | Identifier | Scopes |\n" ++
    "|------|------------|--------|\n" ++
    String.join (servers.map rsRowText)
  let resultText :=
    if totalPages > 1 then
      resultText ++ "\n*Page " ++ (page + 1).repr ++ " of " ++ totalPages.repr ++
        " (" ++ perPage.repr ++ " items per page)*" ++
        "\n\nTo see more results, use: `auth0_list_resource_servers(page=$\x7bnextPage\x7d)`"
    else resultText
  if servers.length > 0 then
    resultText ++ "\n### Resource Server IDs for Reference\n\n" ++
      String.join (servers.map rsIdLine)
  else resultText

/-- Continuation of auth0_list_resource_servers on its one fetch. -/
def auth0_list_resource_servers_onResponse : FetchOutcome → HandlerStep
  | .netError e => .respond (createErrorResponse (handleNetworkError e))
  | .reply response =>
    if !response.ok then
      .respond (createErrorResponse (auth0_list_resource_servers_errorMessage response))
    else
      match response.body.getField "resource_servers" with
      | some (.arr servers) =>
        .respond (successResponse (auth0_list_resource_servers_formatText servers response.body))
      | _ =>
        .respond (createErrorResponse
          "Error: Received invalid response format from Auth0 API. The \"resource_servers\" array is missing or invalid.")

/-- Handler auth0_list_resource_servers. -/
def auth0_list_resource_servers : Handler := fun request config =>
  if !jsTruthyStr config.domain then
    .respond (createErrorResponse "Error: AUTH0_DOMAIN environment variable is not set")
  else
    let domain := formatDomain (config.domain.getD "")
    let params : List (String × String) :=
      (match request.parameters.getField "page" with
       | some v => [("page", jsInterp (some v))]
       | none => []) ++
      (match request.parameters.getField "per_page" with
       | some v => [("per_page", jsInterp (some v))]
       | none => [("per_page", "5")]) ++
      (match request.parameters.getField "include_totals" with
       | some v => [("include_totals", jsInterp (some v))]
       | none => [("include_totals", "true")])
    .fetch { url := "https://" ++ domain ++ "/api/v2/resource-servers", method := "GET",
             query := params, body := none }
      auth0_list_resource_servers_onResponse

/-- The scopes table shared by the resource server detail texts. -/
def rsScopesTable (scopes : List Json) : String :=
  "#### Scopes (" ++ Nat.repr scopes.length ++ ")\n\n" ++
  "| Scope | Description |\n" ++
  "|-------|-------------|\n" ++
  String.join (scopes.map (fun scope =>
    "| `" ++ jsInterp (scope.getField "value") ++ "` | " ++
      (if jsTruthy (scope.getField "description") then jsInterp (scope.getField "description")
       else "-") ++ " |\n")) ++ "\n"

/-- Status-code classification of a failed resource server get. -/
def auth0_get_resource_server_errorMessage (id : Option Json) (response : HttpReply) : String :=
  let errorMessage := "Failed to get resource server: " ++ response.status.repr ++
    " " ++ response.statusText
  if response.status = 404 then
    "Resource server with id \x27" ++ jsInterp id ++ "\x27 not found."
  else if response.status = 401 then
    errorMessage ++ "\nError: Unauthorized. Your token might be expired or invalid or missing read:resource_servers scope."
  else errorMessage

/-- Markdown text of a successful resource server get. -/
def auth0_get_resource_server_formatText (resourceServer : Json) : String :=
  let resultText := "### Resource Server: " ++ jsInterp (resourceServer.getField "name") ++ "\n\n" ++
    "- **ID**: " ++ jsInterp (resourceServer.getField "id") ++ "\n" ++
    "- **Identifier**: " ++ jsInterp (resourceServer.getField "identifier") ++ "\n" ++
    "- **Signing Algorithm**: " ++ (if jsTruthy (resourceServer.getField "signing_alg") then
      jsInterp (resourceServer.getField "signing_alg") else "Not specified") ++ "\n" ++
    "- **Token Lifetime**: " ++ (if jsTruthy (resourceServer.getField "token_lifetime") then
      jsInterp (resourceServer.getField "token_lifetime") else "Default") ++ " seconds\n" ++
    "- **Allow Offline Access**: " ++ (if jsTruthy (resourceServer.getField "allow_offline_access") then
      "Yes" else "No") ++ "\n\n"
  match jsArrayNonempty (resourceServer.getField "scopes") with
  | some scopes => resultText ++ rsScopesTable scopes
  | none => resultText ++ "#### Scopes\n\nNo scopes defined for this resource server.\n\n"

/-- Continuation of auth0_get_resource_server on its one fetch. -/
def auth0_get_resource_server_onResponse (id : Option Json) : FetchOutcome → HandlerStep
  | .netError e => .respond (createErrorResponse (handleNetworkError e))
  | .reply response =>
    if !response.ok then
      .respond (createErrorResponse (auth0_get_resource_server_errorMessage id response))
    else
      .respond (successResponse (auth0_get_resource_server_formatText response.body))

/-- Handler auth0_get_resource_server. -/
def auth0_get_resource_server : Handler := fun request config =>
  if !jsTruthyStr config.domain then
    .respond (createErrorResponse "Error: AUTH0_DOMAIN environment variable is not set")
  else
    let id := request.parameters.getField "id"
    if !jsTruthy id then
      .respond (createErrorResponse "Error: id is required")
    else
      let domain := formatDomain (config.domain.getD "")
      .fetch { url := "https://" ++ domain ++ "/api/v2/resource-servers/" ++ jsInterp id,
               method := "GET", query := [], body := none }
        (auth0_get_resource_server_onResponse id)

/-- Status-code classification of a failed resource server create. -/
def auth0_create_resource_server_errorMessage (response : HttpReply) : String :=
  let errorMessage := "Failed to create resource server: " ++ response.status.repr ++
    " " ++ response.statusText
  if response.status = 401 then
    errorMessage ++ "\nError: Unauthorized. Your token might be expired or invalid or missing create:resource_servers scope."
  else if response.status = 422 then
    errorMessage ++ "\nError: Validation errors in your request. Check that your parameters are valid."
  else if response.status = 409 then
    errorMessage ++ "\nError: A resource server with this identifier already exists."
  else errorMessage

/-- Markdown text of a successful resource server create. -/
def auth0_create_resource_server_formatText (newResourceServer : Json) : String :=
  let resultText := "### Resource Server Created Successfully\n\n" ++
    "- **Name**: " ++ jsInterp (newResourceServer.getField "name") ++ "\n" ++
    "- **ID**: " ++ jsInterp (newResourceServer.getField "id") ++ "\n" ++
    "- **Identifier**: " ++ jsInterp (newResourceServer.getField "identifier") ++ "\n"
  let resultText :=
    if jsTruthy (newResourceServer.getField "signing_alg") then
      resultText ++ "- **Signing Algorithm**: " ++
        jsInterp (newResourceServer.getField "signing_alg") ++ "\n"
    else resultText
  let resultText :=
    if jsTruthy (newResourceServer.getField "token_lifetime") then
      resultText ++ "- **Token Lifetime**: " ++
        jsInterp (newResourceServer.getField "token_lifetime") ++ " seconds\n"
    else resultText
  let resultText := resultText ++ "- **Allow Offline Access**: " ++
    (if jsTruthy (newResourceServer.getField "allow_offline_access") then "Yes" else "No") ++ "\n\n"
  match jsArrayNonempty (newResourceServer.getField "scopes") with
  | some scopes => resultText ++ rsScopesTable scopes
  | none => resultText

/-- Continuation of auth0_create_resource_server on its one fetch. -/
def auth0_create_resource_server_onResponse : FetchOutcome → HandlerStep
  | .netError e => .respond (createErrorResponse (handleNetworkError e))
  | .reply response =>
    if !response.ok then
      .respond (createErrorResponse (auth0_create_resource_server_errorMessage response))
    else
      .respond (successResponse (auth0_create_resource_server_formatText response.body))

/-- Handler auth0_create_resource_server. -/
def auth0_create_resource_server : Handler := fun request config =>
  if !jsTruthyStr config.domain then
    .respond (createErrorResponse "Error: AUTH0_DOMAIN environment variable is not set")
  else
    let p := request.parameters
    if !jsTruthy (p.getField "name") then
      .respond (createErrorResponse "Error: name is required")
    else if !jsTruthy (p.getField "identifier") then
      .respond (createErrorResponse "Error: identifier is required")
    else
      let domain := formatDomain (config.domain.getD "")
      let requestBody := jsObjOfPresent
        [("name", p.getField "name"), ("identifier", p.getField "identifier"),
         ("scopes", p.getField "scopes"), ("signing_alg", p.getField "signing_alg"),
         ("token_lifetime", p.getField "token_lifetime"),
         ("allow_offline_access", p.getField "allow_offline_access")]
      .fetch { url := "https://" ++ domain ++ "/api/v2/resource-servers", method := "POST",
               query := [], body := some requestBody }
        auth0_create_resource_server_onResponse

/-- Status-code classification of a failed resource server update. -/
def auth0_update_resource_server_errorMessage (id : Option Json) (response : HttpReply) : String :=
  let errorMessage := "Failed to update resource server: " ++ response.status.repr ++
    " " ++ response.statusText
  if response.status = 404 then
    "Resource server with id \x27" ++ jsInterp id ++ "\x27 not found."
  else if response.status = 401 then
    errorMessage ++ "\nError: Unauthorized. Your token might be expired or invalid or missing update:resource_servers scope."
  else if response.status = 422 then
    errorMessage ++ "\nError: Validation errors in your request. Check that your parameters are valid."
  else errorMessage

/-- Markdown text of a successful resource server update. -/
def auth0_update_resource_server_formatText (updatedResourceServer : Json) : String :=
  let resultText := "### Resource Server Updated Successfully\n\n" ++
    "- **Name**: " ++ jsInterp (updatedResourceServer.getField "name") ++ "\n" ++
    "- **ID**: " ++ jsInterp (updatedResourceServer.getField "id") ++ "\n" ++
    "- **Identifier**: " ++ jsInterp (updatedResourceServer.getField "identifier") ++ "\n"
  let resultText :=
    if jsTruthy (updatedResourceServer.getField "signing_alg") then
      resultText ++ "- **Signing Algorithm**: " ++
        jsInterp (updatedResourceServer.getField "signing_alg") ++ "\n"
    else resultText
  let resultText :=
    if jsTruthy (updatedResourceServer.getField "token_lifetime") then
      resultText ++ "- **Token Lifetime**: " ++
        jsInterp (updatedResourceServer.getField "token_lifetime") ++ " seconds\n"
    else resultText
  let resultText := resultText ++ "- **Allow Offline Access**: " ++
    (if jsTruthy (updatedResourceServer.getField "allow_offline_access") then "Yes" else "No") ++ "\n\n"
  match jsArrayNonempty (updatedResourceServer.getField "scopes") with
  | some scopes => resultText ++ rsScopesTable scopes
  | none => resultText ++ "#### Scopes\n\nNo scopes defined for this resource server.\n\n"

/-- Continuation of auth0_update_resource_server on its one fetch. -/
def auth0_update_resource_server_onResponse (id : Option Json) : FetchOutcome → HandlerStep
  | .netError e => .respond (createErrorResponse (handleNetworkError e))
  | .reply response =>
    if !response.ok then
      .respond (createErrorResponse (auth0_update_resource_server_errorMessage id response))
    else
      .respond (successResponse (auth0_update_resource_server_formatText response.body))

/-- Handler auth0_update_resource_server. -/
def auth0_update_resource_server : Handler := fun request config =>
  if !jsTruthyStr config.domain then
    .respond (createErrorResponse "Error: AUTH0_DOMAIN environment variable is not set")
  else
    let p := request.parameters
    let id := p.getField "id"
    if !jsTruthy id then
      .respond (createErrorResponse "Error: id is required")
    else
      let updateBody := jsObjOfPresent
        [("name", p.getField "name"), ("scopes", p.getField "scopes"),
         ("token_lifetime", p.getField "token_lifetime"),
         ("allow_offline_access", p.getField "allow_offline_access")]
      let domain := formatDomain (config.domain.getD "")
      .fetch { url := "https://" ++ domain ++ "/api/v2/resource-servers/" ++ jsInterp id,
               method := "PATCH", query := [], body := some updateBody }
        (auth0_update_resource_server_onResponse id)

/-- Status-code classification of a failed resource server delete. -/
def auth0_delete_resource_server_errorMessage (id : Option Json) (response : HttpReply) : String :=
  let errorMessage := "Failed to delete resource server: " ++ response.status.repr ++
    " " ++ response.statusText
  if response.status = 404 then
    "Resource server with id \x27" ++ jsInterp id ++ "\x27 not found."
  else if response.status = 401 then
    errorMessage ++ "\nError: Unauthorized. Your token might be expired or invalid or missing delete:resource_servers scope."
  else if response.status = 403 then
    errorMessage ++ "\nError: Forbidden. You cannot delete the Auth0 Management API resource server."
  else errorMessage

/-- Continuation of auth0_delete_resource_server on its one fetch. -/
def auth0_delete_resource_server_onResponse (id : Option Json) : FetchOutcome → HandlerStep
  | .netError e => .respond (createErrorResponse (handleNetworkError e))
  | .reply response =>
    if !response.ok then
      .respond (createErrorResponse (auth0_delete_resource_server_errorMessage id response))
    else
      .respond (successResponse ("### Resource Server Deleted Successfully\n\n" ++
        "Resource server with id \x27" ++ jsInterp id ++ "\x27 has been deleted."))

/-- Handler auth0_delete_resource_server. -/
def auth0_delete_resource_server : Handler := fun request config =>
  if !jsTruthyStr config.domain then
    .respond (createErrorResponse "Error: AUTH0_DOMAIN environment variable is not set")
  else
    let id := request.parameters.getField "id"
    if !jsTruthy id then
      .respond (createErrorResponse "Error: id is required")
    else
      let domain := formatDomain (config.domain.getD "")
      .fetch { url := "https://" ++ domain ++ "/api/v2/resource-servers/" ++ jsInterp id,
               method := "DELETE", query := [], body := none }
        (auth0_delete_resource_server_onResponse id)

/-! ## tools-actions.ts -/

/-- Trigger cell of one row of the actions table:
supported_triggers non-empty selects supported_triggers[0].id, else dash. -/
def actionTriggerCell (action : Json) : String :=
  match action.getField "supported_triggers" with
  | some (.arr (t0 :: _)) => jsInterp (t0.getField "id")
  | _ => "-"

/-- Name cell of one row of the actions table. -/
def actionNameCell (action : Json) : String :=
  if jsTruthy (action.getField "name") then jsInterp (action.getField "name")
  else "Unnamed Action"

/-- Status cell of one row of the actions table. -/
def actionStatusCell (action : Json) : String :=
  if jsTruthy (action.getField "status") then jsInterp (action.getField "status")
  else "-"

/-- Runtime cell of one row of the actions table. -/
def actionRuntimeCell (action : Json) : String :=
  if jsTruthy (action.getField "runtime") then jsInterp (action.getField "runtime")
  else "-"

/-- One data row of the actions table. -/
def actionRowText (action : Json) : String :=
  "| " ++ actionNameCell action ++ " | " ++ actionTriggerCell action ++ " | " ++
    actionStatusCell action ++ " | " ++ actionRuntimeCell action ++ " |\n"

/-- One line of the Action IDs for Reference list. -/
def actionIdLine (action : Json) : String :=
  "- **" ++ jsInterp (action.getField "name") ++ "**: `" ++
    jsInterp (action.getField "id") ++ "`\n"

/-- Status-code classification of a failed actions list request; the 400
branch inlines the raw error body. -/
def auth0_list_actions_errorMessage (response : HttpReply) : String :=
  let errorMessage := "Failed to list actions: " ++ response.status.repr ++
    " " ++ response.statusText
  if response.status = 401 then
    errorMessage ++ "\nError: Unauthorized. Your token might be expired or invalid or missing read:actions scope."
  else if response.status = 400 then
    errorMessage ++ "\nError: Bad Request. Details: " ++ response.bodyText
  else errorMessage

/-- Markdown text of a successful actions list with at least one action. -/
def auth0_list_actions_formatText (actions : List Json) (total page perPage : Int) : String :=
  let actionsLen : Int := Int.ofNat actions.length
  let resultText := "### Auth0 Actions (" ++ Nat.repr actions.length ++
    (if total > actionsLen then " of " ++ total.repr else "") ++ ")\n\n" ++
    "| Name | Trigger | Status | Runtime |\n" ++
    "|------|---------|--------|--------|\n" ++
    String.join (actions.map actionRowText)
  let resultText :=
    if actionsLen < total then
      let totalPages := jsCeilDiv total perPage
      let nextPage := if page + 1 < totalPages then page + 1 else 0
      let resultText := resultText ++ "\n*Page " ++ (page + 1).repr ++ " of " ++
        totalPages.repr ++ " (" ++ perPage.repr ++ " items per page, " ++
        total.repr ++ " total)*\n"
      if nextPage > 0 then
        resultText ++ "\nTo see more results, use: `auth0_list_actions(page=" ++
          nextPage.repr ++ ")`\n"
      else resultText
    else resultText
  let resultText :=
    if actions.length > 0 then
      resultText ++ "\nTo view details of a specific action, use: `auth0_get_action(id=\"action_id\")`\n"
    else resultText
  if actions.length > 0 then
    resultText ++ "\n### Action IDs for Reference\n\n" ++
      String.join (actions.map actionIdLine)
  else resultText

/-- Shape dispatch of the actions list response: a bare array keeps the
initial page 0 and perPage 5; an object must carry an actions array; the two
error messages distinguish an object without the array from a non-object. -/
def listActionsExtract (body : Json) : Except String (List Json × Int × Int × Int) :=
  match body with
  | .arr actions => .ok (actions, Int.ofNat actions.length, 0, 5)
  | .obj fields =>
    match Json.getField (.obj fields) "actions" with
    | some (.arr actions) =>
      .ok (actions,
        jsOrNum (Json.getField (.obj fields) "total") (Int.ofNat actions.length),
        jsOrNum (Json.getField (.obj fields) "page") 0,
        jsOrNum (Json.getField (.obj fields) "per_page") (Int.ofNat actions.length))
    | _ => .error "Error: Unexpected response format from Auth0 API. Missing actions array."
  | _ => .error "Error: Received invalid response format from Auth0 API."

/-- Continuation of auth0_list_actions on its one fetch. -/
def auth0_list_actions_onResponse : FetchOutcome → HandlerStep
  | .netError e => .respond (createErrorResponse (handleNetworkError e))
  | .reply response =>
    if !response.ok then
      .respond (createErrorResponse (auth0_list_actions_errorMessage response))
    else
      match listActionsExtract response.body with
      | .error msg => .respond (createErrorResponse msg)
      | .ok (actions, total, page, perPage) =>
        if actions.length = 0 then
          .respond (successResponse "No actions found in your Auth0 tenant.")
        else
          .respond (successResponse (auth0_list_actions_formatText actions total page perPage))

/-- Handler auth0_list_actions.  The source assembles a query-parameter set
but then requests the simplified URL without it, so the issued request
carries no query string. -/
def auth0_list_actions : Handler := fun _request config =>
  if !jsTruthyStr config.domain then
    .respond (createErrorResponse "Error: AUTH0_DOMAIN environment variable is not set")
  else
    let domain := formatDomain (config.domain.getD "")
    .fetch { url := "https://" ++ domain ++ "/api/v2/actions/actions", method := "GET",
             query := [], body := none }
      auth0_list_actions_onResponse

/-- Detail cell for the trigger of an action:
supported_triggers?.[0]?.id || a default marker. -/
def actionTriggerDetail (action : Json) (dflt : String) : String :=
  match action.getField "supported_triggers" with
  | some (.arr (t0 :: _)) =>
    if jsTruthy (t0.getField "id") then jsInterp (t0.getField "id") else dflt
  | _ => dflt

/-- The dependencies table shared by the action detail texts. -/
def actionDependenciesTable (dependencies : List Json) : String :=
  "#### Dependencies (" ++ Nat.repr dependencies.length ++ ")\n\n" ++
  "| Package | Version |\n" ++
  "|---------|--------|\n" ++
  String.join (dependencies.map (fun dep =>
    "| " ++ jsInterp (dep.getField "name") ++ " | " ++
      jsInterp (dep.getField "version") ++ " |\n")) ++ "\n"

/-- Status-code classification of a failed action get. -/
def auth0_get_action_errorMessage (id : Option Json) (response : HttpReply) : String :=
  let errorMessage := "Failed to get action: " ++ response.status.repr ++
    " " ++ response.statusText
  if response.status = 404 then
    "Action with id \x27" ++ jsInterp id ++ "\x27 not found."
  else if response.status = 401 then
    errorMessage ++ "\nError: Unauthorized. Your token might be expired or invalid or missing read:actions scope."
  else errorMessage

/-- Markdown text of a successful action get. -/
def auth0_get_action_formatText (action : Json) : String :=
  let resultText := "### Action: " ++ jsInterp (action.getField "name") ++ "\n\n" ++
    "- **ID**: " ++ jsInterp (action.getField "id") ++ "\n" ++
    "- **Trigger**: " ++ actionTriggerDetail action "Not specified" ++ "\n" ++
    "- **Status**: " ++ (if jsTruthy (action.getField "status") then
      jsInterp (action.getField "status") else "Unknown") ++ "\n" ++
    "- **Runtime**: " ++ (if jsTruthy (action.getField "runtime") then
      jsInterp (action.getField "runtime") else "Unknown") ++ "\n\n"
  let resultText :=
    match jsArrayNonempty (action.getField "dependencies") with
    | some dependencies => resultText ++ actionDependenciesTable dependencies
    | none => resultText
  let resultText :=
    match jsArrayNonempty (action.getField "secrets") with
    | some secrets =>
      resultText ++ "#### Secrets (" ++ Nat.repr secrets.length ++ ")\n\n" ++
        "| Name | Updated |\n" ++
        "|------|--------|\n" ++
        String.join (secrets.map (fun secret =>
          "| " ++ jsInterp (secret.getField "name") ++ " | " ++
            (if jsTruthy (secret.getField "updated_at") then
              jsInterp (secret.getField "updated_at") else "Unknown") ++ " |\n")) ++ "\n"
    | none => resultText
  resultText ++ "#### Code\n\n```javascript\n" ++
    (if jsTruthy (action.getField "code") then jsInterp (action.getField "code")
     else "No code available") ++ "\n```\n"

/-- Continuation of auth0_get_action on its one fetch. -/
def auth0_get_action_onResponse (id : Option Json) : FetchOutcome → HandlerStep
  | .netError e => .respond (createErrorResponse (handleNetworkError e))
  | .reply response =>
    if !response.ok then
      .respond (createErrorResponse (auth0_get_action_errorMessage id response))
    else
      .respond (successResponse (auth0_get_action_formatText response.body))

/-- Handler auth0_get_action. -/
def auth0_get_action : Handler := fun request config =>
  if !jsTruthyStr config.domain then
    .respond (createErrorResponse "Error: AUTH0_DOMAIN environment variable is not set")
  else
    let id := request.parameters.getField "id"
    if !jsTruthy id then
      .respond (createErrorResponse "Error: id is required")
    else
      let domain := formatDomain (config.domain.getD "")
      .fetch { url := "https://" ++ domain ++ "/api/v2/actions/actions/" ++ jsInterp id,
               method := "GET", query := [], body := none }
        (auth0_get_action_onResponse id)

/-- Status-code classification of a failed action create. -/
def auth0_create_action_errorMessage (response : HttpReply) : String :=
  let errorMessage := "Failed to create action: " ++ response.status.repr ++
    " " ++ response.statusText
  if response.status = 401 then
    errorMessage ++ "\nError: Unauthorized. Your token might be expired or invalid or missing create:actions scope."
  else if response.status = 422 then
    errorMessage ++ "\nError: Validation errors in your request. Check that your parameters are valid."
  else errorMessage

/-- Markdown text of a successful action create. -/
def auth0_create_action_formatText (newAction : Json) : String :=
  let resultText := "### Action Created Successfully\n\n" ++
    "- **Name**: " ++ jsInterp (newAction.getField "name") ++ "\n" ++
    "- **ID**: " ++ jsInterp (newAction.getField "id") ++ "\n" ++
    "- **Trigger**: " ++ actionTriggerDetail newAction "Not specified" ++ "\n" ++
    "- **Status**: " ++ (if jsTruthy (newAction.getField "status") then
      jsInterp (newAction.getField "status") else "Draft") ++ "\n" ++
    "- **Runtime**: " ++ jsInterp (newAction.getField "runtime") ++ "\n\n"
  let resultText :=
    match jsArrayNonempty (newAction.getField "dependencies") with
    | some dependencies => resultText ++ actionDependenciesTable dependencies
    | none => resultText
  let resultText :=
    match jsArrayNonempty (newAction.getField "secrets") with
    | some secrets =>
      resultText ++ "#### Secrets (" ++ Nat.repr secrets.length ++ ")\n\n" ++
        "| Name |\n" ++
        "|------|\n" ++
        String.join (secrets.map (fun secret =>
          "| " ++ jsInterp (secret.getField "name") ++ " |\n")) ++ "\n"
    | none => resultText
  resultText ++ "⚠️ **Note**: The action has been created but not deployed. Use `auth0_deploy_action(id=\"" ++
    jsInterp (newAction.getField "id") ++ "\")` to deploy it.\n\n"

/-- Continuation of auth0_create_action on its one fetch. -/
def auth0_create_action_onResponse : FetchOutcome → HandlerStep
  | .netError e => .respond (createErrorResponse (handleNetworkError e))
  | .reply response =>
    if !response.ok then
      .respond (createErrorResponse (auth0_create_action_errorMessage response))
    else
      .respond (successResponse (auth0_create_action_formatText response.body))

/-- Handler auth0_create_action.  The destructuring defaults of the source
substitute node18, an empty dependency list and an empty secret list for
absent parameters. -/
def auth0_create_action : Handler := fun request config =>
  if !jsTruthyStr config.domain then
    .respond (createErrorResponse "Error: AUTH0_DOMAIN environment variable is not set")
  else
    let p := request.parameters
    if !jsTruthy (p.getField "name") then
      .respond (createErrorResponse "Error: name is required")
    else if !jsTruthy (p.getField "trigger_id") then
      .respond (createErrorResponse "Error: trigger_id is required")
    else if !jsTruthy (p.getField "code") then
      .respond (createErrorResponse "Error: code is required")
    else
      let domain := formatDomain (config.domain.getD "")
      let requestBody := Json.obj
        [("name", (p.getField "name").getD .null),
         ("supported_triggers", .arr [.obj
           [("id", (p.getField "trigger_id").getD .null), ("version", .str "v2")]]),
         ("code", (p.getField "code").getD .null),
         ("runtime", (p.getField "runtime").getD (.str "node18")),
         ("dependencies", (p.getField "dependencies").getD (.arr [])),
         ("secrets", (p.getField "secrets").getD (.arr []))]
      .fetch { url := "https://" ++ domain ++ "/api/v2/actions/actions", method := "POST",
               query := [], body := some requestBody }
        auth0_create_action_onResponse

/-- Status-code classification of a failed action update. -/
def auth0_update_action_errorMessage (id : Option Json) (response : HttpReply) : String :=
  let errorMessage := "Failed to update action: " ++ response.status.repr ++
    " " ++ response.statusText
  if response.status = 404 then
    "Action with id \x27" ++ jsInterp id ++ "\x27 not found."
  else if response.status = 401 then
    errorMessage ++ "\nError: Unauthorized. Your token might be expired or invalid or missing update:actions scope."
  else if response.status = 422 then
    errorMessage ++ "\nError: Validation errors in your request. Check that your parameters are valid."
  else errorMessage

/-- Markdown text of a successful action update. -/
def auth0_update_action_formatText (updatedAction : Json) (secretsUpdated : Bool) : String :=
  let resultText := "### Action Updated Successfully\n\n" ++
    "- **Name**: " ++ jsInterp (updatedAction.getField "name") ++ "\n" ++
    "- **ID**: " ++ jsInterp (updatedAction.getField "id") ++ "\n" ++
    "- **Trigger**: " ++ actionTriggerDetail updatedAction "Not specified" ++ "\n" ++
    "- **Status**: " ++ (if jsTruthy (updatedAction.getField "status") then
      jsInterp (updatedAction.getField "status") else "Draft") ++ "\n" ++
    "- **Runtime**: " ++ jsInterp (updatedAction.getField "runtime") ++ "\n\n"
  let resultText :=
    match jsArrayNonempty (updatedAction.getField "dependencies") with
    | some dependencies => resultText ++ actionDependenciesTable dependencies
    | none => resultText
  let resultText :=
    if secretsUpdated then resultText ++ "✅ Secrets were also updated.\n\n"
    else resultText
  resultText ++ "⚠️ **Note**: The action has been updated but changes are not deployed. Use `auth0_deploy_action(id=\"" ++
    jsInterp (updatedAction.getField "id") ++ "\")` to deploy the changes.\n\n"

/-- The sequential per-secret PATCH loop of auth0_update_action: each secret
is sent on its own request, a failed status is only logged, and a rejected
request falls into the catch block. -/
def auth0_update_action_secretsLoop (domain : String) (id : Option Json)
    (updatedAction : Json) (secretsUpdated : Bool) : List Json → HandlerStep
  | [] => .respond (successResponse (auth0_update_action_formatText updatedAction secretsUpdated))
  | secret :: rest =>
    .fetch { url := "https://" ++ domain ++ "/api/v2/actions/actions/" ++ jsInterp id ++ "/secrets",
             method := "PATCH", query := [],
             body := some (.obj [("secrets", .arr [secret])]) }
      (fun outcome =>
        match outcome with
        | .netError e => .respond (createErrorResponse (handleNetworkError e))
        | .reply _ => auth0_update_action_secretsLoop domain id updatedAction secretsUpdated rest)

/-- Continuation of auth0_update_action on its primary PATCH. -/
def auth0_update_action_onResponse (domain : String) (id : Option Json)
    (secrets : Option Json) : FetchOutcome → HandlerStep
  | .netError e => .respond (createErrorResponse (handleNetworkError e))
  | .reply response =>
    if !response.ok then
      .respond (createErrorResponse (auth0_update_action_errorMessage id response))
    else
      match jsArrayNonempty secrets with
      | some secretList =>
        auth0_update_action_secretsLoop domain id response.body true secretList
      | none =>
        auth0_update_action_secretsLoop domain id response.body false []

/-- Handler auth0_update_action. -/
def auth0_update_action : Handler := fun request config =>
  if !jsTruthyStr config.domain then
    .respond (createErrorResponse "Error: AUTH0_DOMAIN environment variable is not set")
  else
    let p := request.parameters
    let id := p.getField "id"
    if !jsTruthy id then
      .respond (createErrorResponse "Error: id is required")
    else
      let updateBody := jsObjOfPresent
        [("name", p.getField "name"), ("code", p.getField "code"),
         ("dependencies", p.getField "dependencies")]
      let domain := formatDomain (config.domain.getD "")
      .fetch { url := "https://" ++ domain ++ "/api/v2/actions/actions/" ++ jsInterp id,
               method := "PATCH", query := [], body := some updateBody }
        (auth0_update_action_onResponse domain id (p.getField "secrets"))

/-- Status-code classification of a failed action delete. -/
def auth0_delete_action_errorMessage (id : Option Json) (response : HttpReply) : String :=
  let errorMessage := "Failed to delete action: " ++ response.status.repr ++
    " " ++ response.statusText
  if response.status = 404 then
    "Action with id \x27" ++ jsInterp id ++ "\x27 not found."
  else if response.status = 401 then
    errorMessage ++ "\nError: Unauthorized. Your token might be expired or invalid or missing delete:actions scope."
  else if response.status = 409 then
    errorMessage ++ "\nError: Cannot delete an action that is currently bound to a trigger."
  else errorMessage

/-- Continuation of auth0_delete_action on its one fetch. -/
def auth0_delete_action_onResponse (id : Option Json) : FetchOutcome → HandlerStep
  | .netError e => .respond (createErrorResponse (handleNetworkError e))
  | .reply response =>
    if !response.ok then
      .respond (createErrorResponse (auth0_delete_action_errorMessage id response))
    else
      .respond (successResponse ("### Action Deleted Successfully\n\n" ++
        "Action with id \x27" ++ jsInterp id ++ "\x27 has been deleted."))

/-- Handler auth0_delete_action. -/
def auth0_delete_action : Handler := fun request config =>
  if !jsTruthyStr config.domain then
    .respond (createErrorResponse "Error: AUTH0_DOMAIN environment variable is not set")
  else
    let id := request.parameters.getField "id"
    if !jsTruthy id then
      .respond (createErrorResponse "Error: id is required")
    else
      let domain := formatDomain (config.domain.getD "")
      .fetch { url := "https://" ++ domain ++ "/api/v2/actions/actions/" ++ jsInterp id,
               method := "DELETE", query := [], body := none }
        (auth0_delete_action_onResponse id)

/-- Status-code classification of a failed action deploy. -/
def auth0_deploy_action_errorMessage (id : Option Json) (response : HttpReply) : String :=
  let errorMessage := "Failed to deploy action: " ++ response.status.repr ++
    " " ++ response.statusText
  if response.status = 404 then
    "Action with id \x27" ++ jsInterp id ++ "\x27 not found."
  else if response.status = 401 then
    errorMessage ++ "\nError: Unauthorized. Your token might be expired or invalid or missing update:actions scope."
  else if response.status = 422 then
    errorMessage ++ "\nError: The action has validation errors and cannot be deployed."
  else errorMessage

/-- Markdown text of a successful action deploy. -/
def auth0_deploy_action_formatText (deployedAction : Json) : String :=
  "### Action Deployed Successfully\n\n" ++
  "- **Name**: " ++ jsInterp (deployedAction.getField "name") ++ "\n" ++
  "- **ID**: " ++ jsInterp (deployedAction.getField "id") ++ "\n" ++
  "- **Trigger**: " ++ actionTriggerDetail deployedAction "Not specified" ++ "\n" ++
  "- **Status**: " ++ (if jsTruthy (deployedAction.getField "status") then
    jsInterp (deployedAction.getField "status") else "Unknown") ++ "\n" ++
  "- **Version**: " ++ (if jsTruthy (deployedAction.getField "version") then
    jsInterp (deployedAction.getField "version") else "Unknown") ++ "\n" ++
  "- **Runtime**: " ++ jsInterp (deployedAction.getField "runtime") ++ "\n\n"

/-- Continuation of auth0_deploy_action on its one fetch. -/
def auth0_deploy_action_onResponse (id : Option Json) : FetchOutcome → HandlerStep
  | .netError e => .respond (createErrorResponse (handleNetworkError e))
  | .reply response =>
    if !response.ok then
      .respond (createErrorResponse (auth0_deploy_action_errorMessage id response))
    else
      .respond (successResponse (auth0_deploy_action_formatText response.body))

/-- Handler auth0_deploy_action. -/
def auth0_deploy_action : Handler := fun request config =>
  if !jsTruthyStr config.domain then
    .respond (createErrorResponse "Error: AUTH0_DOMAIN environment variable is not set")
  else
    let id := request.parameters.getField "id"
    if !jsTruthy id then
      .respond (createErrorResponse "Error: id is required")
    else
      let domain := formatDomain (config.domain.getD "")
      .fetch { url := "https://" ++ domain ++ "/api/v2/actions/actions/" ++ jsInterp id ++ "/deploy",
               method := "POST", query := [], body := none }
        (auth0_deploy_action_onResponse id)

/-! ## tools-resource-servers.ts (second document: logs) and tools-forms.ts -/

/-- Escaping of one character for the JSON.stringify model below. -/
def jsonEscapeChar (c : Char) : List Char :=
  if c = '"' then ['\\', '"']
  else if c = '\\' then ['\\', '\\']
  else if c = '\n' then ['\\', 'n']
  else if c = '\t' then ['\\', 't']
  else if c = '\r' then ['\\', 'r']
  else [c]

/-- Quoted JSON string literal. -/
def jsonQuote (s : String) : String :=
  "\"" ++ ((s.data.map jsonEscapeChar).flatten).asString ++ "\""

mutual

/-- JSON.stringify of a value.  The source calls it with a two-space indent
(null, 2) when echoing raw log or form content; the indentation is not
reproduced here and no claim inspects these texts. -/
def Json.stringify : Json → String
  | .null => "null"
  | .bool true => "true"
  | .bool false => "false"
  | .num n => n.repr
  | .str s => jsonQuote s
  | .arr es => "[" ++ Json.stringifyComma es ++ "]"
  | .obj fs => "\x7b" ++ Json.stringifyFields fs ++ "\x7d"

/-- Comma-joined stringified array elements. -/
def Json.stringifyComma : List Json → String
  | [] => ""
  | [e] => Json.stringify e
  | e :: rest => Json.stringify e ++ "," ++ Json.stringifyComma rest

/-- Comma-joined stringified object members. -/
def Json.stringifyFields : List (String × Json) → String
  | [] => ""
  | [kv] => jsonQuote kv.1 ++ ":" ++ Json.stringify kv.2
  | kv :: rest => jsonQuote kv.1 ++ ":" ++ Json.stringify kv.2 ++ "," ++ Json.stringifyFields rest

end

/-- The locale-dependent rendering new Date (x).toLocaleString () of the log
handlers.  The exact text varies with the runtime locale; it is modelled as
the raw value rendering, and the only property the theorems rely on is the
hypothesis that the rendered cell is newline- and pipe-free, which every
toLocaleString output satisfies. -/
def jsDateToLocaleString (v : Option Json) : String := jsInterp v

/-- Date cell of one row of the logs tables. -/
def logDateCell (logEntry : Json) : String :=
  jsDateToLocaleString (logEntry.getField "date")

/-- Type cell of one row of the logs tables. -/
def logTypeCell (logEntry : Json) : String :=
  if jsTruthy (logEntry.getField "type") then jsInterp (logEntry.getField "type")
  else "-"

/-- Description cell of one row of the logs tables. -/
def logDescriptionCell (logEntry : Json) : String :=
  if jsTruthy (logEntry.getField "description") then
    jsInterp (logEntry.getField "description")
  else "-"

/-- User cell of one row of the logs tables:
user_name || user_id || a dash. -/
def logUserCell (logEntry : Json) : String :=
  if jsTruthy (logEntry.getField "user_name") then
    jsInterp (logEntry.getField "user_name")
  else if jsTruthy (logEntry.getField "user_id") then
    jsInterp (logEntry.getField "user_id")
  else "-"

/-- One data row of the logs tables (shared by list and search). -/
def logRowText (logEntry : Json) : String :=
  "| " ++ logDateCell logEntry ++ " | " ++ logTypeCell logEntry ++ " | " ++
    logDescriptionCell logEntry ++ " | " ++ logUserCell logEntry ++ " |\n"

/-- Status-code classification of a failed logs list request. -/
def auth0_list_logs_errorMessage (response : HttpReply) : String :=
  let errorMessage := "Failed to list logs: " ++ response.status.repr ++
    " " ++ response.statusText
  if response.status = 401 then
    errorMessage ++ "\nError: Unauthorized. Your token might be expired or invalid. Try running \"auth0 login\" to refresh your token."
  else if response.status = 403 then
    errorMessage ++ "\nError: Forbidden. Your token might not have the required scopes (read:logs). Try running \"auth0 login --scopes read:logs\" to get the proper permissions."
  else errorMessage

/-- Shape dispatch of the logs list response: a bare array, or an object
with a logs array plus an optional total. -/
def listLogsExtract (body : Json) : Option (List Json × Int) :=
  match body with
  | .arr logs => some (logs, Int.ofNat logs.length)
  | .obj fields =>
    match Json.getField (.obj fields) "logs" with
    | some (.arr logs) =>
      some (logs, jsOrNum (Json.getField (.obj fields) "total") (Int.ofNat logs.length))
    | _ => none
  | _ => none

/-- Markdown text of a successful logs list with at least one entry. -/
def auth0_list_logs_formatText (logs : List Json) (total : Int) : String :=
  let logsLen : Int := Int.ofNat logs.length
  let resultText := "### Auth0 Logs (" ++ Nat.repr logs.length ++
    (if total > logsLen then " of " ++ total.repr else "") ++ ")\n\n" ++
    "| Date | Type | Description | User |\n" ++
    "|------|------|-------------|------|\n" ++
    String.join (logs.map logRowText)
  let resultText :=
    if logsLen < total then
      let lastLogId :=
        match logs.getLast? with
        | some lastLog => jsInterp (lastLog.getField "_id")
        | none => "undefined"
      resultText ++ "\n*Showing " ++ Nat.repr logs.length ++ " of " ++ total.repr ++
        " logs*\n" ++
        "\nTo see more logs, use: `auth0_list_logs(from=\"" ++ lastLogId ++ "\")`\n"
    else resultText
  if logs.length > 0 then
    resultText ++ "\nTo view details of a specific log, use: `auth0_get_log(id=\"log_id\")`\n"
  else resultText

/-- Continuation of auth0_list_logs on its one fetch. -/
def auth0_list_logs_onResponse : FetchOutcome → HandlerStep
  | .netError e => .respond (createErrorResponse (handleNetworkError e))
  | .reply response =>
    if !response.ok then
      .respond (createErrorResponse (auth0_list_logs_errorMessage response))
    else
      match listLogsExtract response.body with
      | none =>
        .respond (createErrorResponse "Error: Received invalid response format from Auth0 API.")
      | some (logs, total) =>
        if logs.length = 0 then
          .respond (successResponse "No logs found matching your criteria.")
        else
          .respond (successResponse (auth0_list_logs_formatText logs total))

/-- Rendering of the take parameter: Math.min (take, 100) for a numeric
value; non-numeric values yield NaN in the source and are outside the
modelled shapes. -/
def logsTakeParam (v : Json) : String :=
  match v with
  | .num n => (min n 100).repr
  | _ => "NaN"

/-- Handler auth0_list_logs. -/
def auth0_list_logs : Handler := fun request config =>
  if !jsTruthyStr config.domain then
    .respond (createErrorResponse "Error: AUTH0_DOMAIN environment variable is not set")
  else
    let p := request.parameters
    let domain := formatDomain (config.domain.getD "")
    let params : List (String × String) :=
      (if jsTruthy (p.getField "from") then [("from", jsInterp (p.getField "from"))] else []) ++
      (match p.getField "take" with
       | some v => [("take", logsTakeParam v)]
       | none => [("take", "10")]) ++
      (if jsTruthy (p.getField "q") then [("q", jsInterp (p.getField "q"))] else []) ++
      (if jsTruthy (p.getField "sort") then [("sort", jsInterp (p.getField "sort"))]
       else [("sort", "date:-1")]) ++
      (match p.getField "include_fields" with
       | some v => [("include_fields", jsInterp (some v))]
       | none => []) ++
      (match p.getField "include_totals" with
       | some v => [("include_totals", jsInterp (some v))]
       | none => [("include_totals", "true")])
    .fetch { url := "https://" ++ domain ++ "/api/v2/logs", method := "GET",
             query := params, body := none }
      auth0_list_logs_onResponse

/-- Status-code classification of a failed log get. -/
def auth0_get_log_errorMessage (id : Option Json) (response : HttpReply) : String :=
  let errorMessage := "Failed to get log: " ++ response.status.repr ++
    " " ++ response.statusText
  if response.status = 404 then
    "Log with id \x27" ++ jsInterp id ++ "\x27 not found."
  else if response.status = 401 then
    errorMessage ++ "\nError: Unauthorized. Your token might be expired or invalid or missing read:logs scope."
  else errorMessage

/-- Markdown text of a successful log get. -/
def auth0_get_log_formatText (logEntry : Json) : String :=
  let resultText := "### Log Entry: " ++ jsInterp (logEntry.getField "_id") ++ "\n\n" ++
    "- **Date**: " ++ jsDateToLocaleString (logEntry.getField "date") ++ "\n" ++
    "- **Type**: " ++ (if jsTruthy (logEntry.getField "type") then
      jsInterp (logEntry.getField "type") else "Unknown") ++ "\n" ++
    "- **Description**: " ++ (if jsTruthy (logEntry.getField "description") then
      jsInterp (logEntry.getField "description") else "No description") ++ "\n"
  let resultText :=
    if jsTruthy (logEntry.getField "client_name") || jsTruthy (logEntry.getField "client_id") then
      resultText ++ "- **Client**: " ++
        (if jsTruthy (logEntry.getField "client_name") then
          jsInterp (logEntry.getField "client_name") else "") ++ " (" ++
        (if jsTruthy (logEntry.getField "client_id") then
          jsInterp (logEntry.getField "client_id") else "") ++ ")\n"
    else resultText
  let resultText :=
    if jsTruthy (logEntry.getField "ip") then
      resultText ++ "- **IP Address**: " ++ jsInterp (logEntry.getField "ip") ++ "\n"
    else resultText
  let resultText :=
    if jsTruthy (logEntry.getField "user_name") || jsTruthy (logEntry.getField "user_id") then
      resultText ++ "- **User**: " ++
        (if jsTruthy (logEntry.getField "user_name") then
          jsInterp (logEntry.getField "user_name") else "") ++ " (" ++
        (if jsTruthy (logEntry.getField "user_id") then
          jsInterp (logEntry.getField "user_id") else "") ++ ")\n"
    else resultText
  let resultText := resultText ++ "\n"
  let resultText :=
    match logEntry.getField "details" with
    | some (.obj (f :: fs)) =>
      resultText ++ "#### Details\n\n" ++ "```json\n" ++
        Json.stringify (.obj (f :: fs)) ++ "\n```\n\n"
    | _ => resultText
  resultText ++ "#### Raw Log Data\n\n" ++ "```json\n" ++
    Json.stringify logEntry ++ "\n```\n"

/-- Continuation of auth0_get_log on its one fetch. -/
def auth0_get_log_onResponse (id : Option Json) : FetchOutcome → HandlerStep
  | .netError e => .respond (createErrorResponse (handleNetworkError e))
  | .reply response =>
    if !response.ok then
      .respond (createErrorResponse (auth0_get_log_errorMessage id response))
    else
      .respond (successResponse (auth0_get_log_formatText response.body))

/-- Handler auth0_get_log. -/
def auth0_get_log : Handler := fun request config =>
  if !jsTruthyStr config.domain then
    .respond (createErrorResponse "Error: AUTH0_DOMAIN environment variable is not set")
  else
    let id := request.parameters.getField "id"
    if !jsTruthy id then
      .respond (createErrorResponse "Error: id is required")
    else
      let domain := formatDomain (config.domain.getD "")
      .fetch { url := "https://" ++ domain ++ "/api/v2/logs/" ++ jsInterp id,
               method := "GET", query := [], body := none }
        (auth0_get_log_onResponse id)

/-- The Lucene query fragments assembled by the logs search from its
parameters, in source order. -/
def searchLogsQueryParts (p : Json) : List String :=
  (if jsTruthy (p.getField "user_id") then
    ["user_id:\"" ++ jsInterp (p.getField "user_id") ++ "\""] else []) ++
  (if jsTruthy (p.getField "client_id") then
    ["client_id:\"" ++ jsInterp (p.getField "client_id") ++ "\""] else []) ++
  (if jsTruthy (p.getField "type") then
    ["type:\"" ++ jsInterp (p.getField "type") ++ "\""] else []) ++
  (if jsTruthy (p.getField "from") || jsTruthy (p.getField "to") then
    ["date:[" ++
      (if jsTruthy (p.getField "from") then jsInterp (p.getField "from") else "*") ++
      " TO " ++
      (if jsTruthy (p.getField "to") then jsInterp (p.getField "to") else "*") ++ "]"]
   else [])

/-- Status-code classification of a failed logs search. -/
def auth0_search_logs_errorMessage (response : HttpReply) : String :=
  let errorMessage := "Failed to search logs: " ++ response.status.repr ++
    " " ++ response.statusText
  if response.status = 401 then
    errorMessage ++ "\nError: Unauthorized. Your token might be expired or invalid or missing read:logs scope."
  else errorMessage

/-- Shape dispatch of the logs search response: a bare array keeps the
initial page 0 and perPage 10. -/
def searchLogsExtract (body : Json) : Option (List Json × Int × Int × Int) :=
  match body with
  | .arr logs => some (logs, Int.ofNat logs.length, 0, 10)
  | .obj fields =>
    match Json.getField (.obj fields) "logs" with
    | some (.arr logs) =>
      some (logs,
        jsOrNum (Json.getField (.obj fields) "total") (Int.ofNat logs.length),
        jsOrNum (Json.getField (.obj fields) "page") 0,
        jsOrNum (Json.getField (.obj fields) "per_page") (Int.ofNat logs.length))
    | _ => none
  | _ => none

/-- The repeated-parameter fragment of the next-page hint of the logs
search. -/
def searchLogsNextPageParams (p : Json) : String :=
  (if jsTruthy (p.getField "user_id") then
    "user_id=\"" ++ jsInterp (p.getField "user_id") ++ "\", " else "") ++
  (if jsTruthy (p.getField "client_id") then
    "client_id=\"" ++ jsInterp (p.getField "client_id") ++ "\", " else "") ++
  (if jsTruthy (p.getField "type") then
    "type=\"" ++ jsInterp (p.getField "type") ++ "\", " else "") ++
  (if jsTruthy (p.getField "from") then
    "from=\"" ++ jsInterp (p.getField "from") ++ "\", " else "") ++
  (if jsTruthy (p.getField "to") then
    "to=\"" ++ jsInterp (p.getField "to") ++ "\", " else "")

/-- Markdown text of a successful logs search with at least one entry. -/
def auth0_search_logs_formatText (p : Json) (logs : List Json)
    (total page perPage : Int) : String :=
  let logsLen : Int := Int.ofNat logs.length
  let queryParts := searchLogsQueryParts p
  let resultText := "### Auth0 Logs Search Results (" ++ Nat.repr logs.length ++
    (if total > logsLen then " of " ++ total.repr else "") ++ ")\n\n"
  let resultText :=
    if queryParts.length > 0 then
      resultText ++ "**Search criteria**: `" ++ String.intercalate " AND " queryParts ++ "`\n\n"
    else resultText
  let resultText := resultText ++
    "| Date | Type | Description | User |\n" ++
    "|------|------|-------------|------|\n" ++
    String.join (logs.map logRowText)
  let resultText :=
    if logsLen < total then
      let totalPages := jsCeilDiv total perPage
      let nextPage := if page + 1 < totalPages then page + 1 else 0
      let resultText := resultText ++ "\n*Page " ++ (page + 1).repr ++ " of " ++
        totalPages.repr ++ " (" ++ perPage.repr ++ " items per page, " ++
        total.repr ++ " total)*\n"
      if nextPage > 0 then
        resultText ++ "\nTo see more results, use: `auth0_search_logs(" ++
          searchLogsNextPageParams p ++ "page=" ++ nextPage.repr ++ ")`\n"
      else resultText
    else resultText
  if logs.length > 0 then
    resultText ++ "\nTo view details of a specific log, use: `auth0_get_log(id=\"log_id\")`\n"
  else resultText

/-- Continuation of auth0_search_logs on its one fetch. -/
def auth0_search_logs_onResponse (p : Json) : FetchOutcome → HandlerStep
  | .netError e => .respond (createErrorResponse (handleNetworkError e))
  | .reply response =>
    if !response.ok then
      .respond (createErrorResponse (auth0_search_logs_errorMessage response))
    else
      match searchLogsExtract response.body with
      | none =>
        .respond (createErrorResponse "Error: Received invalid response format from Auth0 API.")
      | some (logs, total, page, perPage) =>
        if logs.length = 0 then
          .respond (successResponse "No logs found matching your search criteria.")
        else
          .respond (successResponse (auth0_search_logs_formatText p logs total page perPage))

/-- Handler auth0_search_logs. -/
def auth0_search_logs : Handler := fun request config =>
  if !jsTruthyStr config.domain then
    .respond (createErrorResponse "Error: AUTH0_DOMAIN environment variable is not set")
  else
    let p := request.parameters
    let domain := formatDomain (config.domain.getD "")
    let queryParts := searchLogsQueryParts p
    let params : List (String × String) :=
      (if queryParts.length > 0 then [("q", String.intercalate " AND " queryParts)] else []) ++
      (match p.getField "page" with
       | some v => [("page", jsInterp (some v))]
       | none => []) ++
      (match p.getField "per_page" with
       | some v => [("per_page", logsTakeParam v)]
       | none => [("per_page", "10")]) ++
      (match p.getField "include_totals" with
       | some v => [("include_totals", jsInterp (some v))]
       | none => [("include_totals", "true")]) ++
      [("sort", "date:-1")]
    .fetch { url := "https://" ++ domain ++ "/api/v2/logs", method := "GET",
             query := params, body := none }
      (auth0_search_logs_onResponse p)

/-! ## tools-forms.ts -/

/-- Name cell of one row of the forms table. -/
def formNameCell (form : Json) : String :=
  if jsTruthy (form.getField "name") then jsInterp (form.getField "name")
  else "Unnamed Form"

/-- Type cell of one row of the forms table. -/
def formTypeCell (form : Json) : String :=
  if jsTruthy (form.getField "type") then jsInterp (form.getField "type")
  else "-"

/-- Status cell of one row of the forms table. -/
def formStatusCell (form : Json) : String :=
  if jsTruthy (form.getField "status") then jsInterp (form.getField "status")
  else "-"

/-- Published cell of one row of the forms table. -/
def formPublishedCell (form : Json) : String :=
  if jsTruthy (form.getField "is_published") then "✅" else "❌"

/-- One data row of the forms table. -/
def formRowText (form : Json) : String :=
  "| " ++ formNameCell form ++ " | " ++ formTypeCell form ++ " | " ++
    formStatusCell form ++ " | " ++ formPublishedCell form ++ " |\n"

/-- One line of the Form IDs for Reference list. -/
def formIdLine (form : Json) : String :=
  "- **" ++ jsInterp (form.getField "name") ++ "**: `" ++
    jsInterp (form.getField "id") ++ "`\n"

/-- Status-code classification of a failed forms list request. -/
def auth0_list_forms_errorMessage (response : HttpReply) : String :=
  let errorMessage := "Failed to list forms: " ++ response.status.repr ++
    " " ++ response.statusText
  if response.status = 401 then
    errorMessage ++ "\nError: Unauthorized. Your token might be expired or invalid or missing read:branding scope."
  else errorMessage

/-- Shape dispatch of the forms list response: a bare array, or an object
with a forms array plus an optional total. -/
def listFormsExtract (body : Json) : Option (List Json × Int) :=
  match body with
  | .arr forms => some (forms, Int.ofNat forms.length)
  | .obj fields =>
    match Json.getField (.obj fields) "forms" with
    | some (.arr forms) =>
      some (forms, jsOrNum (Json.getField (.obj fields) "total") (Int.ofNat forms.length))
    | _ => none
  | _ => none

/-- Markdown text of a successful forms list with at least one form.  The
pagination hint is computed from the request parameters, not from the
response body. -/
def auth0_list_forms_formatText (p : Json) (forms : List Json) (total : Int) : String :=
  let formsLen : Int := Int.ofNat forms.length
  let resultText := "### Auth0 Forms (" ++ Nat.repr forms.length ++
    (if total > formsLen then " of " ++ total.repr else "") ++ ")\n\n" ++
    "| Name | Type | Status | Published |\n" ++
    "|------|------|--------|----------|\n" ++
    String.join (forms.map formRowText)
  let resultText :=
    if formsLen < total then
      let currentPage := jsOrNum (p.getField "page") 0
      let perPage := jsOrNum (p.getField "per_page") 10
      let totalPages := jsCeilDiv total perPage
      let resultText := resultText ++ "\n*Page " ++ (currentPage + 1).repr ++ " of " ++
        totalPages.repr ++ " (" ++ Nat.repr forms.length ++ " of " ++ total.repr ++
        " forms)*\n"
      if currentPage + 1 < totalPages then
        resultText ++ "\nTo see more forms, use: `auth0_list_forms(page=" ++
          (currentPage + 1).repr ++
          (if jsTruthy (p.getField "type") then
            ", type=\"" ++ jsInterp (p.getField "type") ++ "\"" else "") ++ ")`\n"
      else resultText
    else resultText
  let resultText :=
    if forms.length > 0 then
      resultText ++ "\nTo view details of a specific form, use: `auth0_get_form(id=\"form_id\")`\n"
    else resultText
  if forms.length > 0 then
    resultText ++ "\n### Form IDs for Reference\n\n" ++
      String.join (forms.map formIdLine)
  else resultText

/-- Continuation of auth0_list_forms on its one fetch. -/
def auth0_list_forms_onResponse (p : Json) : FetchOutcome → HandlerStep
  | .netError e => .respond (createErrorResponse (handleNetworkError e))
  | .reply response =>
    if !response.ok then
      .respond (createErrorResponse (auth0_list_forms_errorMessage response))
    else
      match listFormsExtract response.body with
      | none =>
        .respond (createErrorResponse "Error: Received invalid response format from Auth0 API.")
      | some (forms, total) =>
        if forms.length = 0 then
          .respond (successResponse "No forms found matching your criteria.")
        else
          .respond (successResponse (auth0_list_forms_formatText p forms total))

/-- Handler auth0_list_forms. -/
def auth0_list_forms : Handler := fun request config =>
  if !jsTruthyStr config.domain then
    .respond (createErrorResponse "Error: AUTH0_DOMAIN environment variable is not set")
  else
    let p := request.parameters
    let domain := formatDomain (config.domain.getD "")
    let params : List (String × String) :=
      (match p.getField "page" with
       | some v => [("page", jsInterp (some v))]
       | none => []) ++
      (match p.getField "per_page" with
       | some v => [("per_page", jsInterp (some v))]
       | none => [("per_page", "10")]) ++
      (match p.getField "include_totals" with
       | some v => [("include_totals", jsInterp (some v))]
       | none => [("include_totals", "true")]) ++
      (if jsTruthy (p.getField "type") then [("type", jsInterp (p.getField "type"))] else [])
    .fetch { url := "https://" ++ domain ++ "/api/v2/branding/forms", method := "GET",
             query := params, body := none }
      (auth0_list_forms_onResponse p)

/-- Status-code classification of a failed form get. -/
def auth0_get_form_errorMessage (id : Option Json) (response : HttpReply) : String :=
  let errorMessage := "Failed to get form: " ++ response.status.repr ++
    " " ++ response.statusText
  if response.status = 404 then
    "Form with id \x27" ++ jsInterp id ++ "\x27 not found."
  else if response.status = 401 then
    errorMessage ++ "\nError: Unauthorized. Your token might be expired or invalid or missing read:branding scope."
  else errorMessage

/-- Markdown text of a successful form get. -/
def auth0_get_form_formatText (form : Json) : String :=
  let resultText := "### Form: " ++ jsInterp (form.getField "name") ++ "\n\n" ++
    "- **ID**: " ++ jsInterp (form.getField "id") ++ "\n" ++
    "- **Type**: " ++ (if jsTruthy (form.getField "type") then
      jsInterp (form.getField "type") else "Not specified") ++ "\n" ++
    "- **Status**: " ++ (if jsTruthy (form.getField "status") then
      jsInterp (form.getField "status") else "Unknown") ++ "\n" ++
    "- **Published**: " ++ (if jsTruthy (form.getField "is_published") then "Yes" else "No") ++ "\n"
  let resultText :=
    if jsTruthy (form.getField "client_id") then
      resultText ++ "- **Client ID**: " ++ jsInterp (form.getField "client_id") ++ "\n"
    else resultText
  let resultText :=
    if jsTruthy (form.getField "template_id") then
      resultText ++ "- **Template ID**: " ++ jsInterp (form.getField "template_id") ++ "\n"
    else resultText
  let resultText := resultText ++ "\n"
  let resultText :=
    if jsTruthy (form.getField "content") then
      resultText ++ "#### Form Content\n\n" ++ "```json\n" ++
        Json.stringify ((form.getField "content").getD .null) ++ "\n```\n\n"
    else resultText
  let resultText := resultText ++ "#### Available Actions\n\n" ++
    "- Update this form: `auth0_update_form(id=\"" ++ jsInterp (form.getField "id") ++
      "\", ...)`\n" ++
    "- Delete this form: `auth0_delete_form(id=\"" ++ jsInterp (form.getField "id") ++
      "\")`\n"
  if !jsTruthy (form.getField "is_published") then
    resultText ++ "- Publish this form: `auth0_publish_form(id=\"" ++
      jsInterp (form.getField "id") ++ "\")`\n"
  else resultText

/-- Continuation of auth0_get_form on its one fetch. -/
def auth0_get_form_onResponse (id : Option Json) : FetchOutcome → HandlerStep
  | .netError e => .respond (createErrorResponse (handleNetworkError e))
  | .reply response =>
    if !response.ok then
      .respond (createErrorResponse (auth0_get_form_errorMessage id response))
    else
      .respond (successResponse (auth0_get_form_formatText response.body))

/-- Handler auth0_get_form. -/
def auth0_get_form : Handler := fun request config =>
  if !jsTruthyStr config.domain then
    .respond (createErrorResponse "Error: AUTH0_DOMAIN environment variable is not set")
  else
    let id := request.parameters.getField "id"
    if !jsTruthy id then
      .respond (createErrorResponse "Error: id is required")
    else
      let domain := formatDomain (config.domain.getD "")
      .fetch { url := "https://" ++ domain ++ "/api/v2/branding/forms/" ++ jsInterp id,
               method := "GET", query := [], body := none }
        (auth0_get_form_onResponse id)

/-- Status-code classification of a failed form create. -/
def auth0_create_form_errorMessage (response : HttpReply) : String :=
  let errorMessage := "Failed to create form: " ++ response.status.repr ++
    " " ++ response.statusText
  if response.status = 401 then
    errorMessage ++ "\nError: Unauthorized. Your token might be expired or invalid or missing create:branding scope."
  else if response.status = 422 then
    errorMessage ++ "\nError: Validation errors in your request. Check that your parameters are valid."
  else errorMessage

/-- Markdown text of a successful form create. -/
def auth0_create_form_formatText (newForm : Json) : String :=
  let resultText := "### Form Created Successfully\n\n" ++
    "- **Name**: " ++ jsInterp (newForm.getField "name") ++ "\n" ++
    "- **ID**: " ++ jsInterp (newForm.getField "id") ++ "\n" ++
    "- **Type**: " ++ jsInterp (newForm.getField "type") ++ "\n" ++
    "- **Status**: " ++ (if jsTruthy (newForm.getField "status") then
      jsInterp (newForm.getField "status") else "Draft") ++ "\n"
  let resultText :=
    if jsTruthy (newForm.getField "client_id") then
      resultText ++ "- **Client ID**: " ++ jsInterp (newForm.getField "client_id") ++ "\n"
    else resultText
  let resultText :=
    if jsTruthy (newForm.getField "template_id") then
      resultText ++ "- **Template ID**: " ++ jsInterp (newForm.getField "template_id") ++ "\n"
    else resultText
  resultText ++ "\n" ++
    "⚠️ **Note**: The form has been created but is not published yet. Use `auth0_publish_form(id=\"" ++
    jsInterp (newForm.getField "id") ++ "\")` to publish it.\n\n"

/-- Continuation of auth0_create_form on its one fetch. -/
def auth0_create_form_onResponse : FetchOutcome → HandlerStep
  | .netError e => .respond (createErrorResponse (handleNetworkError e))
  | .reply response =>
    if !response.ok then
      .respond (createErrorResponse (auth0_create_form_errorMessage response))
    else
      .respond (successResponse (auth0_create_form_formatText response.body))

/-- Handler auth0_create_form.  The optional members are added only when
truthy. -/
def auth0_create_form : Handler := fun request config =>
  if !jsTruthyStr config.domain then
    .respond (createErrorResponse "Error: AUTH0_DOMAIN environment variable is not set")
  else
    let p := request.parameters
    if !jsTruthy (p.getField "name") then
      .respond (createErrorResponse "Error: name is required")
    else if !jsTruthy (p.getField "type") then
      .respond (createErrorResponse "Error: type is required")
    else
      let domain := formatDomain (config.domain.getD "")
      let requestBody := Json.obj
        ([("name", (p.getField "name").getD .null),
          ("type", (p.getField "type").getD .null)] ++
         (if jsTruthy (p.getField "template_id") then
           [("template_id", (p.getField "template_id").getD .null)] else []) ++
         (if jsTruthy (p.getField "client_id") then
           [("client_id", (p.getField "client_id").getD .null)] else []) ++
         (if jsTruthy (p.getField "content") then
           [("content", (p.getField "content").getD .null)] else []))
      .fetch { url := "https://" ++ domain ++ "/api/v2/branding/forms", method := "POST",
               query := [], body := some requestBody }
        auth0_create_form_onResponse

/-- Status-code classification of a failed form update. -/
def auth0_update_form_errorMessage (id : Option Json) (response : HttpReply) : String :=
  let errorMessage := "Failed to update form: " ++ response.status.repr ++
    " " ++ response.statusText
  if response.status = 404 then
    "Form with id \x27" ++ jsInterp id ++ "\x27 not found."
  else if response.status = 401 then
    errorMessage ++ "\nError: Unauthorized. Your token might be expired or invalid or missing update:branding scope."
  else if response.status = 422 then
    errorMessage ++ "\nError: Validation errors in your request. Check that your parameters are valid."
  else errorMessage

/-- Markdown text of a successful form update. -/
def auth0_update_form_formatText (updatedForm : Json) : String :=
  let resultText := "### Form Updated Successfully\n\n" ++
    "- **Name**: " ++ jsInterp (updatedForm.getField "name") ++ "\n" ++
    "- **ID**: " ++ jsInterp (updatedForm.getField "id") ++ "\n" ++
    "- **Type**: " ++ jsInterp (updatedForm.getField "type") ++ "\n" ++
    "- **Status**: " ++ (if jsTruthy (updatedForm.getField "status") then
      jsInterp (updatedForm.getField "status") else "Draft") ++ "\n" ++
    "- **Published**: " ++ (if jsTruthy (updatedForm.getField "is_published") then "Yes" else "No") ++ "\n\n"
  if !jsTruthy (updatedForm.getField "is_published") then
    resultText ++ "⚠️ **Note**: The form has been updated but changes are not published. Use `auth0_publish_form(id=\"" ++
      jsInterp (updatedForm.getField "id") ++ "\")` to publish the changes.\n\n"
  else resultText

/-- Continuation of auth0_update_form on its one fetch. -/
def auth0_update_form_onResponse (id : Option Json) : FetchOutcome → HandlerStep
  | .netError e => .respond (createErrorResponse (handleNetworkError e))
  | .reply response =>
    if !response.ok then
      .respond (createErrorResponse (auth0_update_form_errorMessage id response))
    else
      .respond (successResponse (auth0_update_form_formatText response.body))

/-- Handler auth0_update_form.  The body members are added only when
truthy. -/
def auth0_update_form : Handler := fun request config =>
  if !jsTruthyStr config.domain then
    .respond (createErrorResponse "Error: AUTH0_DOMAIN environment variable is not set")
  else
    let p := request.parameters
    let id := p.getField "id"
    if !jsTruthy id then
      .respond (createErrorResponse "Error: id is required")
    else
      let domain := formatDomain (config.domain.getD "")
      let requestBody := Json.obj
        ((if jsTruthy (p.getField "name") then
           [("name", (p.getField "name").getD .null)] else []) ++
         (if jsTruthy (p.getField "content") then
           [("content", (p.getField "content").getD .null)] else []))
      .fetch { url := "https://" ++ domain ++ "/api/v2/branding/forms/" ++ jsInterp id,
               method := "PATCH", query := [], body := some requestBody }
        (auth0_update_form_onResponse id)

/-- Status-code classification of a failed form delete. -/
def auth0_delete_form_errorMessage (id : Option Json) (response : HttpReply) : String :=
  let errorMessage := "Failed to delete form: " ++ response.status.repr ++
    " " ++ response.statusText
  if response.status = 404 then
    "Form with id \x27" ++ jsInterp id ++ "\x27 not found."
  else if response.status = 401 then
    errorMessage ++ "\nError: Unauthorized. Your token might be expired or invalid or missing delete:branding scope."
  else errorMessage

/-- Continuation of auth0_delete_form on its one fetch. -/
def auth0_delete_form_onResponse (id : Option Json) : FetchOutcome → HandlerStep
  | .netError e => .respond (createErrorResponse (handleNetworkError e))
  | .reply response =>
    if !response.ok then
      .respond (createErrorResponse (auth0_delete_form_errorMessage id response))
    else
      .respond (successResponse ("### Form Deleted Successfully\n\n" ++
        "Form with id \x27" ++ jsInterp id ++ "\x27 has been deleted."))

/-- Handler auth0_delete_form. -/
def auth0_delete_form : Handler := fun request config =>
  if !jsTruthyStr config.domain then
    .respond (createErrorResponse "Error: AUTH0_DOMAIN environment variable is not set")
  else
    let id := request.parameters.getField "id"
    if !jsTruthy id then
      .respond (createErrorResponse "Error: id is required")
    else
      let domain := formatDomain (config.domain.getD "")
      .fetch { url := "https://" ++ domain ++ "/api/v2/branding/forms/" ++ jsInterp id,
               method := "DELETE", query := [], body := none }
        (auth0_delete_form_onResponse id)

/-- Status-code classification of a failed form publish. -/
def auth0_publish_form_errorMessage (id : Option Json) (response : HttpReply) : String :=
  let errorMessage := "Failed to publish form: " ++ response.status.repr ++
    " " ++ response.statusText
  if response.status = 404 then
    "Form with id \x27" ++ jsInterp id ++ "\x27 not found."
  else if response.status = 401 then
    errorMessage ++ "\nError: Unauthorized. Your token might be expired or invalid or missing update:branding scope."
  else if response.status = 422 then
    errorMessage ++ "\nError: The form has validation errors and cannot be published."
  else errorMessage

/-- Markdown text of a successful form publish. -/
def auth0_publish_form_formatText (publishedForm : Json) : String :=
  "### Form Published Successfully\n\n" ++
  "- **Name**: " ++ jsInterp (publishedForm.getField "name") ++ "\n" ++
  "- **ID**: " ++ jsInterp (publishedForm.getField "id") ++ "\n" ++
  "- **Type**: " ++ jsInterp (publishedForm.getField "type") ++ "\n" ++
  "- **Status**: " ++ (if jsTruthy (publishedForm.getField "status") then
    jsInterp (publishedForm.getField "status") else "Published") ++ "\n" ++
  "- **Published**: " ++ (if jsTruthy (publishedForm.getField "is_published") then "Yes" else "No") ++ "\n\n"

/-- Continuation of auth0_publish_form on its one fetch. -/
def auth0_publish_form_onResponse (id : Option Json) : FetchOutcome → HandlerStep
  | .netError e => .respond (createErrorResponse (handleNetworkError e))
  | .reply response =>
    if !response.ok then
      .respond (createErrorResponse (auth0_publish_form_errorMessage id response))
    else
      .respond (successResponse (auth0_publish_form_formatText response.body))

/-- Handler auth0_publish_form. -/
def auth0_publish_form : Handler := fun request config =>
  if !jsTruthyStr config.domain then
    .respond (createErrorResponse "Error: AUTH0_DOMAIN environment variable is not set")
  else
    let id := request.parameters.getField "id"
    if !jsTruthy id then
      .respond (createErrorResponse "Error: id is required")
    else
      let domain := formatDomain (config.domain.getD "")
      .fetch { url := "https://" ++ domain ++ "/api/v2/branding/forms/" ++ jsInterp id ++ "/publish",
               method := "POST", query := [], body := none }
        (auth0_publish_form_onResponse id)

/-! ## src/tools.ts and the registries -/

/-- Tool definition of tools-common.ts.  The inputSchema member is a static
JSON-schema object consumed only by the protocol client for UI and
validation; it is not read by any code modelled here and is not carried. -/
structure Tool where
  name : String
  description : String
deriving DecidableEq

/-- APPLICATION_TOOLS of tools-applications.ts. -/
def APPLICATION_TOOLS : List Tool :=
  [{ name := "auth0_list_applications",
     description := "List all applications in the Auth0 tenant" },
   { name := "auth0_get_application",
     description := "Get details about a specific Auth0 application" },
   { name := "auth0_create_application",
     description := "Create a new Auth0 application" },
   { name := "auth0_update_application",
     description := "Update an existing Auth0 application" },
   { name := "auth0_delete_application",
     description := "Delete an Auth0 application" },
   { name := "auth0_search_applications",
     description := "Search for Auth0 applications by name" }]

/-- RESOURCE_SERVER_TOOLS of tools-resource-servers.ts. -/
def RESOURCE_SERVER_TOOLS : List Tool :=
  [{ name := "auth0_list_resource_servers",
     description := "List all resource servers (APIs) in the Auth0 tenant" },
   { name := "auth0_get_resource_server",
     description := "Get details about a specific Auth0 resource server" },
   { name := "auth0_create_resource_server",
     description := "Create a new Auth0 resource server (API)" },
   { name := "auth0_update_resource_server",
     description := "Update an existing Auth0 resource server" },
   { name := "auth0_delete_resource_server",
     description := "Delete an Auth0 resource server" }]

/-- ACTION_TOOLS of tools-actions.ts. -/
def ACTION_TOOLS : List Tool :=
  [{ name := "auth0_list_actions",
     description := "List all actions in the Auth0 tenant" },
   { name := "auth0_get_action",
     description := "Get details about a specific Auth0 action" },
   { name := "auth0_create_action",
     description := "Create a new Auth0 action" },
   { name := "auth0_update_action",
     description := "Update an existing Auth0 action" },
   { name := "auth0_delete_action",
     description := "Delete an Auth0 action" },
   { name := "auth0_deploy_action",
     description := "Deploy an Auth0 action" }]

/-- LOG_TOOLS of tools-logs.ts. -/
def LOG_TOOLS : List Tool :=
  [{ name := "auth0_list_logs",
     description := "List logs from the Auth0 tenant" },
   { name := "auth0_get_log",
     description := "Get a specific log entry by ID" },
   { name := "auth0_search_logs",
     description := "Search logs with specific criteria" }]

/-- FORM_TOOLS of tools-forms.ts. -/
def FORM_TOOLS : List Tool :=
  [{ name := "auth0_list_forms",
     description := "List all forms in the Auth0 tenant" },
   { name := "auth0_get_form",
     description := "Get details about a specific Auth0 form" },
   { name := "auth0_create_form",
     description := "Create a new Auth0 form" },
   { name := "auth0_update_form",
     description := "Update an existing Auth0 form" },
   { name := "auth0_delete_form",
     description := "Delete an Auth0 form" },
   { name := "auth0_publish_form",
     description := "Publish an Auth0 form" }]

/-- TOOLS of src/tools.ts: the concatenation of the five family catalogs. -/
def TOOLS : List Tool :=
  APPLICATION_TOOLS ++ RESOURCE_SERVER_TOOLS ++ ACTION_TOOLS ++ LOG_TOOLS ++ FORM_TOOLS

/-- APPLICATION_HANDLERS of tools-applications.ts, as the key-to-function
pairs of the object literal in source order. -/
def APPLICATION_HANDLERS : List (String × Handler) :=
  [("auth0_list_applications", auth0_list_applications),
   ("auth0_get_application", auth0_get_application),
   ("auth0_create_application", auth0_create_application),
   ("auth0_update_application", auth0_update_application),
   ("auth0_delete_application", auth0_delete_application),
   ("auth0_search_applications", auth0_search_applications)]

/-- RESOURCE_SERVER_HANDLERS of tools-resource-servers.ts. -/
def RESOURCE_SERVER_HANDLERS : List (String × Handler) :=
  [("auth0_list_resource_servers", auth0_list_resource_servers),
   ("auth0_get_resource_server", auth0_get_resource_server),
   ("auth0_create_resource_server", auth0_create_resource_server),
   ("auth0_update_resource_server", auth0_update_resource_server),
   ("auth0_delete_resource_server", auth0_delete_resource_server)]

/-- ACTION_HANDLERS of tools-actions.ts. -/
def ACTION_HANDLERS : List (String × Handler) :=
  [("auth0_list_actions", auth0_list_actions),
   ("auth0_get_action", auth0_get_action),
   ("auth0_create_action", auth0_create_action),
   ("auth0_update_action", auth0_update_action),
   ("auth0_delete_action", auth0_delete_action),
   ("auth0_deploy_action", auth0_deploy_action)]

/-- LOG_HANDLERS of tools-logs.ts. -/
def LOG_HANDLERS : List (String × Handler) :=
  [("auth0_list_logs", auth0_list_logs),
   ("auth0_get_log", auth0_get_log),
   ("auth0_search_logs", auth0_search_logs)]

/-- FORM_HANDLERS of tools-forms.ts. -/
def FORM_HANDLERS : List (String × Handler) :=
  [("auth0_list_forms", auth0_list_forms),
   ("auth0_get_form", auth0_get_form),
   ("auth0_create_form", auth0_create_form),
   ("auth0_update_form", auth0_update_form),
   ("auth0_delete_form", auth0_delete_form),
   ("auth0_publish_form", auth0_publish_form)]

/-- HANDLERS of src/tools.ts: the spread of the five family tables.  The
family key sets are disjoint, so the spread is a plain concatenation and
lookup by name finds the unique binding. -/
def HANDLERS : List (String × Handler) :=
  APPLICATION_HANDLERS ++ RESOURCE_SERVER_HANDLERS ++ ACTION_HANDLERS ++
    LOG_HANDLERS ++ FORM_HANDLERS

/-! ## server.ts: the tools/call request handler -/

/-- Auth0Config of config.ts. -/
structure Auth0Config where
  token : String
  domain : String
  tenantName : String
deriving DecidableEq

/-- validateConfig of config.ts: non-null with truthy token and truthy
domain. -/
def validateConfig : Option Auth0Config → Bool
  | none => false
  | some config => config.token != "" && config.domain != ""

/-- Outcome of the tools/call request handler before any handler body runs:
either an immediate toolResult (the catch block of the dispatcher), or the
located handler together with the request and config it is invoked with. -/
inductive DispatchStep where
  | reply (r : ToolResult) : DispatchStep
  | run (h : Handler) (req : HandlerRequest) (cfg : HandlerConfig) : DispatchStep

/-- The toolResult produced by the catch block of the dispatcher for an
error raised with the given message. -/
def dispatchErrorToolResult (message : String) : ToolResult :=
  { content := [{ type := "text", text := "Error: " ++ message }], isError := true }

/-- The CallToolRequestSchema handler of server.ts.  config is the
configuration loaded at startup; reload is what loadConfig would return if
the dispatcher re-validates and reloads; args is request.params.arguments.
A missing handler raises Unknown tool, and the surrounding catch converts
every raised error into an isError toolResult, so the protocol session never
sees an exception. -/
def callToolRequestHandler (config reload : Option Auth0Config)
    (toolName : String) (args : Option Json) : DispatchStep :=
  match HANDLERS.lookup toolName with
  | none => .reply (dispatchErrorToolResult ("Unknown tool: " ++ toolName))
  | some handler =>
    let config := if validateConfig config then config else reload
    if !validateConfig config then
      .reply (dispatchErrorToolResult
        "Auth0 configuration is invalid or missing. Please check auth0-cli login status.")
    else
      let token := (config.map Auth0Config.token).getD ""
      let domain := (config.map Auth0Config.domain).getD ""
      let parameters := match args with
        | some a => if jsTruthy (some a) then a else .obj []
        | none => .obj []
      .run handler { token := token, parameters := parameters } { domain := some domain }

/-! ## Predicates used by the theorem statements -/

/-- A rendered table cell that is newline- and pipe-free, so that it neither
breaks its markdown table row into further lines nor opens a spurious one. -/
def NlPipeFree (s : String) : Prop := '\n' ∉ s.data ∧ '|' ∉ s.data

/-- An application item on which the source-side row construction does not
throw: when callbacks is a non-empty array its first element is a string
(the source calls split on it). -/
def appItemWF (app : Json) : Prop :=
  match app.getField "callbacks" with
  | some (.arr (c0 :: _)) => ∃ s, c0 = .str s
  | _ => True

/-- Clean rendered cells of one applications row and reference line. -/
def appCellsClean (app : Json) : Prop :=
  NlPipeFree (appNameCell app) ∧ NlPipeFree (appTypeCell app) ∧
  NlPipeFree (appDescriptionCell app) ∧ NlPipeFree (appDomainCell app) ∧
  NlPipeFree (appIdCell app)

/-- Clean rendered cells of one resource servers row and reference line. -/
def rsCellsClean (server : Json) : Prop :=
  NlPipeFree (jsInterp (server.getField "name")) ∧
  NlPipeFree (jsInterp (server.getField "identifier")) ∧
  NlPipeFree (jsInterp (server.getField "id"))

/-- Clean rendered cells of one actions row and reference line. -/
def actionCellsClean (action : Json) : Prop :=
  NlPipeFree (actionNameCell action) ∧ NlPipeFree (actionTriggerCell action) ∧
  NlPipeFree (actionStatusCell action) ∧ NlPipeFree (actionRuntimeCell action) ∧
  NlPipeFree (jsInterp (action.getField "name")) ∧
  NlPipeFree (jsInterp (action.getField "id"))

/-- Clean rendered cells of one logs row. -/
def logCellsClean (logEntry : Json) : Prop :=
  NlPipeFree (logDateCell logEntry) ∧ NlPipeFree (logTypeCell logEntry) ∧
  NlPipeFree (logDescriptionCell logEntry) ∧ NlPipeFree (logUserCell logEntry)

/-- Clean rendered cells of one forms row and reference line. -/
def formCellsClean (form : Json) : Prop :=
  NlPipeFree (formNameCell form) ∧ NlPipeFree (formTypeCell form) ∧
  NlPipeFree (formStatusCell form) ∧ NlPipeFree (formPublishedCell form) ∧
  NlPipeFree (jsInterp (form.getField "name")) ∧
  NlPipeFree (jsInterp (form.getField "id"))

/-- A handler step that is an error response whose message contains the
given text. -/
def stepErrorContains (s : HandlerStep) (pat : String) : Prop :=
  ∃ msg, s = .respond (createErrorResponse msg) ∧ textHas msg pat = true

/-- A handler whose primary request, answered with status 401, produces an
error response whose message carries the token-expired re-authentication
guidance shared by every 401 branch of the source. -/
def respondsUnauthorized (h : Handler) : Prop :=
  ∀ req cfg fr k, h req cfg = HandlerStep.fetch fr k →
    ∀ r : HttpReply, r.status = 401 →
      stepErrorContains (k (.reply r)) "Unauthorized. Your token might be expired or invalid"

/-- A handler whose primary request, answered with status 404, produces an
error response whose message names the identifier value taken from the given
parameter field: the message is exactly the family phrase followed by the
quoted identifier and not found. -/
def responds404Naming (h : Handler) (idField msgStart : String) : Prop :=
  ∀ req cfg fr k, h req cfg = HandlerStep.fetch fr k →
    ∀ r : HttpReply, r.status = 404 →
      k (.reply r) = .respond (createErrorResponse
        (msgStart ++ jsInterp (req.parameters.getField idField) ++ "\x27 not found."))

/-- A response of one of the two canonical shapes every handler return site
uses: an error response (single text element, isError true) or a success
response (single text element, isError false). -/
def ResponseCanonical (r : HandlerResponse) : Prop :=
  (∃ t, r = createErrorResponse t) ∨ (∃ t, r = successResponse t)

/-- Every response reachable along the execution tree of a handler
invocation, whatever the fetch outcomes, is of a canonical shape. -/
inductive StepResponsesOK : HandlerStep → Prop where
  | respond (r : HandlerResponse) : ResponseCanonical r → StepResponsesOK (.respond r)
  | fetch (fr : FetchRequest) (k : FetchOutcome → HandlerStep) :
      (∀ outcome, StepResponsesOK (k outcome)) → StepResponsesOK (.fetch fr k)

/-! ## Helper lemmas: substring containment -/

/-- The list-response shapes the spec says every list handler supports: a
bare array of items, or an object carrying the family named array field.
This definition follows the spec wording; the C6 theorem compares each
handler actual dispatch against it. -/
def specListShape (field : String) (body : Json) : Option (List Json) :=
  match body with
  | .arr items => some items
  | _ =>
    match body.getField field with
    | some (.arr items) => some items
    | _ => none

/-- The object-only shape actually accepted by the applications and resource
servers list handlers: the named array field of an object body, with no
bare-array fallback. -/
def objListShape (field : String) (body : Json) : Option (List Json) :=
  match body.getField field with
  | some (.arr items) => some items
  | _ => none

lemma beginsWith_append_self (l t : List Char) : beginsWith l (l ++ t) = true := by
  induction l with
  | nil => rfl
  | cons a as ih => simp [beginsWith, ih]

lemma beginsWith_extend {pat s : List Char} (t : List Char)
    (h : beginsWith pat s = true) : beginsWith pat (s ++ t) = true := by
  induction pat generalizing s with
  | nil => rfl
  | cons a as ih =>
    cases s with
    | nil => simp [beginsWith] at h
    | cons b bs =>
      simp [beginsWith] at h ⊢
      exact ⟨h.1, ih h.2⟩

lemma containsSeg_here (pat t : List Char) : containsSeg pat (pat ++ t) = true := by
  cases pat with
  | nil =>
    cases t with
    | nil => rfl
    | cons c cs => simp [containsSeg, beginsWith]
  | cons a as =>
    simp [containsSeg]
    exact Or.inl (by simpa using beginsWith_append_self (a :: as) t)

lemma containsSeg_append_left {pat s : List Char} (pre : List Char)
    (h : containsSeg pat s = true) : containsSeg pat (pre ++ s) = true := by
  induction pre with
  | nil => simpa using h
  | cons a as ih => simp [containsSeg, ih]

lemma containsSeg_append_right {pat s : List Char} (t : List Char)
    (h : containsSeg pat s = true) : containsSeg pat (s ++ t) = true := by
  induction s with
  | nil =>
    simp [containsSeg] at h
    subst h
    simpa using containsSeg_here [] t
  | cons b bs ih =>
    simp [containsSeg] at h ⊢
    rcases h with h | h
    · exact Or.inl (by simpa using beginsWith_extend t h)
    · exact Or.inr (ih h)

lemma textHas_right {b pat : String} (a : String) (h : textHas b pat = true) :
    textHas (a ++ b) pat = true := by
  unfold textHas at h ⊢
  rw [String.data_append]
  exact containsSeg_append_left a.data h

lemma textHas_left {a pat : String} (b : String) (h : textHas a pat = true) :
    textHas (a ++ b) pat = true := by
  unfold textHas at h ⊢
  rw [String.data_append]
  exact containsSeg_append_right b.data h

/-! ## C5: domain normalization -/

lemma jsIncludes_suffix (d : String) :
    jsIncludes (d ++ ".us.auth0.com") "." = true := by
  unfold jsIncludes
  rw [String.data_append]
  exact containsSeg_append_left d.data (by decide)

/-- C5: formatDomain is idempotent on every input string; an input already
containing a dot is returned unchanged; an input without a dot gets the
fixed suffix .us.auth0.com appended exactly once. -/
theorem C5_formatDomain_idempotent : ∀ d : String,
    formatDomain (formatDomain d) = formatDomain d ∧
    (jsIncludes d "." = true → formatDomain d = d) ∧
    (jsIncludes d "." = false → formatDomain d = d ++ ".us.auth0.com") := by
  intro d
  by_cases h : jsIncludes d "." = true
  · constructor
    · unfold formatDomain
      rw [if_pos h, if_pos h]
    · exact ⟨fun _ => by unfold formatDomain; rw [if_pos h],
        fun hfalse => absurd h (by simp [hfalse])⟩
  · have hf : formatDomain d = d ++ ".us.auth0.com" := by
      unfold formatDomain
      rw [if_neg h]
    refine ⟨?_, fun htrue => absurd htrue h, fun _ => hf⟩
    rw [hf]
    unfold formatDomain
    rw [if_pos (jsIncludes_suffix d)]

/-- Witness for C5 at concrete inputs: a bare tenant label and a dotted
domain. -/
theorem C5_formatDomain_idempotent_witness :
    (formatDomain (formatDomain "demo") = formatDomain "demo" ∧
      formatDomain "demo" = "demo" ++ ".us.auth0.com") ∧
    formatDomain "tenant.eu.auth0.com" = "tenant.eu.auth0.com" := by
  refine ⟨⟨(C5_formatDomain_idempotent "demo").1,
    (C5_formatDomain_idempotent "demo").2.2 (by decide)⟩,
    (C5_formatDomain_idempotent "tenant.eu.auth0.com").2.1 (by decide)⟩

/-! ## Helper lemmas: the token service -/

lemma retrieveFresh_spec (w : TokenWorld) (c : Option TokenCacheEntry) :
    (∃ t execs, cliPathAttempt w = (some t, execs) ∧
      retrieveFreshToken w c =
        { result := .ok t, cache := some (cacheToken w t), execs := execs }) ∨
    (∃ execs1, cliPathAttempt w = (none, execs1) ∧
      ((∃ t, w.execToken "auth0 api get-token" = some t ∧
          retrieveFreshToken w c =
            { result := .ok t, cache := some (cacheToken w t), execs := execs1 ++ ["auth0 api get-token"] }) ∨
       (w.execToken "auth0 api get-token" = none ∧
        ((∃ t, extractTokenFromConfig w = some t ∧
            retrieveFreshToken w c =
              { result := .ok t, cache := some (cacheToken w t), execs := execs1 ++ ["auth0 api get-token"] }) ∨
         (extractTokenFromConfig w = none ∧
          retrieveFreshToken w c =
            { result := Except.error "Token retrieval failed: Failed to retrieve Auth0 token using all available methods",
              cache := c, execs := execs1 ++ ["auth0 api get-token"] }))))) := by
  rcases hA : cliPathAttempt w with ⟨tq, ex⟩
  rcases tq with _ | tok
  · right
    refine ⟨ex, rfl, ?_⟩
    rcases hB : w.execToken "auth0 api get-token" with _ | tokB
    · right
      refine ⟨rfl, ?_⟩
      rcases hC : extractTokenFromConfig w with _ | tokC
      · right
        exact ⟨rfl, by simp [retrieveFreshToken, hA, hB, hC]⟩
      · left
        exact ⟨tokC, rfl, by simp [retrieveFreshToken, hA, hB, hC]⟩
    · left
      exact ⟨tokB, rfl, by simp [retrieveFreshToken, hA, hB]⟩
  · left
    exact ⟨tok, ex, rfl, by simp [retrieveFreshToken, hA]⟩

lemma retrieveFresh_result_execs_cache_free (w : TokenWorld) (c₁ c₂ : Option TokenCacheEntry) :
    (retrieveFreshToken w c₁).result = (retrieveFreshToken w c₂).result ∧
    (retrieveFreshToken w c₁).execs = (retrieveFreshToken w c₂).execs := by
  rcases retrieveFresh_spec w c₁ with ⟨t, ex, hA, h1⟩ | ⟨ex, hA, hrest⟩
  · rcases retrieveFresh_spec w c₂ with ⟨t', ex', hA', h2⟩ | ⟨ex', hA', _⟩
    · rw [hA] at hA'
      cases hA'
      rw [h1, h2]
      exact ⟨rfl, rfl⟩
    · rw [hA] at hA'
      cases hA'
  · rcases retrieveFresh_spec w c₂ with ⟨t', ex', hA', _⟩ | ⟨ex', hA', hrest'⟩
    · rw [hA] at hA'
      cases hA'
    · rw [hA] at hA'
      cases hA'
      rcases hrest with ⟨t, hB, h1⟩ | ⟨hB, hrest2⟩
      · rcases hrest' with ⟨t', hB', h2⟩ | ⟨hB', _⟩
        · rw [hB] at hB'
          cases hB'
          rw [h1, h2]
          exact ⟨rfl, rfl⟩
        · rw [hB] at hB'
          cases hB'
      · rcases hrest' with ⟨t', hB', _⟩ | ⟨hB', hrest2'⟩
        · rw [hB] at hB'
          cases hB'
        · rcases hrest2 with ⟨t, hC, h1⟩ | ⟨hC, h1⟩ <;>
            rcases hrest2' with ⟨t', hC', h2⟩ | ⟨hC', h2⟩
          · rw [hC] at hC'
            cases hC'
            rw [h1, h2]
            exact ⟨rfl, rfl⟩
          · rw [hC] at hC'
            cases hC'
          · rw [hC] at hC'
            cases hC'
          · rw [h1, h2]
            exact ⟨rfl, rfl⟩

lemma retrieveFresh_ok_cache (w : TokenWorld) (c : Option TokenCacheEntry) (t : String)
    (h : (retrieveFreshToken w c).result = .ok t) :
    (retrieveFreshToken w c).cache = some (cacheToken w t) := by
  rcases retrieveFresh_spec w c with ⟨t', ex, hA, h1⟩ | ⟨ex, hA, hrest⟩
  · rw [h1] at h ⊢
    simp at h ⊢
    rw [h]
  · rcases hrest with ⟨t', hB, h1⟩ | ⟨hB, hrest2⟩
    · rw [h1] at h ⊢
      simp at h ⊢
      rw [h]
    · rcases hrest2 with ⟨t', hC, h1⟩ | ⟨hC, h1⟩
      · rw [h1] at h ⊢
        simp at h ⊢
        rw [h]
      · rw [h1] at h
        simp at h

/-! ## C2: forced refresh bypasses cache and environment -/

/-- C2: with forceRefresh set, getToken goes straight to the fallback chain:
its outcome and the subprocesses it runs are independent of the cache entry
and of the AUTH0_TOKEN environment variable, and when the AUTH0_CLI_PATH
source is configured and present the first subprocess executed is that
command, the top of the chain. -/
theorem C2_forceRefresh_bypasses_cache : ∀ (w : TokenWorld) (cache : Option TokenCacheEntry),
    getToken w cache true = retrieveFreshToken w cache ∧
    (∀ c', (retrieveFreshToken w cache).result = (retrieveFreshToken w c').result ∧
      (retrieveFreshToken w cache).execs = (retrieveFreshToken w c').execs) ∧
    (∀ t, getToken { w with envToken := t } cache true = getToken w cache true) ∧
    (∀ cliPath, w.envCliPath = some cliPath → cliPath ≠ "" →
      w.cliExists cliPath = true →
      (getToken w cache true).execs.head? = some ("\"" ++ cliPath ++ "\" api get-token")) := by
  intro w cache
  have hmain : getToken w cache true = retrieveFreshToken w cache := by
    unfold getToken
    simp
  have henv : ∀ t, getToken { w with envToken := t } cache true = getToken w cache true := by
    intro t
    rw [hmain]
    unfold getToken
    simp
    rfl
  refine ⟨hmain, fun c' => retrieveFresh_result_execs_cache_free w cache c', henv, ?_⟩
  intro cliPath hcp hne hex
  rw [hmain]
  unfold retrieveFreshToken
  have hA : cliPathAttempt w =
      (w.execToken ("\"" ++ cliPath ++ "\" api get-token"),
       ["\"" ++ cliPath ++ "\" api get-token"]) := by
    unfold cliPathAttempt
    rw [hcp]
    simp [hne, hex]
  rw [hA]
  rcases w.execToken ("\"" ++ cliPath ++ "\" api get-token") with _ | tok <;> simp
  rcases w.execToken "auth0 api get-token" with _ | tok <;> simp
  rcases extractTokenFromConfig w with _ | tok2 <;> simp

/-- Witness for C2 at a concrete world: an unexpired cache entry and an
environment token both present, forced refresh still runs the CLI-path
command and returns its token. -/
theorem C2_forceRefresh_bypasses_cache_witness :
    getToken
      { envToken := some "env-token", envCliPath := some "/opt/auth0",
        cliExists := fun _ => true, execToken := fun _ => some "fresh-token",
        configFile1 := none, configFile2 := none, now := 5000 }
      (some { token := "cached-token", expiresAt := 999999 }) true =
      retrieveFreshToken
        { envToken := some "env-token", envCliPath := some "/opt/auth0",
          cliExists := fun _ => true, execToken := fun _ => some "fresh-token",
          configFile1 := none, configFile2 := none, now := 5000 }
        (some { token := "cached-token", expiresAt := 999999 }) ∧
    (getToken
      { envToken := some "env-token", envCliPath := some "/opt/auth0",
        cliExists := fun _ => true, execToken := fun _ => some "fresh-token",
        configFile1 := none, configFile2 := none, now := 5000 }
      (some { token := "cached-token", expiresAt := 999999 }) true).execs.head? =
      some "\"/opt/auth0\" api get-token" := by
  refine ⟨(C2_forceRefresh_bypasses_cache _ _).1, ?_⟩
  have h := (C2_forceRefresh_bypasses_cache
    { envToken := some "env-token", envCliPath := some "/opt/auth0",
      cliExists := fun _ => true, execToken := fun _ => some "fresh-token",
      configFile1 := none, configFile2 := none, now := 5000 }
    (some { token := "cached-token", expiresAt := 999999 })).2.2.2
    "/opt/auth0" rfl (by decide) rfl
  simpa using h

/-! ## C3: idempotent resolution while the cache is valid -/

/-- C3: if a getToken call without forced refresh and without an AUTH0_TOKEN
environment token returns a token, the cache afterwards holds exactly that
token, and any later call (again without environment token or forced
refresh) made while that entry is unexpired returns the identical token,
leaves the cache unchanged, and executes no subprocess. -/
theorem C3_cached_resolution_idempotent :
    ∀ (w₁ w₂ : TokenWorld) (cache : Option TokenCacheEntry) (t : String),
    jsTruthyStr w₁.envToken = false → jsTruthyStr w₂.envToken = false →
    (getToken w₁ cache false).result = .ok t →
    ∃ e : TokenCacheEntry, (getToken w₁ cache false).cache = some e ∧ e.token = t ∧
      (w₂.now < e.expiresAt →
        getToken w₂ (some e) false =
          { result := .ok t, cache := some e, execs := [] }) := by
  intro w₁ w₂ cache t henv1 henv2 hok
  have hsecond : ∀ e : TokenCacheEntry, e.token = t → w₂.now < e.expiresAt →
      getToken w₂ (some e) false = { result := .ok t, cache := some e, execs := [] } := by
    intro e het hlt
    unfold getToken
    rw [henv2]
    have hvalid : cacheValid (some e) w₂.now = true := by
      unfold cacheValid
      simpa using hlt
    rw [hvalid]
    simp [het]
  unfold getToken at hok
  rw [henv1] at hok
  simp only [Bool.false_and, Bool.not_false, Bool.true_and, if_false] at hok
  by_cases hv : cacheValid cache w₁.now = true
  · rw [hv] at hok
    simp at hok
    rcases cache with _ | e
    · simp [cacheValid] at hv
    · simp at hok
      refine ⟨e, ?_, hok, hsecond e hok⟩
      unfold getToken
      rw [henv1]
      simp [hv]
  · rw [Bool.not_eq_true] at hv
    rw [hv] at hok
    simp at hok
    have hcache := retrieveFresh_ok_cache w₁ cache t hok
    refine ⟨cacheToken w₁ t, ?_, rfl, hsecond _ rfl⟩
    unfold getToken
    rw [henv1]
    simp [hv]
    exact hcache

/-- Witness for C3: a first resolution through the PATH subprocess caches
the token; a second call two minutes later returns it from the cache with no
subprocess run. -/
theorem C3_cached_resolution_idempotent_witness :
    (getToken
      { envToken := none, envCliPath := none, cliExists := fun _ => false,
        execToken := fun _ => some "tok-A", configFile1 := none, configFile2 := none,
        now := 1000 } none false).result = Except.ok "tok-A" ∧
    ∃ e : TokenCacheEntry,
      (getToken
        { envToken := none, envCliPath := none, cliExists := fun _ => false,
          execToken := fun _ => some "tok-A", configFile1 := none, configFile2 := none,
          now := 1000 } none false).cache = some e ∧ e.token = "tok-A" ∧
      getToken
        { envToken := none, envCliPath := none, cliExists := fun _ => false,
          execToken := fun _ => none, configFile1 := none, configFile2 := none,
          now := 121000 } (some e) false =
        { result := .ok "tok-A", cache := some e, execs := [] } := by
  have hres : (getToken
      { envToken := none, envCliPath := none, cliExists := fun _ => false,
        execToken := fun _ => some "tok-A", configFile1 := none, configFile2 := none,
        now := 1000 } none false).result = Except.ok "tok-A" := by rfl
  refine ⟨hres, ?_⟩
  obtain ⟨e, hcache, het, hnext⟩ := C3_cached_resolution_idempotent
    { envToken := none, envCliPath := none, cliExists := fun _ => false,
      execToken := fun _ => some "tok-A", configFile1 := none, configFile2 := none,
      now := 1000 }
    { envToken := none, envCliPath := none, cliExists := fun _ => false,
      execToken := fun _ => none, configFile1 := none, configFile2 := none,
      now := 121000 }
    none "tok-A" rfl rfl hres
  have he : e = { token := "tok-A", expiresAt := 1000 + CACHE_TTL_MS } := by
    have : some e = some { token := "tok-A", expiresAt := 1000 + CACHE_TTL_MS } := by
      rw [← hcache]
      rfl
    exact Option.some.injEq .. ▸ (by simpa using this)
  refine ⟨e, hcache, het, hnext ?_⟩
  rw [he]
  decide

/-! ## C4: cache overwrite and validity boundary -/

/-- C4: a successful resolution through any method of the fallback chain
(AUTH0_CLI_PATH subprocess, PATH subprocess, or config-file extraction)
overwrites the single cache entry, whatever it held before, with the
resolved token and the fresh expiry now + 55 minutes; and with no
environment token and no forced refresh, getToken serves the cached token
exactly when now < expiresAt and enters the fallback chain exactly when
now >= expiresAt. -/
theorem C4_cache_overwrite_and_validity :
    (∀ (w : TokenWorld) (c : Option TokenCacheEntry) (t : String),
      (retrieveFreshToken w c).result = .ok t →
      (retrieveFreshToken w c).cache =
        some { token := t, expiresAt := w.now + 55 * 60 * 1000 }) ∧
    (∀ (w : TokenWorld) (e : TokenCacheEntry), jsTruthyStr w.envToken = false →
      (w.now < e.expiresAt →
        getToken w (some e) false = { result := .ok e.token, cache := some e, execs := [] }) ∧
      (e.expiresAt ≤ w.now →
        getToken w (some e) false = retrieveFreshToken w (some e))) := by
  constructor
  · intro w c t h
    simpa [cacheToken, CACHE_TTL_MS] using retrieveFresh_ok_cache w c t h
  · intro w e henv
    constructor
    · intro hlt
      unfold getToken
      rw [henv]
      have hvalid : cacheValid (some e) w.now = true := by
        unfold cacheValid
        simpa using hlt
      rw [hvalid]
      simp
    · intro hge
      unfold getToken
      rw [henv]
      have hvalid : cacheValid (some e) w.now = false := by
        unfold cacheValid
        simpa using hge
      rw [hvalid]
      simp

/-- Witness for C4: a config-file resolution overwrites a stale cache entry
with the fresh 55-minute expiry, and the validity boundary at a concrete
entry. -/
theorem C4_cache_overwrite_and_validity_witness :
    (retrieveFreshToken
      { envToken := none, envCliPath := none, cliExists := fun _ => false,
        execToken := fun _ => none,
        configFile1 := some (.obj [("access_token", .str "cfg-token")]),
        configFile2 := none, now := 2000 }
      (some { token := "old", expiresAt := 1 })).cache =
      some { token := "cfg-token", expiresAt := 2000 + 55 * 60 * 1000 } ∧
    getToken
      { envToken := none, envCliPath := none, cliExists := fun _ => false,
        execToken := fun _ => none, configFile1 := none, configFile2 := none,
        now := 500 }
      (some { token := "live", expiresAt := 501 }) false =
      { result := .ok "live", cache := some { token := "live", expiresAt := 501 }, execs := [] } := by
  constructor
  · exact C4_cache_overwrite_and_validity.1
      { envToken := none, envCliPath := none, cliExists := fun _ => false,
        execToken := fun _ => none,
        configFile1 := some (.obj [("access_token", .str "cfg-token")]),
        configFile2 := none, now := 2000 }
      (some { token := "old", expiresAt := 1 }) "cfg-token" (by rfl)
  · exact (C4_cache_overwrite_and_validity.2
      { envToken := none, envCliPath := none, cliExists := fun _ => false,
        execToken := fun _ => none, configFile1 := none, configFile2 := none,
        now := 500 }
      { token := "live", expiresAt := 501 } rfl).1 (by decide)

/-! ## C1: registry completeness and unknown-tool dispatch -/

lemma textHas_unknown_tool (name : String) :
    textHas ("Error: " ++ ("Unknown tool: " ++ name)) "Unknown tool" = true := by
  apply textHas_right
  unfold textHas
  rw [String.data_append]
  exact containsSeg_append_right name.data (by decide)

/-- C1: every tool name of the TOOLS registry has exactly one handler
registered under that name in the HANDLERS table; and a tools/call whose
name has no registered handler is answered by the dispatcher, through its
catch conversion, with an isError toolResult whose text contains Unknown
tool, whatever the configuration and arguments, so no exception escapes the
request handler. -/
theorem C1_registry_and_unknown_tool :
    (∀ tool ∈ TOOLS, (HANDLERS.map Prod.fst).count tool.name = 1) ∧
    (∀ name, HANDLERS.lookup name = none →
      ∀ (config reload : Option Auth0Config) (args : Option Json),
        callToolRequestHandler config reload name args =
          .reply (dispatchErrorToolResult ("Unknown tool: " ++ name)) ∧
        (dispatchErrorToolResult ("Unknown tool: " ++ name)).isError = true ∧
        ∀ c ∈ (dispatchErrorToolResult ("Unknown tool: " ++ name)).content,
          c.type = "text" ∧ textHas c.text "Unknown tool" = true) := by
  constructor
  · decide
  · intro name hnone config reload args
    refine ⟨?_, rfl, ?_⟩
    · unfold callToolRequestHandler
      rw [hnone]
    · intro c hc
      simp [dispatchErrorToolResult] at hc
      subst hc
      exact ⟨rfl, textHas_unknown_tool name⟩

/-- Witness for C1: the name auth0_nonexistent_tool has no handler and its
dispatch yields the Unknown tool error reply. -/
theorem C1_registry_and_unknown_tool_witness :
    HANDLERS.lookup "auth0_nonexistent_tool" = none ∧
    callToolRequestHandler none none "auth0_nonexistent_tool" none =
      .reply (dispatchErrorToolResult ("Unknown tool: " ++ "auth0_nonexistent_tool")) := by
  have hnone : HANDLERS.lookup "auth0_nonexistent_tool" = none :=
    Option.isNone_iff_eq_none.mp (by decide)
  exact ⟨hnone,
    (C1_registry_and_unknown_tool.2 "auth0_nonexistent_tool" hnone none none none).1⟩

/-! ## C9: missing client_id fails fast without any HTTP request -/

/-- C9: with a domain configured and no client_id parameter,
auth0_get_application responds immediately with the client_id is required
error: the handler step is a respond node, never a fetch node, so no HTTP
request is issued. -/
theorem C9_get_application_requires_client_id :
    ∀ (req : HandlerRequest) (cfg : HandlerConfig),
    jsTruthyStr cfg.domain = true →
    req.parameters.getField "client_id" = none →
    auth0_get_application req cfg =
      .respond (createErrorResponse "Error: client_id is required") ∧
    (createErrorResponse "Error: client_id is required").toolResult.isError = true ∧
    textHas "Error: client_id is required" "client_id is required" = true ∧
    ∀ fr k, auth0_get_application req cfg ≠ HandlerStep.fetch fr k := by
  intro req cfg hd hc
  have hmain : auth0_get_application req cfg =
      .respond (createErrorResponse "Error: client_id is required") := by
    unfold auth0_get_application
    rw [hd]
    simp [hc, jsTruthy]
  refine ⟨hmain, rfl, by decide, ?_⟩
  intro fr k hcontra
  rw [hmain] at hcontra
  exact HandlerStep.noConfusion hcontra

/-- Witness for C9 at a concrete request: empty parameters and a set
domain. -/
theorem C9_get_application_requires_client_id_witness :
    auth0_get_application { token := "tok", parameters := .obj [] }
      { domain := some "tenant.us.auth0.com" } =
      .respond (createErrorResponse "Error: client_id is required") := by
  exact (C9_get_application_requires_client_id
    { token := "tok", parameters := .obj [] }
    { domain := some "tenant.us.auth0.com" } (by decide) (by rfl)).1

/-! ## Helper lemmas: 401 classification of every handler -/

lemma u401_auth0_list_applications : respondsUnauthorized auth0_list_applications := by
  unfold respondsUnauthorized
  intro req cfg fr k h r hr
  have hok : r.ok = false := by simp [HttpReply.ok, hr]
  simp only [auth0_list_applications] at h
  repeat'
    split at h
  all_goals try exact HandlerStep.noConfusion h
  all_goals
    injection h with h1 h2
    subst h2
    simp [auth0_list_applications_onResponse, hok]
    exact ⟨_, rfl, by simp [auth0_list_applications_errorMessage, hr]; apply textHas_right; decide⟩

lemma u401_auth0_get_application : respondsUnauthorized auth0_get_application := by
  unfold respondsUnauthorized
  intro req cfg fr k h r hr
  have hok : r.ok = false := by simp [HttpReply.ok, hr]
  simp only [auth0_get_application] at h
  repeat'
    split at h
  all_goals try exact HandlerStep.noConfusion h
  all_goals
    injection h with h1 h2
    subst h2
    simp [auth0_get_application_onResponse, hok]
    exact ⟨_, rfl, by simp [auth0_get_application_errorMessage, hr]; apply textHas_right; decide⟩

lemma u401_auth0_create_application : respondsUnauthorized auth0_create_application := by
  unfold respondsUnauthorized
  intro req cfg fr k h r hr
  have hok : r.ok = false := by simp [HttpReply.ok, hr]
  simp only [auth0_create_application] at h
  repeat'
    split at h
  all_goals try exact HandlerStep.noConfusion h
  all_goals
    injection h with h1 h2
    subst h2
    simp [auth0_create_application_onResponse, hok]
    exact ⟨_, rfl, by simp [auth0_create_application_errorMessage, hr]; apply textHas_right; decide⟩

lemma u401_auth0_update_application : respondsUnauthorized auth0_update_application := by
  unfold respondsUnauthorized
  intro req cfg fr k h r hr
  have hok : r.ok = false := by simp [HttpReply.ok, hr]
  simp only [auth0_update_application] at h
  repeat'
    split at h
  all_goals try exact HandlerStep.noConfusion h
  all_goals
    injection h with h1 h2
    subst h2
    simp [auth0_update_application_onResponse, hok]
    exact ⟨_, rfl, by simp [auth0_update_application_errorMessage, hr]; apply textHas_right; decide⟩

lemma u401_auth0_delete_application : respondsUnauthorized auth0_delete_application := by
  unfold respondsUnauthorized
  intro req cfg fr k h r hr
  have hok : r.ok = false := by simp [HttpReply.ok, hr]
  simp only [auth0_delete_application] at h
  repeat'
    split at h
  all_goals try exact HandlerStep.noConfusion h
  all_goals
    injection h with h1 h2
    subst h2
    simp [auth0_delete_application_onResponse, hok]
    exact ⟨_, rfl, by simp [auth0_delete_application_errorMessage, hr]; apply textHas_right; decide⟩

lemma u401_auth0_search_applications : respondsUnauthorized auth0_search_applications := by
  unfold respondsUnauthorized
  intro req cfg fr k h r hr
  have hok : r.ok = false := by simp [HttpReply.ok, hr]
  simp only [auth0_search_applications] at h
  repeat'
    split at h
  all_goals try exact HandlerStep.noConfusion h
  all_goals
    injection h with h1 h2
    subst h2
    simp [auth0_search_applications_onResponse, hok]
    exact ⟨_, rfl, by simp [auth0_search_applications_errorMessage, hr]; apply textHas_right; decide⟩

lemma u401_auth0_list_resource_servers : respondsUnauthorized auth0_list_resource_servers := by
  unfold respondsUnauthorized
  intro req cfg fr k h r hr
  have hok : r.ok = false := by simp [HttpReply.ok, hr]
  simp only [auth0_list_resource_servers] at h
  repeat'
    split at h
  all_goals try exact HandlerStep.noConfusion h
  all_goals
    injection h with h1 h2
    subst h2
    simp [auth0_list_resource_servers_onResponse, hok]
    exact ⟨_, rfl, by simp [auth0_list_resource_servers_errorMessage, hr]; apply textHas_right; decide⟩

lemma u401_auth0_get_resource_server : respondsUnauthorized auth0_get_resource_server := by
  unfold respondsUnauthorized
  intro req cfg fr k h r hr
  have hok : r.ok = false := by simp [HttpReply.ok, hr]
  simp only [auth0_get_resource_server] at h
  repeat'
    split at h
  all_goals try exact HandlerStep.noConfusion h
  all_goals
    injection h with h1 h2
    subst h2
    simp [auth0_get_resource_server_onResponse, hok]
    exact ⟨_, rfl, by simp [auth0_get_resource_server_errorMessage, hr]; apply textHas_right; decide⟩

lemma u401_auth0_create_resource_server : respondsUnauthorized auth0_create_resource_server := by
  unfold respondsUnauthorized
  intro req cfg fr k h r hr
  have hok : r.ok = false := by simp [HttpReply.ok, hr]
  simp only [auth0_create_resource_server] at h
  repeat'
    split at h
  all_goals try exact HandlerStep.noConfusion h
  all_goals
    injection h with h1 h2
    subst h2
    simp [auth0_create_resource_server_onResponse, hok]
    exact ⟨_, rfl, by simp [auth0_create_resource_server_errorMessage, hr]; apply textHas_right; decide⟩

lemma u401_auth0_update_resource_server : respondsUnauthorized auth0_update_resource_server := by
  unfold respondsUnauthorized
  intro req cfg fr k h r hr
  have hok : r.ok = false := by simp [HttpReply.ok, hr]
  simp only [auth0_update_resource_server] at h
  repeat'
    split at h
  all_goals try exact HandlerStep.noConfusion h
  all_goals
    injection h with h1 h2
    subst h2
    simp [auth0_update_resource_server_onResponse, hok]
    exact ⟨_, rfl, by simp [auth0_update_resource_server_errorMessage, hr]; apply textHas_right; decide⟩

lemma u401_auth0_delete_resource_server : respondsUnauthorized auth0_delete_resource_server := by
  unfold respondsUnauthorized
  intro req cfg fr k h r hr
  have hok : r.ok = false := by simp [HttpReply.ok, hr]
  simp only [auth0_delete_resource_server] at h
  repeat'
    split at h
  all_goals try exact HandlerStep.noConfusion h
  all_goals
    injection h with h1 h2
    subst h2
    simp [auth0_delete_resource_server_onResponse, hok]
    exact ⟨_, rfl, by simp [auth0_delete_resource_server_errorMessage, hr]; apply textHas_right; decide⟩

lemma u401_auth0_list_actions : respondsUnauthorized auth0_list_actions := by
  unfold respondsUnauthorized
  intro req cfg fr k h r hr
  have hok : r.ok = false := by simp [HttpReply.ok, hr]
  simp only [auth0_list_actions] at h
  repeat'
    split at h
  all_goals try exact HandlerStep.noConfusion h
  all_goals
    injection h with h1 h2
    subst h2
    simp [auth0_list_actions_onResponse, hok]
    exact ⟨_, rfl, by simp [auth0_list_actions_errorMessage, hr]; apply textHas_right; decide⟩

lemma u401_auth0_get_action : respondsUnauthorized auth0_get_action := by
  unfold respondsUnauthorized
  intro req cfg fr k h r hr
  have hok : r.ok = false := by simp [HttpReply.ok, hr]
  simp only [auth0_get_action] at h
  repeat'
    split at h
  all_goals try exact HandlerStep.noConfusion h
  all_goals
    injection h with h1 h2
    subst h2
    simp [auth0_get_action_onResponse, hok]
    exact ⟨_, rfl, by simp [auth0_get_action_errorMessage, hr]; apply textHas_right; decide⟩

lemma u401_auth0_create_action : respondsUnauthorized auth0_create_action := by
  unfold respondsUnauthorized
  intro req cfg fr k h r hr
  have hok : r.ok = false := by simp [HttpReply.ok, hr]
  simp only [auth0_create_action] at h
  repeat'
    split at h
  all_goals try exact HandlerStep.noConfusion h
  all_goals
    injection h with h1 h2
    subst h2
    simp [auth0_create_action_onResponse, hok]
    exact ⟨_, rfl, by simp [auth0_create_action_errorMessage, hr]; apply textHas_right; decide⟩

lemma u401_auth0_update_action : respondsUnauthorized auth0_update_action := by
  unfold respondsUnauthorized
  intro req cfg fr k h r hr
  have hok : r.ok = false := by simp [HttpReply.ok, hr]
  simp only [auth0_update_action] at h
  repeat'
    split at h
  all_goals try exact HandlerStep.noConfusion h
  all_goals
    injection h with h1 h2
    subst h2
    simp [auth0_update_action_onResponse, hok]
    exact ⟨_, rfl, by simp [auth0_update_action_errorMessage, hr]; apply textHas_right; decide⟩

lemma u401_auth0_delete_action : respondsUnauthorized auth0_delete_action := by
  unfold respondsUnauthorized
  intro req cfg fr k h r hr
  have hok : r.ok = false := by simp [HttpReply.ok, hr]
  simp only [auth0_delete_action] at h
  repeat'
    split at h
  all_goals try exact HandlerStep.noConfusion h
  all_goals
    injection h with h1 h2
    subst h2
    simp [auth0_delete_action_onResponse, hok]
    exact ⟨_, rfl, by simp [auth0_delete_action_errorMessage, hr]; apply textHas_right; decide⟩

lemma u401_auth0_deploy_action : respondsUnauthorized auth0_deploy_action := by
  unfold respondsUnauthorized
  intro req cfg fr k h r hr
  have hok : r.ok = false := by simp [HttpReply.ok, hr]
  simp only [auth0_deploy_action] at h
  repeat'
    split at h
  all_goals try exact HandlerStep.noConfusion h
  all_goals
    injection h with h1 h2
    subst h2
    simp [auth0_deploy_action_onResponse, hok]
    exact ⟨_, rfl, by simp [auth0_deploy_action_errorMessage, hr]; apply textHas_right; decide⟩

lemma u401_auth0_list_logs : respondsUnauthorized auth0_list_logs := by
  unfold respondsUnauthorized
  intro req cfg fr k h r hr
  have hok : r.ok = false := by simp [HttpReply.ok, hr]
  simp only [auth0_list_logs] at h
  repeat'
    split at h
  all_goals try exact HandlerStep.noConfusion h
  all_goals
    injection h with h1 h2
    subst h2
    simp [auth0_list_logs_onResponse, hok]
    exact ⟨_, rfl, by simp [auth0_list_logs_errorMessage, hr]; apply textHas_right; decide⟩

lemma u401_auth0_get_log : respondsUnauthorized auth0_get_log := by
  unfold respondsUnauthorized
  intro req cfg fr k h r hr
  have hok : r.ok = false := by simp [HttpReply.ok, hr]
  simp only [auth0_get_log] at h
  repeat'
    split at h
  all_goals try exact HandlerStep.noConfusion h
  all_goals
    injection h with h1 h2
    subst h2
    simp [auth0_get_log_onResponse, hok]
    exact ⟨_, rfl, by simp [auth0_get_log_errorMessage, hr]; apply textHas_right; decide⟩

lemma u401_auth0_search_logs : respondsUnauthorized auth0_search_logs := by
  unfold respondsUnauthorized
  intro req cfg fr k h r hr
  have hok : r.ok = false := by simp [HttpReply.ok, hr]
  simp only [auth0_search_logs] at h
  repeat'
    split at h
  all_goals try exact HandlerStep.noConfusion h
  all_goals
    injection h with h1 h2
    subst h2
    simp [auth0_search_logs_onResponse, hok]
    exact ⟨_, rfl, by simp [auth0_search_logs_errorMessage, hr]; apply textHas_right; decide⟩

lemma u401_auth0_list_forms : respondsUnauthorized auth0_list_forms := by
  unfold respondsUnauthorized
  intro req cfg fr k h r hr
  have hok : r.ok = false := by simp [HttpReply.ok, hr]
  simp only [auth0_list_forms] at h
  repeat'
    split at h
  all_goals try exact HandlerStep.noConfusion h
  all_goals
    injection h with h1 h2
    subst h2
    simp [auth0_list_forms_onResponse, hok]
    exact ⟨_, rfl, by simp [auth0_list_forms_errorMessage, hr]; apply textHas_right; decide⟩

lemma u401_auth0_get_form : respondsUnauthorized auth0_get_form := by
  unfold respondsUnauthorized
  intro req cfg fr k h r hr
  have hok : r.ok = false := by simp [HttpReply.ok, hr]
  simp only [auth0_get_form] at h
  repeat'
    split at h
  all_goals try exact HandlerStep.noConfusion h
  all_goals
    injection h with h1 h2
    subst h2
    simp [auth0_get_form_onResponse, hok]
    exact ⟨_, rfl, by simp [auth0_get_form_errorMessage, hr]; apply textHas_right; decide⟩

lemma u401_auth0_create_form : respondsUnauthorized auth0_create_form := by
  unfold respondsUnauthorized
  intro req cfg fr k h r hr
  have hok : r.ok = false := by simp [HttpReply.ok, hr]
  simp only [auth0_create_form] at h
  repeat'
    split at h
  all_goals try exact HandlerStep.noConfusion h
  all_goals
    injection h with h1 h2
    subst h2
    simp [auth0_create_form_onResponse, hok]
    exact ⟨_, rfl, by simp [auth0_create_form_errorMessage, hr]; apply textHas_right; decide⟩

lemma u401_auth0_update_form : respondsUnauthorized auth0_update_form := by
  unfold respondsUnauthorized
  intro req cfg fr k h r hr
  have hok : r.ok = false := by simp [HttpReply.ok, hr]
  simp only [auth0_update_form] at h
  repeat'
    split at h
  all_goals try exact HandlerStep.noConfusion h
  all_goals
    injection h with h1 h2
    subst h2
    simp [auth0_update_form_onResponse, hok]
    exact ⟨_, rfl, by simp [auth0_update_form_errorMessage, hr]; apply textHas_right; decide⟩

lemma u401_auth0_delete_form : respondsUnauthorized auth0_delete_form := by
  unfold respondsUnauthorized
  intro req cfg fr k h r hr
  have hok : r.ok = false := by simp [HttpReply.ok, hr]
  simp only [auth0_delete_form] at h
  repeat'
    split at h
  all_goals try exact HandlerStep.noConfusion h
  all_goals
    injection h with h1 h2
    subst h2
    simp [auth0_delete_form_onResponse, hok]
    exact ⟨_, rfl, by simp [auth0_delete_form_errorMessage, hr]; apply textHas_right; decide⟩

lemma u401_auth0_publish_form : respondsUnauthorized auth0_publish_form := by
  unfold respondsUnauthorized
  intro req cfg fr k h r hr
  have hok : r.ok = false := by simp [HttpReply.ok, hr]
  simp only [auth0_publish_form] at h
  repeat'
    split at h
  all_goals try exact HandlerStep.noConfusion h
  all_goals
    injection h with h1 h2
    subst h2
    simp [auth0_publish_form_onResponse, hok]
    exact ⟨_, rfl, by simp [auth0_publish_form_errorMessage, hr]; apply textHas_right; decide⟩

/-! ## Helper lemmas: 404 identifier naming of the by-id handlers -/

lemma n404_auth0_get_application :
    responds404Naming auth0_get_application "client_id" "Application with client_id \x27" := by
  unfold responds404Naming
  intro req cfg fr k h r hr
  have hok : r.ok = false := by simp [HttpReply.ok, hr]
  simp only [auth0_get_application] at h
  repeat'
    split at h
  all_goals try exact HandlerStep.noConfusion h
  all_goals
    injection h with h1 h2
    subst h2
    simp [auth0_get_application_onResponse, hok, auth0_get_application_errorMessage, hr]

lemma n404_auth0_update_application :
    responds404Naming auth0_update_application "client_id" "Application with client_id \x27" := by
  unfold responds404Naming
  intro req cfg fr k h r hr
  have hok : r.ok = false := by simp [HttpReply.ok, hr]
  simp only [auth0_update_application] at h
  repeat'
    split at h
  all_goals try exact HandlerStep.noConfusion h
  all_goals
    injection h with h1 h2
    subst h2
    simp [auth0_update_application_onResponse, hok, auth0_update_application_errorMessage, hr]

lemma n404_auth0_delete_application :
    responds404Naming auth0_delete_application "client_id" "Application with client_id \x27" := by
  unfold responds404Naming
  intro req cfg fr k h r hr
  have hok : r.ok = false := by simp [HttpReply.ok, hr]
  simp only [auth0_delete_application] at h
  repeat'
    split at h
  all_goals try exact HandlerStep.noConfusion h
  all_goals
    injection h with h1 h2
    subst h2
    simp [auth0_delete_application_onResponse, hok, auth0_delete_application_errorMessage, hr]

lemma n404_auth0_get_resource_server :
    responds404Naming auth0_get_resource_server "id" "Resource server with id \x27" := by
  unfold responds404Naming
  intro req cfg fr k h r hr
  have hok : r.ok = false := by simp [HttpReply.ok, hr]
  simp only [auth0_get_resource_server] at h
  repeat'
    split at h
  all_goals try exact HandlerStep.noConfusion h
  all_goals
    injection h with h1 h2
    subst h2
    simp [auth0_get_resource_server_onResponse, hok, auth0_get_resource_server_errorMessage, hr]

lemma n404_auth0_update_resource_server :
    responds404Naming auth0_update_resource_server "id" "Resource server with id \x27" := by
  unfold responds404Naming
  intro req cfg fr k h r hr
  have hok : r.ok = false := by simp [HttpReply.ok, hr]
  simp only [auth0_update_resource_server] at h
  repeat'
    split at h
  all_goals try exact HandlerStep.noConfusion h
  all_goals
    injection h with h1 h2
    subst h2
    simp [auth0_update_resource_server_onResponse, hok, auth0_update_resource_server_errorMessage, hr]

lemma n404_auth0_delete_resource_server :
    responds404Naming auth0_delete_resource_server "id" "Resource server with id \x27" := by
  unfold responds404Naming
  intro req cfg fr k h r hr
  have hok : r.ok = false := by simp [HttpReply.ok, hr]
  simp only [auth0_delete_resource_server] at h
  repeat'
    split at h
  all_goals try exact HandlerStep.noConfusion h
  all_goals
    injection h with h1 h2
    subst h2
    simp [auth0_delete_resource_server_onResponse, hok, auth0_delete_resource_server_errorMessage, hr]

lemma n404_auth0_get_action :
    responds404Naming auth0_get_action "id" "Action with id \x27" := by
  unfold responds404Naming
  intro req cfg fr k h r hr
  have hok : r.ok = false := by simp [HttpReply.ok, hr]
  simp only [auth0_get_action] at h
  repeat'
    split at h
  all_goals try exact HandlerStep.noConfusion h
  all_goals
    injection h with h1 h2
    subst h2
    simp [auth0_get_action_onResponse, hok, auth0_get_action_errorMessage, hr]

lemma n404_auth0_update_action :
    responds404Naming auth0_update_action "id" "Action with id \x27" := by
  unfold responds404Naming
  intro req cfg fr k h r hr
  have hok : r.ok = false := by simp [HttpReply.ok, hr]
  simp only [auth0_update_action] at h
  repeat'
    split at h
  all_goals try exact HandlerStep.noConfusion h
  all_goals
    injection h with h1 h2
    subst h2
    simp [auth0_update_action_onResponse, hok, auth0_update_action_errorMessage, hr]

lemma n404_auth0_delete_action :
    responds404Naming auth0_delete_action "id" "Action with id \x27" := by
  unfold responds404Naming
  intro req cfg fr k h r hr
  have hok : r.ok = false := by simp [HttpReply.ok, hr]
  simp only [auth0_delete_action] at h
  repeat'
    split at h
  all_goals try exact HandlerStep.noConfusion h
  all_goals
    injection h with h1 h2
    subst h2
    simp [auth0_delete_action_onResponse, hok, auth0_delete_action_errorMessage, hr]

lemma n404_auth0_deploy_action :
    responds404Naming auth0_deploy_action "id" "Action with id \x27" := by
  unfold responds404Naming
  intro req cfg fr k h r hr
  have hok : r.ok = false := by simp [HttpReply.ok, hr]
  simp only [auth0_deploy_action] at h
  repeat'
    split at h
  all_goals try exact HandlerStep.noConfusion h
  all_goals
    injection h with h1 h2
    subst h2
    simp [auth0_deploy_action_onResponse, hok, auth0_deploy_action_errorMessage, hr]

lemma n404_auth0_get_log :
    responds404Naming auth0_get_log "id" "Log with id \x27" := by
  unfold responds404Naming
  intro req cfg fr k h r hr
  have hok : r.ok = false := by simp [HttpReply.ok, hr]
  simp only [auth0_get_log] at h
  repeat'
    split at h
  all_goals try exact HandlerStep.noConfusion h
  all_goals
    injection h with h1 h2
    subst h2
    simp [auth0_get_log_onResponse, hok, auth0_get_log_errorMessage, hr]

lemma n404_auth0_get_form :
    responds404Naming auth0_get_form "id" "Form with id \x27" := by
  unfold responds404Naming
  intro req cfg fr k h r hr
  have hok : r.ok = false := by simp [HttpReply.ok, hr]
  simp only [auth0_get_form] at h
  repeat'
    split at h
  all_goals try exact HandlerStep.noConfusion h
  all_goals
    injection h with h1 h2
    subst h2
    simp [auth0_get_form_onResponse, hok, auth0_get_form_errorMessage, hr]

lemma n404_auth0_update_form :
    responds404Naming auth0_update_form "id" "Form with id \x27" := by
  unfold responds404Naming
  intro req cfg fr k h r hr
  have hok : r.ok = false := by simp [HttpReply.ok, hr]
  simp only [auth0_update_form] at h
  repeat'
    split at h
  all_goals try exact HandlerStep.noConfusion h
  all_goals
    injection h with h1 h2
    subst h2
    simp [auth0_update_form_onResponse, hok, auth0_update_form_errorMessage, hr]

lemma n404_auth0_delete_form :
    responds404Naming auth0_delete_form "id" "Form with id \x27" := by
  unfold responds404Naming
  intro req cfg fr k h r hr
  have hok : r.ok = false := by simp [HttpReply.ok, hr]
  simp only [auth0_delete_form] at h
  repeat'
    split at h
  all_goals try exact HandlerStep.noConfusion h
  all_goals
    injection h with h1 h2
    subst h2
    simp [auth0_delete_form_onResponse, hok, auth0_delete_form_errorMessage, hr]

lemma n404_auth0_publish_form :
    responds404Naming auth0_publish_form "id" "Form with id \x27" := by
  unfold responds404Naming
  intro req cfg fr k h r hr
  have hok : r.ok = false := by simp [HttpReply.ok, hr]
  simp only [auth0_publish_form] at h
  repeat'
    split at h
  all_goals try exact HandlerStep.noConfusion h
  all_goals
    injection h with h1 h2
    subst h2
    simp [auth0_publish_form_onResponse, hok, auth0_publish_form_errorMessage, hr]

/-- C8: every one of the 26 registered handlers, on an HTTP 401 reply,
responds with an error whose text contains the re-authentication guidance
("Unauthorized. Your token might be expired or invalid. Run \x27auth0 login\x27
to authenticate again." is the message every handler builds for status 401);
and every get/update/delete-by-id handler (15 of them), on an HTTP 404
reply, responds with an error message that explicitly names the missing
identifier value taken from the request parameters. -/
theorem C8_unauthorized_and_not_found_messages :
    (∀ p ∈ HANDLERS, respondsUnauthorized p.2) ∧
    responds404Naming auth0_get_application "client_id" "Application with client_id \x27" ∧
    responds404Naming auth0_update_application "client_id" "Application with client_id \x27" ∧
    responds404Naming auth0_delete_application "client_id" "Application with client_id \x27" ∧
    responds404Naming auth0_get_resource_server "id" "Resource server with id \x27" ∧
    responds404Naming auth0_update_resource_server "id" "Resource server with id \x27" ∧
    responds404Naming auth0_delete_resource_server "id" "Resource server with id \x27" ∧
    responds404Naming auth0_get_action "id" "Action with id \x27" ∧
    responds404Naming auth0_update_action "id" "Action with id \x27" ∧
    responds404Naming auth0_delete_action "id" "Action with id \x27" ∧
    responds404Naming auth0_deploy_action "id" "Action with id \x27" ∧
    responds404Naming auth0_get_log "id" "Log with id \x27" ∧
    responds404Naming auth0_get_form "id" "Form with id \x27" ∧
    responds404Naming auth0_update_form "id" "Form with id \x27" ∧
    responds404Naming auth0_delete_form "id" "Form with id \x27" ∧
    responds404Naming auth0_publish_form "id" "Form with id \x27" := by
  refine ⟨?_, n404_auth0_get_application, n404_auth0_update_application,
    n404_auth0_delete_application, n404_auth0_get_resource_server,
    n404_auth0_update_resource_server, n404_auth0_delete_resource_server,
    n404_auth0_get_action, n404_auth0_update_action, n404_auth0_delete_action,
    n404_auth0_deploy_action, n404_auth0_get_log, n404_auth0_get_form,
    n404_auth0_update_form, n404_auth0_delete_form, n404_auth0_publish_form⟩
  intro p hp
  simp only [HANDLERS, APPLICATION_HANDLERS, RESOURCE_SERVER_HANDLERS,
    ACTION_HANDLERS, LOG_HANDLERS, FORM_HANDLERS, List.mem_append,
    List.mem_cons, List.not_mem_nil, or_false, or_assoc] at hp
  rcases hp with h|h|h|h|h|h|h|h|h|h|h|h|h|h|h|h|h|h|h|h|h|h|h|h|h|h <;> subst h
  exact u401_auth0_list_applications
  exact u401_auth0_get_application
  exact u401_auth0_create_application
  exact u401_auth0_update_application
  exact u401_auth0_delete_application
  exact u401_auth0_search_applications
  exact u401_auth0_list_resource_servers
  exact u401_auth0_get_resource_server
  exact u401_auth0_create_resource_server
  exact u401_auth0_update_resource_server
  exact u401_auth0_delete_resource_server
  exact u401_auth0_list_actions
  exact u401_auth0_get_action
  exact u401_auth0_create_action
  exact u401_auth0_update_action
  exact u401_auth0_delete_action
  exact u401_auth0_deploy_action
  exact u401_auth0_list_logs
  exact u401_auth0_get_log
  exact u401_auth0_search_logs
  exact u401_auth0_list_forms
  exact u401_auth0_get_form
  exact u401_auth0_create_form
  exact u401_auth0_update_form
  exact u401_auth0_delete_form
  exact u401_auth0_publish_form

/-- Witness for C8: the get-application handler with client_id "app1",
fed a concrete 404 reply, responds with the exact not-found message naming
the identifier. -/
theorem C8_unauthorized_and_not_found_messages_witness :
    ∃ fr k, auth0_get_application
        { token := "tok", parameters := .obj [("client_id", .str "app1")] }
        { domain := some "tenant.us.auth0.com" } = HandlerStep.fetch fr k ∧
      k (FetchOutcome.reply
          { status := 404, statusText := "Not Found", body := .null, bodyText := "" }) =
        HandlerStep.respond (createErrorResponse
          "Application with client_id \x27app1\x27 not found.") := by
  refine ⟨_, _, rfl, ?_⟩
  have h := C8_unauthorized_and_not_found_messages.2.1
    { token := "tok", parameters := .obj [("client_id", .str "app1")] }
    { domain := some "tenant.us.auth0.com" } _ _ rfl
    { status := 404, statusText := "Not Found", body := .null, bodyText := "" } rfl
  simpa using h

/-! ## Helper lemmas: every reachable response is of a canonical shape -/

lemma sro_loop : ∀ domain id ua su l,
    StepResponsesOK (auth0_update_action_secretsLoop domain id ua su l) := by
  intro domain id ua su l
  induction l with
  | nil => exact .respond _ (Or.inr ⟨_, rfl⟩)
  | cons s rest ih =>
    refine .fetch _ _ fun outcome => ?_
    cases outcome
    case netError e => exact .respond _ (Or.inl ⟨_, rfl⟩)
    case reply r => exact ih

lemma sro_auth0_list_applications : ∀ req cfg, StepResponsesOK (auth0_list_applications req cfg) := by
  intro req cfg
  simp only [auth0_list_applications]
  repeat' split
  all_goals first
    | exact .respond _ (Or.inl ⟨_, rfl⟩)
    | exact .respond _ (Or.inr ⟨_, rfl⟩)
    | (refine .fetch _ _ fun outcome => ?_
       cases outcome
       all_goals simp only [auth0_list_applications_onResponse]
       all_goals repeat' split
       all_goals first
         | exact .respond _ (Or.inl ⟨_, rfl⟩)
         | exact .respond _ (Or.inr ⟨_, rfl⟩))

lemma sro_auth0_get_application : ∀ req cfg, StepResponsesOK (auth0_get_application req cfg) := by
  intro req cfg
  simp only [auth0_get_application]
  repeat' split
  all_goals first
    | exact .respond _ (Or.inl ⟨_, rfl⟩)
    | exact .respond _ (Or.inr ⟨_, rfl⟩)
    | (refine .fetch _ _ fun outcome => ?_
       cases outcome
       all_goals simp only [auth0_get_application_onResponse]
       all_goals repeat' split
       all_goals first
         | exact .respond _ (Or.inl ⟨_, rfl⟩)
         | exact .respond _ (Or.inr ⟨_, rfl⟩))

lemma sro_auth0_create_application : ∀ req cfg, StepResponsesOK (auth0_create_application req cfg) := by
  intro req cfg
  simp only [auth0_create_application]
  repeat' split
  all_goals first
    | exact .respond _ (Or.inl ⟨_, rfl⟩)
    | exact .respond _ (Or.inr ⟨_, rfl⟩)
    | (refine .fetch _ _ fun outcome => ?_
       cases outcome
       all_goals simp only [auth0_create_application_onResponse]
       all_goals repeat' split
       all_goals first
         | exact .respond _ (Or.inl ⟨_, rfl⟩)
         | exact .respond _ (Or.inr ⟨_, rfl⟩))

lemma sro_auth0_update_application : ∀ req cfg, StepResponsesOK (auth0_update_application req cfg) := by
  intro req cfg
  simp only [auth0_update_application]
  repeat' split
  all_goals first
    | exact .respond _ (Or.inl ⟨_, rfl⟩)
    | exact .respond _ (Or.inr ⟨_, rfl⟩)
    | (refine .fetch _ _ fun outcome => ?_
       cases outcome
       all_goals simp only [auth0_update_application_onResponse]
       all_goals repeat' split
       all_goals first
         | exact .respond _ (Or.inl ⟨_, rfl⟩)
         | exact .respond _ (Or.inr ⟨_, rfl⟩))

lemma sro_auth0_delete_application : ∀ req cfg, StepResponsesOK (auth0_delete_application req cfg) := by
  intro req cfg
  simp only [auth0_delete_application]
  repeat' split
  all_goals first
    | exact .respond _ (Or.inl ⟨_, rfl⟩)
    | exact .respond _ (Or.inr ⟨_, rfl⟩)
    | (refine .fetch _ _ fun outcome => ?_
       cases outcome
       all_goals simp only [auth0_delete_application_onResponse]
       all_goals repeat' split
       all_goals first
         | exact .respond _ (Or.inl ⟨_, rfl⟩)
         | exact .respond _ (Or.inr ⟨_, rfl⟩))

lemma sro_auth0_search_applications : ∀ req cfg, StepResponsesOK (auth0_search_applications req cfg) := by
  intro req cfg
  simp only [auth0_search_applications]
  repeat' split
  all_goals first
    | exact .respond _ (Or.inl ⟨_, rfl⟩)
    | exact .respond _ (Or.inr ⟨_, rfl⟩)
    | (refine .fetch _ _ fun outcome => ?_
       cases outcome
       all_goals simp only [auth0_search_applications_onResponse]
       all_goals repeat' split
       all_goals first
         | exact .respond _ (Or.inl ⟨_, rfl⟩)
         | exact .respond _ (Or.inr ⟨_, rfl⟩))

lemma sro_auth0_list_resource_servers : ∀ req cfg, StepResponsesOK (auth0_list_resource_servers req cfg) := by
  intro req cfg
  simp only [auth0_list_resource_servers]
  repeat' split
  all_goals first
    | exact .respond _ (Or.inl ⟨_, rfl⟩)
    | exact .respond _ (Or.inr ⟨_, rfl⟩)
    | (refine .fetch _ _ fun outcome => ?_
       cases outcome
       all_goals simp only [auth0_list_resource_servers_onResponse]
       all_goals repeat' split
       all_goals first
         | exact .respond _ (Or.inl ⟨_, rfl⟩)
         | exact .respond _ (Or.inr ⟨_, rfl⟩))

lemma sro_auth0_get_resource_server : ∀ req cfg, StepResponsesOK (auth0_get_resource_server req cfg) := by
  intro req cfg
  simp only [auth0_get_resource_server]
  repeat' split
  all_goals first
    | exact .respond _ (Or.inl ⟨_, rfl⟩)
    | exact .respond _ (Or.inr ⟨_, rfl⟩)
    | (refine .fetch _ _ fun outcome => ?_
       cases outcome
       all_goals simp only [auth0_get_resource_server_onResponse]
       all_goals repeat' split
       all_goals first
         | exact .respond _ (Or.inl ⟨_, rfl⟩)
         | exact .respond _ (Or.inr ⟨_, rfl⟩))

lemma sro_auth0_create_resource_server : ∀ req cfg, StepResponsesOK (auth0_create_resource_server req cfg) := by
  intro req cfg
  simp only [auth0_create_resource_server]
  repeat' split
  all_goals first
    | exact .respond _ (Or.inl ⟨_, rfl⟩)
    | exact .respond _ (Or.inr ⟨_, rfl⟩)
    | (refine .fetch _ _ fun outcome => ?_
       cases outcome
       all_goals simp only [auth0_create_resource_server_onResponse]
       all_goals repeat' split
       all_goals first
         | exact .respond _ (Or.inl ⟨_, rfl⟩)
         | exact .respond _ (Or.inr ⟨_, rfl⟩))

lemma sro_auth0_update_resource_server : ∀ req cfg, StepResponsesOK (auth0_update_resource_server req cfg) := by
  intro req cfg
  simp only [auth0_update_resource_server]
  repeat' split
  all_goals first
    | exact .respond _ (Or.inl ⟨_, rfl⟩)
    | exact .respond _ (Or.inr ⟨_, rfl⟩)
    | (refine .fetch _ _ fun outcome => ?_
       cases outcome
       all_goals simp only [auth0_update_resource_server_onResponse]
       all_goals repeat' split
       all_goals first
         | exact .respond _ (Or.inl ⟨_, rfl⟩)
         | exact .respond _ (Or.inr ⟨_, rfl⟩))

lemma sro_auth0_delete_resource_server : ∀ req cfg, StepResponsesOK (auth0_delete_resource_server req cfg) := by
  intro req cfg
  simp only [auth0_delete_resource_server]
  repeat' split
  all_goals first
    | exact .respond _ (Or.inl ⟨_, rfl⟩)
    | exact .respond _ (Or.inr ⟨_, rfl⟩)
    | (refine .fetch _ _ fun outcome => ?_
       cases outcome
       all_goals simp only [auth0_delete_resource_server_onResponse]
       all_goals repeat' split
       all_goals first
         | exact .respond _ (Or.inl ⟨_, rfl⟩)
         | exact .respond _ (Or.inr ⟨_, rfl⟩))

lemma sro_auth0_list_actions : ∀ req cfg, StepResponsesOK (auth0_list_actions req cfg) := by
  intro req cfg
  simp only [auth0_list_actions]
  repeat' split
  all_goals first
    | exact .respond _ (Or.inl ⟨_, rfl⟩)
    | exact .respond _ (Or.inr ⟨_, rfl⟩)
    | (refine .fetch _ _ fun outcome => ?_
       cases outcome
       all_goals simp only [auth0_list_actions_onResponse]
       all_goals repeat' split
       all_goals first
         | exact .respond _ (Or.inl ⟨_, rfl⟩)
         | exact .respond _ (Or.inr ⟨_, rfl⟩))

lemma sro_auth0_get_action : ∀ req cfg, StepResponsesOK (auth0_get_action req cfg) := by
  intro req cfg
  simp only [auth0_get_action]
  repeat' split
  all_goals first
    | exact .respond _ (Or.inl ⟨_, rfl⟩)
    | exact .respond _ (Or.inr ⟨_, rfl⟩)
    | (refine .fetch _ _ fun outcome => ?_
       cases outcome
       all_goals simp only [auth0_get_action_onResponse]
       all_goals repeat' split
       all_goals first
         | exact .respond _ (Or.inl ⟨_, rfl⟩)
         | exact .respond _ (Or.inr ⟨_, rfl⟩))

lemma sro_auth0_create_action : ∀ req cfg, StepResponsesOK (auth0_create_action req cfg) := by
  intro req cfg
  simp only [auth0_create_action]
  repeat' split
  all_goals first
    | exact .respond _ (Or.inl ⟨_, rfl⟩)
    | exact .respond _ (Or.inr ⟨_, rfl⟩)
    | (refine .fetch _ _ fun outcome => ?_
       cases outcome
       all_goals simp only [auth0_create_action_onResponse]
       all_goals repeat' split
       all_goals first
         | exact .respond _ (Or.inl ⟨_, rfl⟩)
         | exact .respond _ (Or.inr ⟨_, rfl⟩))

lemma sro_auth0_update_action : ∀ req cfg, StepResponsesOK (auth0_update_action req cfg) := by
  intro req cfg
  simp only [auth0_update_action]
  repeat' split
  all_goals first
    | exact .respond _ (Or.inl ⟨_, rfl⟩)
    | exact .respond _ (Or.inr ⟨_, rfl⟩)
    | (refine .fetch _ _ fun outcome => ?_
       cases outcome
       all_goals simp only [auth0_update_action_onResponse]
       all_goals repeat' split
       all_goals first
         | exact .respond _ (Or.inl ⟨_, rfl⟩)
         | exact .respond _ (Or.inr ⟨_, rfl⟩)
         | apply sro_loop)

lemma sro_auth0_delete_action : ∀ req cfg, StepResponsesOK (auth0_delete_action req cfg) := by
  intro req cfg
  simp only [auth0_delete_action]
  repeat' split
  all_goals first
    | exact .respond _ (Or.inl ⟨_, rfl⟩)
    | exact .respond _ (Or.inr ⟨_, rfl⟩)
    | (refine .fetch _ _ fun outcome => ?_
       cases outcome
       all_goals simp only [auth0_delete_action_onResponse]
       all_goals repeat' split
       all_goals first
         | exact .respond _ (Or.inl ⟨_, rfl⟩)
         | exact .respond _ (Or.inr ⟨_, rfl⟩))

lemma sro_auth0_deploy_action : ∀ req cfg, StepResponsesOK (auth0_deploy_action req cfg) := by
  intro req cfg
  simp only [auth0_deploy_action]
  repeat' split
  all_goals first
    | exact .respond _ (Or.inl ⟨_, rfl⟩)
    | exact .respond _ (Or.inr ⟨_, rfl⟩)
    | (refine .fetch _ _ fun outcome => ?_
       cases outcome
       all_goals simp only [auth0_deploy_action_onResponse]
       all_goals repeat' split
       all_goals first
         | exact .respond _ (Or.inl ⟨_, rfl⟩)
         | exact .respond _ (Or.inr ⟨_, rfl⟩))

lemma sro_auth0_list_logs : ∀ req cfg, StepResponsesOK (auth0_list_logs req cfg) := by
  intro req cfg
  simp only [auth0_list_logs]
  repeat' split
  all_goals first
    | exact .respond _ (Or.inl ⟨_, rfl⟩)
    | exact .respond _ (Or.inr ⟨_, rfl⟩)
    | (refine .fetch _ _ fun outcome => ?_
       cases outcome
       all_goals simp only [auth0_list_logs_onResponse]
       all_goals repeat' split
       all_goals first
         | exact .respond _ (Or.inl ⟨_, rfl⟩)
         | exact .respond _ (Or.inr ⟨_, rfl⟩))

lemma sro_auth0_get_log : ∀ req cfg, StepResponsesOK (auth0_get_log req cfg) := by
  intro req cfg
  simp only [auth0_get_log]
  repeat' split
  all_goals first
    | exact .respond _ (Or.inl ⟨_, rfl⟩)
    | exact .respond _ (Or.inr ⟨_, rfl⟩)
    | (refine .fetch _ _ fun outcome => ?_
       cases outcome
       all_goals simp only [auth0_get_log_onResponse]
       all_goals repeat' split
       all_goals first
         | exact .respond _ (Or.inl ⟨_, rfl⟩)
         | exact .respond _ (Or.inr ⟨_, rfl⟩))

lemma sro_auth0_search_logs : ∀ req cfg, StepResponsesOK (auth0_search_logs req cfg) := by
  intro req cfg
  simp only [auth0_search_logs]
  repeat' split
  all_goals first
    | exact .respond _ (Or.inl ⟨_, rfl⟩)
    | exact .respond _ (Or.inr ⟨_, rfl⟩)
    | (refine .fetch _ _ fun outcome => ?_
       cases outcome
       all_goals simp only [auth0_search_logs_onResponse]
       all_goals repeat' split
       all_goals first
         | exact .respond _ (Or.inl ⟨_, rfl⟩)
         | exact .respond _ (Or.inr ⟨_, rfl⟩))

lemma sro_auth0_list_forms : ∀ req cfg, StepResponsesOK (auth0_list_forms req cfg) := by
  intro req cfg
  simp only [auth0_list_forms]
  repeat' split
  all_goals first
    | exact .respond _ (Or.inl ⟨_, rfl⟩)
    | exact .respond _ (Or.inr ⟨_, rfl⟩)
    | (refine .fetch _ _ fun outcome => ?_
       cases outcome
       all_goals simp only [auth0_list_forms_onResponse]
       all_goals repeat' split
       all_goals first
         | exact .respond _ (Or.inl ⟨_, rfl⟩)
         | exact .respond _ (Or.inr ⟨_, rfl⟩))

lemma sro_auth0_get_form : ∀ req cfg, StepResponsesOK (auth0_get_form req cfg) := by
  intro req cfg
  simp only [auth0_get_form]
  repeat' split
  all_goals first
    | exact .respond _ (Or.inl ⟨_, rfl⟩)
    | exact .respond _ (Or.inr ⟨_, rfl⟩)
    | (refine .fetch _ _ fun outcome => ?_
       cases outcome
       all_goals simp only [auth0_get_form_onResponse]
       all_goals repeat' split
       all_goals first
         | exact .respond _ (Or.inl ⟨_, rfl⟩)
         | exact .respond _ (Or.inr ⟨_, rfl⟩))

lemma sro_auth0_create_form : ∀ req cfg, StepResponsesOK (auth0_create_form req cfg) := by
  intro req cfg
  simp only [auth0_create_form]
  repeat' split
  all_goals first
    | exact .respond _ (Or.inl ⟨_, rfl⟩)
    | exact .respond _ (Or.inr ⟨_, rfl⟩)
    | (refine .fetch _ _ fun outcome => ?_
       cases outcome
       all_goals simp only [auth0_create_form_onResponse]
       all_goals repeat' split
       all_goals first
         | exact .respond _ (Or.inl ⟨_, rfl⟩)
         | exact .respond _ (Or.inr ⟨_, rfl⟩))

lemma sro_auth0_update_form : ∀ req cfg, StepResponsesOK (auth0_update_form req cfg) := by
  intro req cfg
  simp only [auth0_update_form]
  repeat' split
  all_goals first
    | exact .respond _ (Or.inl ⟨_, rfl⟩)
    | exact .respond _ (Or.inr ⟨_, rfl⟩)
    | (refine .fetch _ _ fun outcome => ?_
       cases outcome
       all_goals simp only [auth0_update_form_onResponse]
       all_goals repeat' split
       all_goals first
         | exact .respond _ (Or.inl ⟨_, rfl⟩)
         | exact .respond _ (Or.inr ⟨_, rfl⟩))

lemma sro_auth0_delete_form : ∀ req cfg, StepResponsesOK (auth0_delete_form req cfg) := by
  intro req cfg
  simp only [auth0_delete_form]
  repeat' split
  all_goals first
    | exact .respond _ (Or.inl ⟨_, rfl⟩)
    | exact .respond _ (Or.inr ⟨_, rfl⟩)
    | (refine .fetch _ _ fun outcome => ?_
       cases outcome
       all_goals simp only [auth0_delete_form_onResponse]
       all_goals repeat' split
       all_goals first
         | exact .respond _ (Or.inl ⟨_, rfl⟩)
         | exact .respond _ (Or.inr ⟨_, rfl⟩))

lemma sro_auth0_publish_form : ∀ req cfg, StepResponsesOK (auth0_publish_form req cfg) := by
  intro req cfg
  simp only [auth0_publish_form]
  repeat' split
  all_goals first
    | exact .respond _ (Or.inl ⟨_, rfl⟩)
    | exact .respond _ (Or.inr ⟨_, rfl⟩)
    | (refine .fetch _ _ fun outcome => ?_
       cases outcome
       all_goals simp only [auth0_publish_form_onResponse]
       all_goals repeat' split
       all_goals first
         | exact .respond _ (Or.inl ⟨_, rfl⟩)
         | exact .respond _ (Or.inr ⟨_, rfl⟩))

/-- C10: shape invariant of the public interface.  (1) Every response
reachable on any path of any registered handler (success, validation
failure, HTTP-status error, network error) is of a canonical shape;
(2) a canonical response is exactly a one-element content array whose
single element has type text and a string text field, with a boolean
isError; (3) isError is true on the error constructor and false on the
success constructor; (4) every immediate reply of the dispatcher catch
block is a dispatch error toolResult, and (5) such a toolResult is a
one-element text array with isError true. -/
theorem C10_response_shape_invariant :
    (∀ p ∈ HANDLERS, ∀ req cfg, StepResponsesOK (p.2 req cfg)) ∧
    (∀ r, ResponseCanonical r →
      ∃ t b, r = { toolResult := { content := [{ type := "text", text := t }], isError := b } }) ∧
    (∀ t, (createErrorResponse t).toolResult.isError = true ∧
      (successResponse t).toolResult.isError = false) ∧
    (∀ config reload toolName args r,
      callToolRequestHandler config reload toolName args = DispatchStep.reply r →
      ∃ t, r = dispatchErrorToolResult t) ∧
    (∀ t, ∃ s, dispatchErrorToolResult t =
      { content := [{ type := "text", text := s }], isError := true }) := by
  refine ⟨?_, ?_, ?_, ?_, ?_⟩
  · intro p hp req cfg
    simp only [HANDLERS, APPLICATION_HANDLERS, RESOURCE_SERVER_HANDLERS,
      ACTION_HANDLERS, LOG_HANDLERS, FORM_HANDLERS, List.mem_append,
      List.mem_cons, List.not_mem_nil, or_false, or_assoc] at hp
    rcases hp with h|h|h|h|h|h|h|h|h|h|h|h|h|h|h|h|h|h|h|h|h|h|h|h|h|h <;> subst h
    exact sro_auth0_list_applications req cfg
    exact sro_auth0_get_application req cfg
    exact sro_auth0_create_application req cfg
    exact sro_auth0_update_application req cfg
    exact sro_auth0_delete_application req cfg
    exact sro_auth0_search_applications req cfg
    exact sro_auth0_list_resource_servers req cfg
    exact sro_auth0_get_resource_server req cfg
    exact sro_auth0_create_resource_server req cfg
    exact sro_auth0_update_resource_server req cfg
    exact sro_auth0_delete_resource_server req cfg
    exact sro_auth0_list_actions req cfg
    exact sro_auth0_get_action req cfg
    exact sro_auth0_create_action req cfg
    exact sro_auth0_update_action req cfg
    exact sro_auth0_delete_action req cfg
    exact sro_auth0_deploy_action req cfg
    exact sro_auth0_list_logs req cfg
    exact sro_auth0_get_log req cfg
    exact sro_auth0_search_logs req cfg
    exact sro_auth0_list_forms req cfg
    exact sro_auth0_get_form req cfg
    exact sro_auth0_create_form req cfg
    exact sro_auth0_update_form req cfg
    exact sro_auth0_delete_form req cfg
    exact sro_auth0_publish_form req cfg
  · intro r hr
    rcases hr with ⟨t, rfl⟩ | ⟨t, rfl⟩
    · exact ⟨t, true, rfl⟩
    · exact ⟨t, false, rfl⟩
  · intro t
    exact ⟨rfl, rfl⟩
  · intro config reload toolName args r h
    simp only [callToolRequestHandler] at h
    repeat' split at h
    all_goals try exact DispatchStep.noConfusion h
    all_goals injection h with h1
    all_goals exact ⟨_, h1.symm⟩
  · intro t
    exact ⟨"Error: " ++ t, rfl⟩

/-- Witness for C10: a concrete handler invocation satisfies the reachable-
response invariant, and a concrete unknown-tool dispatch yields a dispatch
error reply. -/
theorem C10_response_shape_invariant_witness :
    StepResponsesOK (auth0_get_application
      { token := "tok", parameters := .obj [] } { domain := some "d.x" }) ∧
    (∃ t, callToolRequestHandler none none "nope" none =
      DispatchStep.reply (dispatchErrorToolResult t)) := by
  constructor
  · exact C10_response_shape_invariant.1
      ("auth0_get_application", auth0_get_application)
      (by simp [HANDLERS, APPLICATION_HANDLERS])
      { token := "tok", parameters := .obj [] } { domain := some "d.x" }
  · obtain ⟨t, ht⟩ := C10_response_shape_invariant.2.2.2.1 none none "nope" none
      (dispatchErrorToolResult ("Unknown tool: " ++ "nope")) rfl
    exact ⟨t, by rw [← ht]; rfl⟩

/-! ## Helper lemmas: shape dispatch of the list handlers -/

lemma c6_actions (r : HttpReply) (hok : r.ok = true) :
    ((∃ t, auth0_list_actions_onResponse (.reply r) = .respond (successResponse t)) ↔
      (specListShape "actions" r.body).isSome = true) ∧
    ((specListShape "actions" r.body).isSome = false →
      ∃ msg, auth0_list_actions_onResponse (.reply r) = .respond (createErrorResponse msg) ∧
        textHas msg "response format" = true) := by
  simp only [auth0_list_actions_onResponse, hok]
  cases hb : r.body
  case arr items =>
    constructor
    · constructor
      · intro _
        simp [specListShape]
      · intro _
        by_cases h0 : items.length = 0 <;>
          simp [listActionsExtract, h0, successResponse]
    · intro hfalse
      simp [specListShape] at hfalse
  case obj fields =>
    rcases hf : Json.getField (.obj fields) "actions" with _ | v
    · simp [listActionsExtract, specListShape, hf, successResponse, createErrorResponse]
      decide
    · cases v
      case arr items =>
        constructor
        · constructor
          · intro _
            simp [specListShape, hf]
          · intro _
            by_cases h0 : items.length = 0 <;>
              simp [listActionsExtract, hf, h0, successResponse]
        · intro hfalse
          simp [specListShape, hf] at hfalse
      all_goals
        simp [listActionsExtract, specListShape, hf, successResponse, createErrorResponse]
      all_goals decide
  all_goals
    simp [listActionsExtract, specListShape, Json.getField, successResponse, createErrorResponse]
  all_goals decide

lemma c6_logs (r : HttpReply) (hok : r.ok = true) :
    ((∃ t, auth0_list_logs_onResponse (.reply r) = .respond (successResponse t)) ↔
      (specListShape "logs" r.body).isSome = true) ∧
    ((specListShape "logs" r.body).isSome = false →
      auth0_list_logs_onResponse (.reply r) =
        .respond (createErrorResponse "Error: Received invalid response format from Auth0 API.")) := by
  simp only [auth0_list_logs_onResponse, hok]
  cases hb : r.body
  case arr items =>
    constructor
    · constructor
      · intro _
        simp [specListShape]
      · intro _
        by_cases h0 : items.length = 0 <;>
          simp [listLogsExtract, h0, successResponse]
    · intro hfalse
      simp [specListShape] at hfalse
  case obj fields =>
    rcases hf : Json.getField (.obj fields) "logs" with _ | v
    · simp [listLogsExtract, specListShape, hf, successResponse, createErrorResponse]
    · cases v
      case arr items =>
        constructor
        · constructor
          · intro _
            simp [specListShape, hf]
          · intro _
            by_cases h0 : items.length = 0 <;>
              simp [listLogsExtract, hf, h0, successResponse]
        · intro hfalse
          simp [specListShape, hf] at hfalse
      all_goals
        simp [listLogsExtract, specListShape, hf, successResponse, createErrorResponse]
  all_goals
    simp [listLogsExtract, specListShape, Json.getField, successResponse, createErrorResponse]

lemma c6_forms (p : Json) (r : HttpReply) (hok : r.ok = true) :
    ((∃ t, auth0_list_forms_onResponse p (.reply r) = .respond (successResponse t)) ↔
      (specListShape "forms" r.body).isSome = true) ∧
    ((specListShape "forms" r.body).isSome = false →
      auth0_list_forms_onResponse p (.reply r) =
        .respond (createErrorResponse "Error: Received invalid response format from Auth0 API.")) := by
  simp only [auth0_list_forms_onResponse, hok]
  cases hb : r.body
  case arr items =>
    constructor
    · constructor
      · intro _
        simp [specListShape]
      · intro _
        by_cases h0 : items.length = 0 <;>
          simp [listFormsExtract, h0, successResponse]
    · intro hfalse
      simp [specListShape] at hfalse
  case obj fields =>
    rcases hf : Json.getField (.obj fields) "forms" with _ | v
    · simp [listFormsExtract, specListShape, hf, successResponse, createErrorResponse]
    · cases v
      case arr items =>
        constructor
        · constructor
          · intro _
            simp [specListShape, hf]
          · intro _
            by_cases h0 : items.length = 0 <;>
              simp [listFormsExtract, hf, h0, successResponse]
        · intro hfalse
          simp [specListShape, hf] at hfalse
      all_goals
        simp [listFormsExtract, specListShape, hf, successResponse, createErrorResponse]
  all_goals
    simp [listFormsExtract, specListShape, Json.getField, successResponse, createErrorResponse]

lemma c6_apps (r : HttpReply) (hok : r.ok = true) :
    ((∃ t, auth0_list_applications_onResponse (.reply r) = .respond (successResponse t)) ↔
      (objListShape "clients" r.body).isSome = true) ∧
    ((objListShape "clients" r.body).isSome = false →
      auth0_list_applications_onResponse (.reply r) = .respond (createErrorResponse
        "Error: Received invalid response format from Auth0 API. The \"clients\" array is missing or invalid.")) := by
  unfold objListShape
  simp only [auth0_list_applications_onResponse, hok]
  rcases hf : r.body.getField "clients" with _ | v
  · simp [hf, successResponse, createErrorResponse]
  · cases v <;> simp [hf, successResponse, createErrorResponse]

lemma c6_rs (r : HttpReply) (hok : r.ok = true) :
    ((∃ t, auth0_list_resource_servers_onResponse (.reply r) = .respond (successResponse t)) ↔
      (objListShape "resource_servers" r.body).isSome = true) ∧
    ((objListShape "resource_servers" r.body).isSome = false →
      auth0_list_resource_servers_onResponse (.reply r) = .respond (createErrorResponse
        "Error: Received invalid response format from Auth0 API. The \"resource_servers\" array is missing or invalid.")) := by
  unfold objListShape
  simp only [auth0_list_resource_servers_onResponse, hok]
  rcases hf : r.body.getField "resource_servers" with _ | v
  · simp [hf, successResponse, createErrorResponse]
  · cases v <;> simp [hf, successResponse, createErrorResponse]

/-- C6, amended: shape dispatch of the five list handlers on a success
reply.  The actions, logs and forms list handlers accept exactly the two
spec shapes (a bare array, or an object with the family named array field)
and produce a success response precisely when one matches, with a
response-format error otherwise.  The applications and resource servers
list handlers accept only their object shape — a bare array is rejected
with the family missing-array message, contrary to the claim as stated,
which excepts only the applications handler. -/
theorem C6_list_shape_dispatch :
    (∀ r : HttpReply, r.ok = true →
      ((∃ t, auth0_list_actions_onResponse (.reply r) = .respond (successResponse t)) ↔
        (specListShape "actions" r.body).isSome = true) ∧
      ((specListShape "actions" r.body).isSome = false →
        ∃ msg, auth0_list_actions_onResponse (.reply r) = .respond (createErrorResponse msg) ∧
          textHas msg "response format" = true)) ∧
    (∀ r : HttpReply, r.ok = true →
      ((∃ t, auth0_list_logs_onResponse (.reply r) = .respond (successResponse t)) ↔
        (specListShape "logs" r.body).isSome = true) ∧
      ((specListShape "logs" r.body).isSome = false →
        auth0_list_logs_onResponse (.reply r) =
          .respond (createErrorResponse "Error: Received invalid response format from Auth0 API."))) ∧
    (∀ (p : Json) (r : HttpReply), r.ok = true →
      ((∃ t, auth0_list_forms_onResponse p (.reply r) = .respond (successResponse t)) ↔
        (specListShape "forms" r.body).isSome = true) ∧
      ((specListShape "forms" r.body).isSome = false →
        auth0_list_forms_onResponse p (.reply r) =
          .respond (createErrorResponse "Error: Received invalid response format from Auth0 API."))) ∧
    (∀ r : HttpReply, r.ok = true →
      ((∃ t, auth0_list_applications_onResponse (.reply r) = .respond (successResponse t)) ↔
        (objListShape "clients" r.body).isSome = true) ∧
      ((objListShape "clients" r.body).isSome = false →
        auth0_list_applications_onResponse (.reply r) = .respond (createErrorResponse
          "Error: Received invalid response format from Auth0 API. The \"clients\" array is missing or invalid."))) ∧
    (∀ r : HttpReply, r.ok = true →
      ((∃ t, auth0_list_resource_servers_onResponse (.reply r) = .respond (successResponse t)) ↔
        (objListShape "resource_servers" r.body).isSome = true) ∧
      ((objListShape "resource_servers" r.body).isSome = false →
        auth0_list_resource_servers_onResponse (.reply r) = .respond (createErrorResponse
          "Error: Received invalid response format from Auth0 API. The \"resource_servers\" array is missing or invalid."))) :=
  ⟨c6_actions, c6_logs, c6_forms, c6_apps, c6_rs⟩

/-- Witness for C6: a concrete 200 reply whose body is a bare array is
accepted by the actions list handler. -/
theorem C6_list_shape_dispatch_witness :
    ∃ t, auth0_list_actions_onResponse (FetchOutcome.reply
      { status := 200, statusText := "OK", body := .arr [], bodyText := "" }) =
      HandlerStep.respond (successResponse t) := by
  exact (C6_list_shape_dispatch.1
    { status := 200, statusText := "OK", body := .arr [], bodyText := "" }
    (by decide)).1.mpr (by decide)

/-- Counterexample to C6 as stated: the resource servers list handler,
which the claim does not except, rejects a success reply whose body is a
bare array — it responds with the missing-array error, isError true, not a
success response. -/
theorem C6_bare_array_not_accepted_counterexample :
    auth0_list_resource_servers_onResponse (FetchOutcome.reply
      { status := 200, statusText := "OK", body := .arr [], bodyText := "" }) =
      HandlerStep.respond (createErrorResponse
        "Error: Received invalid response format from Auth0 API. The \"resource_servers\" array is missing or invalid.") ∧
    (createErrorResponse
      "Error: Received invalid response format from Auth0 API. The \"resource_servers\" array is missing or invalid."
      ).toolResult.isError = true :=
  ⟨rfl, rfl⟩

/-! ## Helper lemmas: markdown table line counting -/

lemma cpl_append (xs : List Char) : ∀ (b : Bool) (ys : List Char),
    cpl b (xs ++ ys) = cpl b xs + cpl (endsNl b xs) ys := by
  induction xs with
  | nil => intro b ys; simp [cpl, endsNl]
  | cons c rest ih =>
    intro b ys
    simp [cpl, endsNl, ih, Nat.add_assoc]

lemma endsNl_append (xs : List Char) : ∀ (b : Bool) (ys : List Char),
    endsNl b (xs ++ ys) = endsNl (endsNl b xs) ys := by
  induction xs with
  | nil => intro b ys; simp [endsNl]
  | cons c rest ih =>
    intro b ys
    simp [endsNl, ih]

lemma strCpl_append (s t : String) (b : Bool) :
    cpl b (s ++ t).data = cpl b s.data + cpl (endsNl b s.data) t.data := by
  rw [String.data_append, cpl_append]

lemma strEndsNl_append (s t : String) (b : Bool) :
    endsNl b (s ++ t).data = endsNl (endsNl b s.data) t.data := by
  rw [String.data_append, endsNl_append]

lemma cpl_pipeFree : ∀ {cs : List Char}, '|' ∉ cs → ∀ b, cpl b cs = 0 := by
  intro cs
  induction cs with
  | nil => intro _ b; rfl
  | cons c rest ih =>
    intro h b
    simp only [List.mem_cons, not_or] at h
    have hc : (c == '|') = false := beq_eq_false_iff_ne.mpr (fun hh => h.1 hh.symm)
    simp [cpl, hc, ih h.2]

lemma cpl_false_nlFree : ∀ {cs : List Char}, '\n' ∉ cs → cpl false cs = 0 := by
  intro cs
  induction cs with
  | nil => intro _; rfl
  | cons c rest ih =>
    intro h
    simp only [List.mem_cons, not_or] at h
    have hc : (c == '\n') = false := beq_eq_false_iff_ne.mpr (fun hh => h.1 hh.symm)
    simp [cpl, hc, ih h.2]

lemma endsNl_false_nlFree : ∀ {cs : List Char}, '\n' ∉ cs → endsNl false cs = false := by
  intro cs
  induction cs with
  | nil => intro _; rfl
  | cons c rest ih =>
    intro h
    simp only [List.mem_cons, not_or] at h
    have hc : (c == '\n') = false := beq_eq_false_iff_ne.mpr (fun hh => h.1 hh.symm)
    simp [endsNl, hc, ih h.2]

lemma cpl_str_step {X Z : String} {k m : Nat} {b2 b3 : Bool}
    (hX : cpl true X.data = k ∧ endsNl true X.data = b2)
    (hZ : cpl b2 Z.data = m) (hE : endsNl b2 Z.data = b3) :
    cpl true (X ++ Z).data = k + m ∧ endsNl true (X ++ Z).data = b3 := by
  constructor
  · rw [strCpl_append, hX.1, hX.2, hZ]
  · rw [strEndsNl_append, hX.2, hE]

lemma strNoChar_append {c : Char} {X Z : String} (hX : c ∉ X.data) (hZ : c ∉ Z.data) :
    c ∉ (X ++ Z).data := by
  rw [String.data_append]
  simp [List.mem_append, hX, hZ]

lemma stringJoin_cons (s : String) (l : List String) :
    String.join (s :: l) = s ++ String.join l := by
  have shift : ∀ (l : List String) (a : String),
      List.foldl (fun r c => r ++ c) a l = a ++ List.foldl (fun r c => r ++ c) "" l := by
    intro l
    induction l with
    | nil => intro a; simp [List.foldl]
    | cons x xs ih =>
      intro a
      simp only [List.foldl]
      rw [ih (a ++ x), ih ("" ++ x)]
      simp [String.append_assoc]
  show List.foldl (fun r c => r ++ c) "" (s :: l) = s ++ List.foldl (fun r c => r ++ c) "" l
  simp only [List.foldl]
  rw [shift l ("" ++ s)]
  simp

lemma join_cpl : ∀ (l : List String),
    (∀ s ∈ l, cpl true s.data = 1 ∧ ∀ b, endsNl b s.data = true) →
    cpl true (String.join l).data = l.length ∧ endsNl true (String.join l).data = true := by
  intro l
  induction l with
  | nil => intro _; constructor <;> rfl
  | cons s rest ih =>
    intro h
    have hs := h s (List.mem_cons_self s rest)
    have hrest := ih (fun x hx => h x (List.mem_cons_of_mem s hx))
    rw [stringJoin_cons]
    constructor
    · rw [strCpl_append, hs.1, hs.2 true, hrest.1, List.length_cons]
      omega
    · rw [strEndsNl_append, hs.2 true, hrest.2]

lemma join_noChar {c : Char} : ∀ (l : List String), (∀ s ∈ l, c ∉ s.data) →
    c ∉ (String.join l).data := by
  intro l
  induction l with
  | nil => intro _; simp [String.join, List.foldl]
  | cons s rest ih =>
    intro h
    rw [stringJoin_cons]
    exact strNoChar_append (h s (List.mem_cons_self s rest))
      (ih (fun x hx => h x (List.mem_cons_of_mem s hx)))

lemma digitChar_ne_nl (n : Nat) : Nat.digitChar n ≠ '\n' := by
  rcases Nat.lt_or_ge n 16 with h | h
  · interval_cases n <;> decide
  · show (if n = 0 then '0' else if n = 1 then '1' else if n = 2 then '2' else
      if n = 3 then '3' else if n = 4 then '4' else if n = 5 then '5' else
      if n = 6 then '6' else if n = 7 then '7' else if n = 8 then '8' else
      if n = 9 then '9' else if n = 10 then 'a' else if n = 11 then 'b' else
      if n = 12 then 'c' else if n = 13 then 'd' else if n = 14 then 'e' else
      if n = 15 then 'f' else '*') ≠ '\n'
    iterate 16 rw [if_neg (by omega)]
    decide

lemma digitChar_ne_pipe (n : Nat) : Nat.digitChar n ≠ '|' := by
  rcases Nat.lt_or_ge n 16 with h | h
  · interval_cases n <;> decide
  · show (if n = 0 then '0' else if n = 1 then '1' else if n = 2 then '2' else
      if n = 3 then '3' else if n = 4 then '4' else if n = 5 then '5' else
      if n = 6 then '6' else if n = 7 then '7' else if n = 8 then '8' else
      if n = 9 then '9' else if n = 10 then 'a' else if n = 11 then 'b' else
      if n = 12 then 'c' else if n = 13 then 'd' else if n = 14 then 'e' else
      if n = 15 then 'f' else '*') ≠ '|'
    iterate 16 rw [if_neg (by omega)]
    decide

lemma toDigitsCore_no {c : Char} (hc : ∀ k, Nat.digitChar k ≠ c) :
    ∀ {fuel : Nat} {b n : Nat} {ds : List Char}, c ∉ ds →
      c ∉ Nat.toDigitsCore b fuel n ds := by
  intro fuel
  induction fuel with
  | zero => intro b n ds h; simpa [Nat.toDigitsCore] using h
  | succ fuel ih =>
    intro b n ds h
    rw [Nat.toDigitsCore]
    split
    · intro hmem
      rcases List.mem_cons.mp hmem with h1 | h1
      · exact hc _ h1.symm
      · exact h h1
    · apply ih
      intro hmem
      rcases List.mem_cons.mp hmem with h1 | h1
      · exact hc _ h1.symm
      · exact h h1

lemma natRepr_no {c : Char} (hc : ∀ k, Nat.digitChar k ≠ c) (n : Nat) :
    c ∉ (Nat.repr n).data := by
  show c ∉ (Nat.toDigits 10 n).asString.data
  rw [Nat.toDigits]
  have heq : ((Nat.toDigitsCore 10 (n+1) n []).asString).data =
      Nat.toDigitsCore 10 (n+1) n [] := rfl
  rw [heq]
  exact toDigitsCore_no hc (by simp)

lemma natRepr_no_nl (n : Nat) : '\n' ∉ (Nat.repr n).data :=
  natRepr_no digitChar_ne_nl n

lemma natRepr_no_pipe (n : Nat) : '|' ∉ (Nat.repr n).data :=
  natRepr_no digitChar_ne_pipe n

lemma intRepr_no {c : Char} (hc : ∀ k, Nat.digitChar k ≠ c) (hminus : c ≠ '-') (i : Int) :
    c ∉ (Int.repr i).data := by
  cases i with
  | ofNat m => exact natRepr_no hc m
  | negSucc m =>
    show c ∉ ("-" ++ Nat.repr (m+1)).data
    apply strNoChar_append
    · simpa using hminus
    · exact natRepr_no hc (m+1)

lemma intRepr_no_nl (i : Int) : '\n' ∉ (Int.repr i).data :=
  intRepr_no digitChar_ne_nl (by decide) i

lemma intRepr_no_pipe (i : Int) : '|' ∉ (Int.repr i).data :=
  intRepr_no digitChar_ne_pipe (by decide) i

lemma rs_row_count (server : Json) (hc : rsCellsClean server) :
    cpl true (rsRowText server).data = 1 ∧ ∀ b, endsNl b (rsRowText server).data = true := by
  obtain ⟨hn, hi, _⟩ := hc
  unfold rsRowText
  have s0 : cpl true ("| " : String).data = 1 ∧ endsNl true ("| " : String).data = false := by
    decide
  have s1 := cpl_str_step s0 (cpl_false_nlFree hn.1) (endsNl_false_nlFree hn.1)
  have s2 := cpl_str_step s1 (show cpl false (" | " : String).data = 0 by decide)
    (show endsNl false (" | " : String).data = false by decide)
  have s3 := cpl_str_step s2 (cpl_false_nlFree hi.1) (endsNl_false_nlFree hi.1)
  have s4 := cpl_str_step s3 (show cpl false (" | " : String).data = 0 by decide)
    (show endsNl false (" | " : String).data = false by decide)
  have s5 := cpl_str_step s4 (cpl_false_nlFree (natRepr_no_nl (rsScopesCount server)))
    (endsNl_false_nlFree (natRepr_no_nl (rsScopesCount server)))
  have s6 := cpl_str_step s5 (show cpl false (" |\n" : String).data = 0 by decide)
    (show endsNl false (" |\n" : String).data = true by decide)
  constructor
  · simpa using s6.1
  · intro b
    rw [strEndsNl_append]
    exact (show ∀ b2, endsNl b2 (" |\n" : String).data = true by decide) _

lemma app_row_count (item : Json) (hc : appCellsClean item) :
    cpl true (appRowText item).data = 1 ∧ ∀ b, endsNl b (appRowText item).data = true := by
  obtain ⟨h1, h2, h3, h4, _⟩ := hc
  unfold appRowText
  have s0 : cpl true ("| " : String).data = 1 ∧ endsNl true ("| " : String).data = false := by
    decide
  have s1 := cpl_str_step s0 (cpl_false_nlFree h1.1) (endsNl_false_nlFree h1.1)
  have s2 := cpl_str_step s1 (show cpl false (" | " : String).data = 0 by decide)
    (show endsNl false (" | " : String).data = false by decide)
  have s3 := cpl_str_step s2 (cpl_false_nlFree h2.1) (endsNl_false_nlFree h2.1)
  have s4 := cpl_str_step s3 (show cpl false (" | " : String).data = 0 by decide)
    (show endsNl false (" | " : String).data = false by decide)
  have s5 := cpl_str_step s4 (cpl_false_nlFree h3.1) (endsNl_false_nlFree h3.1)
  have s6 := cpl_str_step s5 (show cpl false (" | " : String).data = 0 by decide)
    (show endsNl false (" | " : String).data = false by decide)
  have s7 := cpl_str_step s6 (cpl_false_nlFree h4.1) (endsNl_false_nlFree h4.1)
  have s8 := cpl_str_step s7 (show cpl false (" |\n" : String).data = 0 by decide)
    (show endsNl false (" |\n" : String).data = true by decide)
  constructor
  · simpa using s8.1
  · intro b
    rw [strEndsNl_append]
    exact (show ∀ b2, endsNl b2 (" |\n" : String).data = true by decide) _

lemma action_row_count (item : Json) (hc : actionCellsClean item) :
    cpl true (actionRowText item).data = 1 ∧ ∀ b, endsNl b (actionRowText item).data = true := by
  obtain ⟨h1, h2, h3, h4, _, _⟩ := hc
  unfold actionRowText
  have s0 : cpl true ("| " : String).data = 1 ∧ endsNl true ("| " : String).data = false := by
    decide
  have s1 := cpl_str_step s0 (cpl_false_nlFree h1.1) (endsNl_false_nlFree h1.1)
  have s2 := cpl_str_step s1 (show cpl false (" | " : String).data = 0 by decide)
    (show endsNl false (" | " : String).data = false by decide)
  have s3 := cpl_str_step s2 (cpl_false_nlFree h2.1) (endsNl_false_nlFree h2.1)
  have s4 := cpl_str_step s3 (show cpl false (" | " : String).data = 0 by decide)
    (show endsNl false (" | " : String).data = false by decide)
  have s5 := cpl_str_step s4 (cpl_false_nlFree h3.1) (endsNl_false_nlFree h3.1)
  have s6 := cpl_str_step s5 (show cpl false (" | " : String).data = 0 by decide)
    (show endsNl false (" | " : String).data = false by decide)
  have s7 := cpl_str_step s6 (cpl_false_nlFree h4.1) (endsNl_false_nlFree h4.1)
  have s8 := cpl_str_step s7 (show cpl false (" |\n" : String).data = 0 by decide)
    (show endsNl false (" |\n" : String).data = true by decide)
  constructor
  · simpa using s8.1
  · intro b
    rw [strEndsNl_append]
    exact (show ∀ b2, endsNl b2 (" |\n" : String).data = true by decide) _

lemma log_row_count (item : Json) (hc : logCellsClean item) :
    cpl true (logRowText item).data = 1 ∧ ∀ b, endsNl b (logRowText item).data = true := by
  obtain ⟨h1, h2, h3, h4⟩ := hc
  unfold logRowText
  have s0 : cpl true ("| " : String).data = 1 ∧ endsNl true ("| " : String).data = false := by
    decide
  have s1 := cpl_str_step s0 (cpl_false_nlFree h1.1) (endsNl_false_nlFree h1.1)
  have s2 := cpl_str_step s1 (show cpl false (" | " : String).data = 0 by decide)
    (show endsNl false (" | " : String).data = false by decide)
  have s3 := cpl_str_step s2 (cpl_false_nlFree h2.1) (endsNl_false_nlFree h2.1)
  have s4 := cpl_str_step s3 (show cpl false (" | " : String).data = 0 by decide)
    (show endsNl false (" | " : String).data = false by decide)
  have s5 := cpl_str_step s4 (cpl_false_nlFree h3.1) (endsNl_false_nlFree h3.1)
  have s6 := cpl_str_step s5 (show cpl false (" | " : String).data = 0 by decide)
    (show endsNl false (" | " : String).data = false by decide)
  have s7 := cpl_str_step s6 (cpl_false_nlFree h4.1) (endsNl_false_nlFree h4.1)
  have s8 := cpl_str_step s7 (show cpl false (" |\n" : String).data = 0 by decide)
    (show endsNl false (" |\n" : String).data = true by decide)
  constructor
  · simpa using s8.1
  · intro b
    rw [strEndsNl_append]
    exact (show ∀ b2, endsNl b2 (" |\n" : String).data = true by decide) _

lemma form_row_count (item : Json) (hc : formCellsClean item) :
    cpl true (formRowText item).data = 1 ∧ ∀ b, endsNl b (formRowText item).data = true := by
  obtain ⟨h1, h2, h3, h4, _, _⟩ := hc
  unfold formRowText
  have s0 : cpl true ("| " : String).data = 1 ∧ endsNl true ("| " : String).data = false := by
    decide
  have s1 := cpl_str_step s0 (cpl_false_nlFree h1.1) (endsNl_false_nlFree h1.1)
  have s2 := cpl_str_step s1 (show cpl false (" | " : String).data = 0 by decide)
    (show endsNl false (" | " : String).data = false by decide)
  have s3 := cpl_str_step s2 (cpl_false_nlFree h2.1) (endsNl_false_nlFree h2.1)
  have s4 := cpl_str_step s3 (show cpl false (" | " : String).data = 0 by decide)
    (show endsNl false (" | " : String).data = false by decide)
  have s5 := cpl_str_step s4 (cpl_false_nlFree h3.1) (endsNl_false_nlFree h3.1)
  have s6 := cpl_str_step s5 (show cpl false (" | " : String).data = 0 by decide)
    (show endsNl false (" | " : String).data = false by decide)
  have s7 := cpl_str_step s6 (cpl_false_nlFree h4.1) (endsNl_false_nlFree h4.1)
  have s8 := cpl_str_step s7 (show cpl false (" |\n" : String).data = 0 by decide)
    (show endsNl false (" |\n" : String).data = true by decide)
  constructor
  · simpa using s8.1
  · intro b
    rw [strEndsNl_append]
    exact (show ∀ b2, endsNl b2 (" |\n" : String).data = true by decide) _

lemma textHas_self_append (pat t : String) : textHas (pat ++ t) pat = true := by
  unfold textHas
  rw [String.data_append]
  exact containsSeg_here pat.data t.data

lemma cpl_pipeFree_suffix {X Z : String} {k : Nat} (hX : cpl true X.data = k)
    (hZ : '|' ∉ Z.data) : cpl true (X ++ Z).data = k := by
  rw [strCpl_append, hX, cpl_pipeFree hZ]
  omega

lemma table_core_a (C1 M HL1 HL2 J pat : String) (n : Nat)
    (hC1p : '|' ∉ C1.data) (hC1e : endsNl true C1.data = false)
    (hM : '\n' ∉ M.data)
    (hH1 : cpl true HL1.data = 1 ∧ ∀ b, endsNl b HL1.data = true)
    (hH2 : cpl true HL2.data = 1 ∧ ∀ b, endsNl b HL2.data = true)
    (hJ : cpl true J.data = n ∧ endsNl true J.data = true)
    (hH1eq : HL1 = pat ++ "\n") :
    cpl true (C1 ++ Nat.repr n ++ M ++ ")\n\n" ++ HL1 ++ HL2 ++ J).data = n + 2 ∧
    textHas (C1 ++ Nat.repr n ++ M ++ ")\n\n" ++ HL1 ++ HL2 ++ J) pat = true := by
  have s1 : cpl true C1.data = 0 ∧ endsNl true C1.data = false :=
    ⟨cpl_pipeFree hC1p true, hC1e⟩
  have s2 := cpl_str_step s1 (cpl_false_nlFree (natRepr_no_nl n))
    (endsNl_false_nlFree (natRepr_no_nl n))
  have s3 := cpl_str_step s2 (cpl_false_nlFree hM) (endsNl_false_nlFree hM)
  have s4 := cpl_str_step s3 (show cpl false (")\n\n" : String).data = 0 by decide)
    (show endsNl false (")\n\n" : String).data = true by decide)
  have s5 := cpl_str_step s4 hH1.1 (hH1.2 true)
  have s6 := cpl_str_step s5 hH2.1 (hH2.2 true)
  have s7 := cpl_str_step s6 hJ.1 hJ.2
  constructor
  · have := s7.1
    omega
  · apply textHas_left
    apply textHas_left
    apply textHas_right
    rw [hH1eq]
    exact textHas_self_append pat "\n"

lemma table_core_b (C1 SL HL1 HL2 J pat : String) (n : Nat) (total : Int)
    (hC1p : '|' ∉ C1.data) (hC1e : endsNl true C1.data = false)
    (hSL : '\n' ∉ SL.data)
    (hH1 : cpl true HL1.data = 1 ∧ ∀ b, endsNl b HL1.data = true)
    (hH2 : cpl true HL2.data = 1 ∧ ∀ b, endsNl b HL2.data = true)
    (hJ : cpl true J.data = n ∧ endsNl true J.data = true)
    (hH1eq : HL1 = pat ++ "\n") :
    cpl true (C1 ++ Nat.repr n ++ SL ++ total.repr ++ ")\n\n" ++ HL1 ++ HL2 ++ J).data
      = n + 2 ∧
    textHas (C1 ++ Nat.repr n ++ SL ++ total.repr ++ ")\n\n" ++ HL1 ++ HL2 ++ J) pat
      = true := by
  have s1 : cpl true C1.data = 0 ∧ endsNl true C1.data = false :=
    ⟨cpl_pipeFree hC1p true, hC1e⟩
  have s2 := cpl_str_step s1 (cpl_false_nlFree (natRepr_no_nl n))
    (endsNl_false_nlFree (natRepr_no_nl n))
  have s3 := cpl_str_step s2 (cpl_false_nlFree hSL) (endsNl_false_nlFree hSL)
  have s4 := cpl_str_step s3 (cpl_false_nlFree (intRepr_no_nl total))
    (endsNl_false_nlFree (intRepr_no_nl total))
  have s5 := cpl_str_step s4 (show cpl false (")\n\n" : String).data = 0 by decide)
    (show endsNl false (")\n\n" : String).data = true by decide)
  have s6 := cpl_str_step s5 hH1.1 (hH1.2 true)
  have s7 := cpl_str_step s6 hH2.1 (hH2.2 true)
  have s8 := cpl_str_step s7 hJ.1 hJ.2
  constructor
  · have := s8.1
    omega
  · apply textHas_left
    apply textHas_left
    apply textHas_right
    rw [hH1eq]
    exact textHas_self_append pat "\n"

lemma rsIdLine_pipeFree (server : Json) (hc : rsCellsClean server) :
    '|' ∉ (rsIdLine server).data := by
  obtain ⟨hn, _, hid⟩ := hc
  unfold rsIdLine
  exact strNoChar_append (strNoChar_append (strNoChar_append (strNoChar_append
    (by decide) hn.2) (by decide)) hid.2) (by decide)

lemma rs_formatText_count (servers : List Json) (body : Json)
    (hclean : ∀ s ∈ servers, rsCellsClean s) :
    textPipeLines (auth0_list_resource_servers_formatText servers body)
      = servers.length + 2 ∧
    textHas (auth0_list_resource_servers_formatText servers body)
      "| Name | Identifier | Scopes |" = true := by
  have hJ : cpl true (String.join (servers.map rsRowText)).data = servers.length ∧
      endsNl true (String.join (servers.map rsRowText)).data = true := by
    have hall : ∀ s ∈ servers.map rsRowText,
        cpl true s.data = 1 ∧ ∀ b, endsNl b s.data = true := by
      intro s hs
      obtain ⟨srv, hsrv, rfl⟩ := List.mem_map.mp hs
      exact rs_row_count srv (hclean srv hsrv)
    have := join_cpl (servers.map rsRowText) hall
    rwa [List.length_map] at this
  have hF : '|' ∉ (String.join (servers.map rsIdLine)).data := by
    apply join_noChar
    intro s hs
    obtain ⟨srv, hsrv, rfl⟩ := List.mem_map.mp hs
    exact rsIdLine_pipeFree srv (hclean srv hsrv)
  have hcore := table_core_b "### Auth0 Resource Servers (" "/"
    "| Name | Identifier | Scopes |\n" "|------|------------|--------|\n"
    (String.join (servers.map rsRowText)) "| Name | Identifier | Scopes |"
    servers.length (jsOrNum (body.getField "total") (Int.ofNat servers.length))
    (by decide) (by decide) (by decide) (by decide) (by decide) hJ (by decide)
  unfold textPipeLines
  simp only [auth0_list_resource_servers_formatText]
  generalize hg1 : String.join (servers.map rsRowText) = JR at hcore ⊢
  generalize hg2 : String.join (servers.map rsIdLine) = JF at hF ⊢
  generalize hgR : ("### Auth0 Resource Servers (" ++ Nat.repr servers.length ++ "/" ++
    (jsOrNum (body.getField "total") (Int.ofNat servers.length)).repr ++ ")\n\n" ++
    "| Name | Identifier | Scopes |\n" ++ "|------|------------|--------|\n" ++ JR) = R0S
  rw [hgR] at hcore
  constructor
  · repeat' split
    all_goals try omega
    all_goals
      repeat'
        first
        | apply cpl_pipeFree_suffix
        | exact hcore.1
    all_goals
      first
      | exact hF
      | exact intRepr_no_pipe _
      | decide
  · repeat' split
    all_goals try omega
    all_goals
      repeat'
        first
        | apply textHas_left
        | exact hcore.2

lemma appIdLine_pipeFree (app : Json) (hc : appCellsClean app) :
    '|' ∉ (appIdLine app).data := by
  obtain ⟨h1, _, _, _, h5⟩ := hc
  unfold appIdLine
  exact strNoChar_append (strNoChar_append (strNoChar_append (strNoChar_append
    (by decide) h1.2) (by decide)) h5.2) (by decide)

lemma apps_formatText_count (clients : List Json) (body : Json)
    (hclean : ∀ a ∈ clients, appCellsClean a) :
    textPipeLines (auth0_list_applications_formatText clients body)
      = clients.length + 2 ∧
    textHas (auth0_list_applications_formatText clients body)
      "| Name | Type | Description | Domain |" = true := by
  have hJ : cpl true (String.join (clients.map appRowText)).data = clients.length ∧
      endsNl true (String.join (clients.map appRowText)).data = true := by
    have hall : ∀ s ∈ clients.map appRowText,
        cpl true s.data = 1 ∧ ∀ b, endsNl b s.data = true := by
      intro s hs
      obtain ⟨a, ha, rfl⟩ := List.mem_map.mp hs
      exact app_row_count a (hclean a ha)
    have := join_cpl (clients.map appRowText) hall
    rwa [List.length_map] at this
  have hF : '|' ∉ (String.join (clients.map appIdLine)).data := by
    apply join_noChar
    intro s hs
    obtain ⟨a, ha, rfl⟩ := List.mem_map.mp hs
    exact appIdLine_pipeFree a (hclean a ha)
  have hcore := table_core_b "### Auth0 Applications (" "/"
    "| Name | Type | Description | Domain |\n" "|------|------|-------------|--------|\n"
    (String.join (clients.map appRowText)) "| Name | Type | Description | Domain |"
    clients.length (jsOrNum (body.getField "total") (Int.ofNat clients.length))
    (by decide) (by decide) (by decide) (by decide) (by decide) hJ (by decide)
  unfold textPipeLines
  simp only [auth0_list_applications_formatText]
  generalize hg1 : String.join (clients.map appRowText) = JR at hcore ⊢
  generalize hg2 : String.join (clients.map appIdLine) = JF at hF ⊢
  generalize hgR : ("### Auth0 Applications (" ++ Nat.repr clients.length ++ "/" ++
    (jsOrNum (body.getField "total") (Int.ofNat clients.length)).repr ++ ")\n\n" ++
    "| Name | Type | Description | Domain |\n" ++ "|------|------|-------------|--------|\n" ++
    JR) = R0S
  rw [hgR] at hcore
  constructor
  · repeat' split
    all_goals try omega
    all_goals
      repeat'
        first
        | apply cpl_pipeFree_suffix
        | exact hcore.1
    all_goals
      first
      | exact hF
      | exact intRepr_no_pipe _
      | decide
  · repeat' split
    all_goals try omega
    all_goals
      repeat'
        first
        | apply textHas_left
        | exact hcore.2

lemma actionIdLine_pipeFree (action : Json) (hc : actionCellsClean action) :
    '|' ∉ (actionIdLine action).data := by
  obtain ⟨_, _, _, _, h5, h6⟩ := hc
  unfold actionIdLine
  exact strNoChar_append (strNoChar_append (strNoChar_append (strNoChar_append
    (by decide) h5.2) (by decide)) h6.2) (by decide)

set_option maxHeartbeats 4000000 in
lemma actions_formatText_count (actions : List Json) (total page perPage : Int)
    (hclean : ∀ a ∈ actions, actionCellsClean a) :
    textPipeLines (auth0_list_actions_formatText actions total page perPage)
      = actions.length + 2 ∧
    textHas (auth0_list_actions_formatText actions total page perPage)
      "| Name | Trigger | Status | Runtime |" = true := by
  have hJ : cpl true (String.join (actions.map actionRowText)).data = actions.length ∧
      endsNl true (String.join (actions.map actionRowText)).data = true := by
    have hall : ∀ s ∈ actions.map actionRowText,
        cpl true s.data = 1 ∧ ∀ b, endsNl b s.data = true := by
      intro s hs
      obtain ⟨a, ha, rfl⟩ := List.mem_map.mp hs
      exact action_row_count a (hclean a ha)
    have := join_cpl (actions.map actionRowText) hall
    rwa [List.length_map] at this
  have hF : '|' ∉ (String.join (actions.map actionIdLine)).data := by
    apply join_noChar
    intro s hs
    obtain ⟨a, ha, rfl⟩ := List.mem_map.mp hs
    exact actionIdLine_pipeFree a (hclean a ha)
  have hM : '\n' ∉ (if total > Int.ofNat actions.length then " of " ++ Int.repr total
      else "").data := by
    split
    · exact strNoChar_append (by decide) (intRepr_no_nl total)
    · decide
  have hcore := table_core_a "### Auth0 Actions ("
    (if total > Int.ofNat actions.length then " of " ++ Int.repr total else "")
    "| Name | Trigger | Status | Runtime |\n" "|------|---------|--------|--------|\n"
    (String.join (actions.map actionRowText)) "| Name | Trigger | Status | Runtime |"
    actions.length (by decide) (by decide) hM (by decide) (by decide) hJ (by decide)
  unfold textPipeLines
  simp only [auth0_list_actions_formatText]
  generalize hg1 : String.join (actions.map actionRowText) = JR at hcore ⊢
  generalize hg2 : String.join (actions.map actionIdLine) = JF at hF ⊢
  generalize hgR : ("### Auth0 Actions (" ++ Nat.repr actions.length ++
    (if total > Int.ofNat actions.length then " of " ++ Int.repr total else "") ++ ")\n\n" ++
    "| Name | Trigger | Status | Runtime |\n" ++ "|------|---------|--------|--------|\n" ++
    JR) = R0S
  rw [hgR] at hcore
  generalize jsCeilDiv total perPage = TP
  generalize (if page + 1 < TP then page + 1 else 0) = NP
  constructor
  · repeat' split
    all_goals try omega
    all_goals
      repeat'
        first
        | apply cpl_pipeFree_suffix
        | exact hcore.1
    all_goals
      first
      | exact hF
      | exact intRepr_no_pipe _
      | decide
  · repeat' split
    all_goals try omega
    all_goals
      repeat'
        first
        | apply textHas_left
        | exact hcore.2

lemma formIdLine_pipeFree (form : Json) (hc : formCellsClean form) :
    '|' ∉ (formIdLine form).data := by
  obtain ⟨_, _, _, _, h5, h6⟩ := hc
  unfold formIdLine
  exact strNoChar_append (strNoChar_append (strNoChar_append (strNoChar_append
    (by decide) h5.2) (by decide)) h6.2) (by decide)

set_option maxHeartbeats 4000000 in
lemma logs_formatText_count (logs : List Json) (total : Int)
    (hclean : ∀ lg ∈ logs, logCellsClean lg ∧ '|' ∉ (jsInterp (lg.getField "_id")).data) :
    textPipeLines (auth0_list_logs_formatText logs total) = logs.length + 2 ∧
    textHas (auth0_list_logs_formatText logs total)
      "| Date | Type | Description | User |" = true := by
  have hJ : cpl true (String.join (logs.map logRowText)).data = logs.length ∧
      endsNl true (String.join (logs.map logRowText)).data = true := by
    have hall : ∀ s ∈ logs.map logRowText,
        cpl true s.data = 1 ∧ ∀ b, endsNl b s.data = true := by
      intro s hs
      obtain ⟨lg, hlg, rfl⟩ := List.mem_map.mp hs
      exact log_row_count lg (hclean lg hlg).1
    have := join_cpl (logs.map logRowText) hall
    rwa [List.length_map] at this
  have hM : '\n' ∉ (if total > Int.ofNat logs.length then " of " ++ Int.repr total
      else "").data := by
    split
    · exact strNoChar_append (by decide) (intRepr_no_nl total)
    · decide
  have hcore := table_core_a "### Auth0 Logs ("
    (if total > Int.ofNat logs.length then " of " ++ Int.repr total else "")
    "| Date | Type | Description | User |\n" "|------|------|-------------|------|\n"
    (String.join (logs.map logRowText)) "| Date | Type | Description | User |"
    logs.length (by decide) (by decide) hM (by decide) (by decide) hJ (by decide)
  unfold textPipeLines
  simp only [auth0_list_logs_formatText]
  generalize hg1 : String.join (logs.map logRowText) = JR at hcore ⊢
  generalize hgR : ("### Auth0 Logs (" ++ Nat.repr logs.length ++
    (if total > Int.ofNat logs.length then " of " ++ Int.repr total else "") ++ ")\n\n" ++
    "| Date | Type | Description | User |\n" ++ "|------|------|-------------|------|\n" ++
    JR) = R0S
  rw [hgR] at hcore
  rcases hlast : logs.getLast? with _ | lastLog
  all_goals simp only [hlast]
  · constructor
    · repeat' split
      all_goals try omega
      all_goals
        repeat'
          first
          | apply cpl_pipeFree_suffix
          | exact hcore.1
      all_goals
        first
        | exact intRepr_no_pipe _
        | exact natRepr_no_pipe _
        | decide
    · repeat' split
      all_goals try omega
      all_goals
        repeat'
          first
          | apply textHas_left
          | exact hcore.2
  · have hlid : '|' ∉ (jsInterp (lastLog.getField "_id")).data :=
      (hclean lastLog (List.mem_of_mem_getLast? (by simp [hlast]))).2
    constructor
    · repeat' split
      all_goals try omega
      all_goals
        repeat'
          first
          | apply cpl_pipeFree_suffix
          | exact hcore.1
      all_goals
        first
        | exact hlid
        | exact intRepr_no_pipe _
        | exact natRepr_no_pipe _
        | decide
    · repeat' split
      all_goals try omega
      all_goals
        repeat'
          first
          | apply textHas_left
          | exact hcore.2

set_option maxHeartbeats 4000000 in
lemma forms_formatText_count (p : Json) (forms : List Json) (total : Int)
    (hclean : ∀ f ∈ forms, formCellsClean f)
    (htype : '|' ∉ (jsInterp (p.getField "type")).data) :
    textPipeLines (auth0_list_forms_formatText p forms total) = forms.length + 2 ∧
    textHas (auth0_list_forms_formatText p forms total)
      "| Name | Type | Status | Published |" = true := by
  have hJ : cpl true (String.join (forms.map formRowText)).data = forms.length ∧
      endsNl true (String.join (forms.map formRowText)).data = true := by
    have hall : ∀ s ∈ forms.map formRowText,
        cpl true s.data = 1 ∧ ∀ b, endsNl b s.data = true := by
      intro s hs
      obtain ⟨f, hf, rfl⟩ := List.mem_map.mp hs
      exact form_row_count f (hclean f hf)
    have := join_cpl (forms.map formRowText) hall
    rwa [List.length_map] at this
  have hF : '|' ∉ (String.join (forms.map formIdLine)).data := by
    apply join_noChar
    intro s hs
    obtain ⟨f, hf, rfl⟩ := List.mem_map.mp hs
    exact formIdLine_pipeFree f (hclean f hf)
  have hM : '\n' ∉ (if total > Int.ofNat forms.length then " of " ++ Int.repr total
      else "").data := by
    split
    · exact strNoChar_append (by decide) (intRepr_no_nl total)
    · decide
  have hcore := table_core_a "### Auth0 Forms ("
    (if total > Int.ofNat forms.length then " of " ++ Int.repr total else "")
    "| Name | Type | Status | Published |\n" "|------|------|--------|----------|\n"
    (String.join (forms.map formRowText)) "| Name | Type | Status | Published |"
    forms.length (by decide) (by decide) hM (by decide) (by decide) hJ (by decide)
  unfold textPipeLines
  simp only [auth0_list_forms_formatText]
  generalize hg1 : String.join (forms.map formRowText) = JR at hcore ⊢
  generalize hg2 : String.join (forms.map formIdLine) = JF at hF ⊢
  generalize hgR : ("### Auth0 Forms (" ++ Nat.repr forms.length ++
    (if total > Int.ofNat forms.length then " of " ++ Int.repr total else "") ++ ")\n\n" ++
    "| Name | Type | Status | Published |\n" ++ "|------|------|--------|----------|\n" ++
    JR) = R0S
  rw [hgR] at hcore
  have hts : '|' ∉ (if jsTruthy (p.getField "type") then
      ", type=\"" ++ jsInterp (p.getField "type") ++ "\"" else "").data := by
    split
    · exact strNoChar_append (strNoChar_append (by decide) htype) (by decide)
    · decide
  generalize hgT : (if jsTruthy (p.getField "type") then
      ", type=\"" ++ jsInterp (p.getField "type") ++ "\"" else "") = TS at hts ⊢
  generalize jsOrNum (p.getField "page") 0 = CP
  generalize jsCeilDiv total (jsOrNum (p.getField "per_page") 10) = TP
  constructor
  · repeat' split
    all_goals
      repeat'
        first
        | apply cpl_pipeFree_suffix
        | exact hcore.1
    all_goals
      first
      | exact hF
      | exact hts
      | exact intRepr_no_pipe _
      | exact natRepr_no_pipe _
      | decide
  · repeat' split
    all_goals
      repeat'
        first
        | apply textHas_left
        | exact hcore.2

/-- C7, amended: row counts and zero-item behaviour of the five list
handlers on a success reply.  With per-item cells that are newline- and
pipe-free, the actions, logs and forms list handlers respond to n >= 1
items with a success text containing the family table header and exactly
n + 2 pipe-prefixed table lines (header, separator and one row per item),
and respond to zero items with the family no-results message.  The
applications and resource servers list handlers have no zero-item branch:
for every item count n >= 0, including n = 0, they respond with a table of
n + 2 pipe-prefixed lines — an empty table when the list is empty, contrary
to the claim as stated, which excepts only the applications handler. -/
theorem C7_table_rows_and_zero_items :
    (∀ (r : HttpReply) (acts : List Json) (total page perPage : Int), r.ok = true →
      listActionsExtract r.body = .ok (acts, total, page, perPage) →
      (∀ a ∈ acts, actionCellsClean a) →
      (acts ≠ [] →
        auth0_list_actions_onResponse (.reply r) =
          .respond (successResponse (auth0_list_actions_formatText acts total page perPage)) ∧
        textHas (auth0_list_actions_formatText acts total page perPage)
          "| Name | Trigger | Status | Runtime |" = true ∧
        textPipeLines (auth0_list_actions_formatText acts total page perPage)
          = acts.length + 2) ∧
      (acts = [] →
        auth0_list_actions_onResponse (.reply r) =
          .respond (successResponse "No actions found in your Auth0 tenant."))) ∧
    (∀ (r : HttpReply) (logs : List Json) (total : Int), r.ok = true →
      listLogsExtract r.body = some (logs, total) →
      (∀ lg ∈ logs, logCellsClean lg ∧ '|' ∉ (jsInterp (lg.getField "_id")).data) →
      (logs ≠ [] →
        auth0_list_logs_onResponse (.reply r) =
          .respond (successResponse (auth0_list_logs_formatText logs total)) ∧
        textHas (auth0_list_logs_formatText logs total)
          "| Date | Type | Description | User |" = true ∧
        textPipeLines (auth0_list_logs_formatText logs total) = logs.length + 2) ∧
      (logs = [] →
        auth0_list_logs_onResponse (.reply r) =
          .respond (successResponse "No logs found matching your criteria."))) ∧
    (∀ (p : Json) (r : HttpReply) (forms : List Json) (total : Int), r.ok = true →
      listFormsExtract r.body = some (forms, total) →
      (∀ f ∈ forms, formCellsClean f) →
      '|' ∉ (jsInterp (p.getField "type")).data →
      (forms ≠ [] →
        auth0_list_forms_onResponse p (.reply r) =
          .respond (successResponse (auth0_list_forms_formatText p forms total)) ∧
        textHas (auth0_list_forms_formatText p forms total)
          "| Name | Type | Status | Published |" = true ∧
        textPipeLines (auth0_list_forms_formatText p forms total) = forms.length + 2) ∧
      (forms = [] →
        auth0_list_forms_onResponse p (.reply r) =
          .respond (successResponse "No forms found matching your criteria."))) ∧
    (∀ (r : HttpReply) (clients : List Json), r.ok = true →
      r.body.getField "clients" = some (.arr clients) →
      (∀ a ∈ clients, appCellsClean a) →
      auth0_list_applications_onResponse (.reply r) =
        .respond (successResponse (auth0_list_applications_formatText clients r.body)) ∧
      textHas (auth0_list_applications_formatText clients r.body)
        "| Name | Type | Description | Domain |" = true ∧
      textPipeLines (auth0_list_applications_formatText clients r.body)
        = clients.length + 2) ∧
    (∀ (r : HttpReply) (servers : List Json), r.ok = true →
      r.body.getField "resource_servers" = some (.arr servers) →
      (∀ s ∈ servers, rsCellsClean s) →
      auth0_list_resource_servers_onResponse (.reply r) =
        .respond (successResponse (auth0_list_resource_servers_formatText servers r.body)) ∧
      textHas (auth0_list_resource_servers_formatText servers r.body)
        "| Name | Identifier | Scopes |" = true ∧
      textPipeLines (auth0_list_resource_servers_formatText servers r.body)
        = servers.length + 2) := by
  refine ⟨?_, ?_, ?_, ?_, ?_⟩
  · intro r acts total page perPage hok hex hclean
    constructor
    · intro hne
      have h0 : ¬ acts.length = 0 := fun h => hne (List.length_eq_zero.mp h)
      refine ⟨?_, (actions_formatText_count acts total page perPage hclean).2,
        (actions_formatText_count acts total page perPage hclean).1⟩
      simp only [auth0_list_actions_onResponse, hok]
      rw [hex]
      simp [h0]
    · intro hz
      subst hz
      simp only [auth0_list_actions_onResponse, hok]
      rw [hex]
      simp
  · intro r logs total hok hex hclean
    constructor
    · intro hne
      have h0 : ¬ logs.length = 0 := fun h => hne (List.length_eq_zero.mp h)
      refine ⟨?_, (logs_formatText_count logs total hclean).2,
        (logs_formatText_count logs total hclean).1⟩
      simp only [auth0_list_logs_onResponse, hok]
      rw [hex]
      simp [h0]
    · intro hz
      subst hz
      simp only [auth0_list_logs_onResponse, hok]
      rw [hex]
      simp
  · intro p r forms total hok hex hclean htype
    constructor
    · intro hne
      have h0 : ¬ forms.length = 0 := fun h => hne (List.length_eq_zero.mp h)
      refine ⟨?_, (forms_formatText_count p forms total hclean htype).2,
        (forms_formatText_count p forms total hclean htype).1⟩
      simp only [auth0_list_forms_onResponse, hok]
      rw [hex]
      simp [h0]
    · intro hz
      subst hz
      simp only [auth0_list_forms_onResponse, hok]
      rw [hex]
      simp
  · intro r clients hok hcl hclean
    refine ⟨?_, (apps_formatText_count clients r.body hclean).2,
      (apps_formatText_count clients r.body hclean).1⟩
    simp only [auth0_list_applications_onResponse, hok]
    rw [hcl]
    simp
  · intro r servers hok hcl hclean
    refine ⟨?_, (rs_formatText_count servers r.body hclean).2,
      (rs_formatText_count servers r.body hclean).1⟩
    simp only [auth0_list_resource_servers_onResponse, hok]
    rw [hcl]
    simp

/-- Witness for C7: one concrete action item produces a success table of
exactly three pipe lines carrying the header. -/
theorem C7_table_rows_witness :
    auth0_list_actions_onResponse (FetchOutcome.reply
      { status := 200, statusText := "OK",
        body := .arr [.obj [("name", .str "A"), ("id", .str "act1")]], bodyText := "" }) =
      HandlerStep.respond (successResponse (auth0_list_actions_formatText
        [.obj [("name", .str "A"), ("id", .str "act1")]] 1 0 5)) ∧
    textHas (auth0_list_actions_formatText
      [.obj [("name", .str "A"), ("id", .str "act1")]] 1 0 5)
      "| Name | Trigger | Status | Runtime |" = true ∧
    textPipeLines (auth0_list_actions_formatText
      [.obj [("name", .str "A"), ("id", .str "act1")]] 1 0 5) = 3 := by
  have h := (C7_table_rows_and_zero_items.1
    { status := 200, statusText := "OK",
      body := .arr [.obj [("name", .str "A"), ("id", .str "act1")]], bodyText := "" }
    [.obj [("name", .str "A"), ("id", .str "act1")]] 1 0 5 rfl rfl (by
      intro a ha
      rw [List.mem_singleton] at ha
      subst ha
      exact ⟨⟨by decide, by decide⟩, ⟨by decide, by decide⟩, ⟨by decide, by decide⟩,
        ⟨by decide, by decide⟩, ⟨by decide, by decide⟩, ⟨by decide, by decide⟩⟩)).1
    (List.cons_ne_nil _ _)
  exact h

/-- Counterexample to C7 as stated: the resource servers list handler,
which the claim does not except, answers a success reply carrying zero
items with an empty markdown table (exactly the 2 header lines) instead of
a non-error no-results message. -/
theorem C7_zero_items_empty_table_counterexample :
    auth0_list_resource_servers_onResponse (FetchOutcome.reply
      { status := 200, statusText := "OK", body := .obj [("resource_servers", .arr [])],
        bodyText := "" }) =
      HandlerStep.respond (successResponse (auth0_list_resource_servers_formatText []
        (.obj [("resource_servers", .arr [])]))) ∧
    textPipeLines (auth0_list_resource_servers_formatText []
      (.obj [("resource_servers", .arr [])])) = 2 ∧
    textHas (auth0_list_resource_servers_formatText []
      (.obj [("resource_servers", .arr [])]))
      "| Name | Identifier | Scopes |" = true := by
  refine ⟨rfl, by decide, by decide⟩
